import Mathlib

/-! # TMC configurator of the VPP agent: a shallow embedding

Source files embedded here:

* `plugins/vpp/ifplugin/tmc_config.go` (the `TmcConfigurator`),
* `plugins/vpp/ifplugin/vppcalls/tmc_vppcalls.go` (`ModifyTmcConfig`).

Conventions of the embedding.

* A Go pointer `*T` that may be `nil` is an `Option T`; pointers are read as
  values (no aliasing).
* A Go `error` is an `Option TmcError`, `none` being `nil`.
* Unsigned machine integers are natural numbers, reduced explicitly where the
  source narrows or may wrap (`uint16(x)`, `uint8(x)`, `seq++` on `uint32`).
* A run-time panic (nil pointer dereference) is the result `none` of an
  operation; a normal return is `some (state, error)`.
* The binary API channel is a function from the requests sent so far and the
  current request to the outcome of `SendRequest(req).ReceiveReply(reply)`;
  every request sent is appended to the field `vppChan` of the configurator,
  so that the device calls of an operation can be read off the state.
-/

namespace idxvpp

/-- Modelled from the spec: the name-to-index registry (`idxvpp.NameToIdxRW`,
package `nametoidx`), whose implementation is not part of the sources read
here. An entry is `(name, index, metadata)`; the registry is the list of its
entries in order of registration. -/
abbrev NameToIdx (μ : Type) := List (String × Nat × μ)

namespace NameToIdx

/-- Modelled from the spec: `LookupIdx(name) → (index, metadata, found)`, an
exact lookup. `none` stands for the triple `(0, nil, false)`. -/
def LookupIdx {μ : Type} : NameToIdx μ → String → Option (Nat × μ)
  | [], _ => none
  | (n, i, m) :: r, name => if n = name then some (i, m) else LookupIdx r name

/-- The index component of the triple `LookupIdx` returns: the registered
index, and `0` when the name is not found. -/
def lookupIndex {μ : Type} (r : NameToIdx μ) (name : String) : Nat :=
  match LookupIdx r name with
  | some (i, _) => i
  | none => 0

/-- Modelled from the spec: `UnregisterName(name)` removes the mapping and is
a no-op when the name is absent. -/
def UnregisterName {μ : Type} (r : NameToIdx μ) (name : String) : NameToIdx μ :=
  r.filter (fun e => decide (e.1 ≠ name))

/-- Modelled from the spec: `RegisterName(name, index, metadata)` inserts the
mapping or overwrites the one already registered under `name`. -/
def RegisterName {μ : Type} (r : NameToIdx μ) (name : String) (idx : Nat) (metadata : μ) :
    NameToIdx μ :=
  UnregisterName r name ++ [(name, idx, metadata)]

/-- Modelled from the spec: `Clear()` is the wholesale reset. -/
def Clear {μ : Type} (_r : NameToIdx μ) : NameToIdx μ := []

/-- Number of entries registered under `name`. -/
def count {μ : Type} (r : NameToIdx μ) (name : String) : Nat :=
  (r.filter (fun e => decide (e.1 = name))).length

end NameToIdx

end idxvpp

namespace modelTmc

/-- Modelled from the spec: the configuration message `modelTmc.TmcConfig`
(generated from `tmc.proto`, not part of the sources read here), with the
four fields the configurator reads. The numeric fields are unsigned. -/
structure TmcConfig where
  ConfigName : String
  TcpMssClamping : Nat
  InterfaceName : String
  MssValue : Nat
deriving DecidableEq

end modelTmc

/-- Errors the configurator and the handler return.

* `transport e`: the error of `SendRequest(req).ReceiveReply(reply)`, returned as is;
* `retval r`: `"%s returned %d"` for a reply with non-zero `Retval`;
* `noChannel e`: `"failed to create API channel: %v"`;
* `inputEmpty`: `"failed to add tmc config, input is empty"`;
* `noInterface n`: `"failed to add tmc config %s, no interface provided"`;
* `addFailed n e`: `"failed to add tmc config %s: %v"`;
* `deleteFailed n e`: `"failed to delete tmc config %s: %v"`;
* `oldNil`, `newNil`: `"failed to modify tmc config, provided old/new value is nil"`. -/
inductive TmcError where
  | transport (e : String)
  | retval (r : Int)
  | noChannel (e : String)
  | inputEmpty
  | noInterface (configName : String)
  | addFailed (configName : String) (cause : TmcError)
  | deleteFailed (configName : String) (cause : TmcError)
  | oldNil
  | newNil
deriving DecidableEq

namespace vppcalls

/-- The request message `tmc.TmcEnableDisable` as `ModifyTmcConfig` fills it. -/
structure TmcEnableDisable where
  IsEnable : Nat
  SwIfIndex : Nat
  Mss : Nat
deriving DecidableEq

/-- The binary API channel: given the requests sent before and the current
request, the error of `SendRequest(req).ReceiveReply(reply)` (`none` for
`nil`) and the `Retval` of the reply. -/
abbrev Channel := List TmcEnableDisable → TmcEnableDisable → Option String × Int

/-- The `TmcConfig` of package `vppcalls`: one TMC config entry. -/
structure TmcConfig where
  MssValue : Nat
  IfaceIdx : Nat
  IsEnabled : Nat
deriving DecidableEq

/-- `TmcVppHandler.ModifyTmcConfig`: sends one request and returns the
extended log of sent requests with the error. -/
def ModifyTmcConfig (ch : Channel) (sent : List TmcEnableDisable)
    (ifIdx mssValue isEnabled : Nat) : List TmcEnableDisable × Option TmcError :=
  let req : TmcEnableDisable := { IsEnable := isEnabled, SwIfIndex := ifIdx, Mss := mssValue }
  match ch sent req with
  | (some err, _) => (sent ++ [req], some (TmcError.transport err))
  | (none, retval) =>
    if retval ≠ 0 then (sent ++ [req], some (TmcError.retval retval))
    else (sent ++ [req], none)

end vppcalls

namespace ifplugin

open idxvpp

/-- The `TmcConfigurator`. The metadata of a registry entry is an
`interface{}` in the source; `some c` is a non-nil `*TmcConfig`, `none` is
anything else (the type assertion fails or yields a nil pointer). `vppChan`
holds the requests sent over the channel so far. -/
structure TmcConfigurator where
  ifIndexes : NameToIdx Unit
  allIndexes : NameToIdx (Option modelTmc.TmcConfig)
  allIndexesSeq : Nat
  unstoredIndexes : NameToIdx (Option modelTmc.TmcConfig)
  unstoredIndexSeq : Nat
  vppChan : List vppcalls.TmcEnableDisable
deriving DecidableEq

/-- The result of an operation: `none` is a panic, `some (c, err)` the
configurator after the call and the returned error. -/
abbrev Result := Option (TmcConfigurator × Option TmcError)

/-- `TmcIdentifier`: `fmt.Sprintf("tmc-iface-%v", iface)`. -/
def TmcIdentifier (iface : String) : String := "tmc-iface-" ++ iface

/-- `IndexExistsFor`. -/
def IndexExistsFor (c : TmcConfigurator) (name : String) : Bool :=
  (c.allIndexes.LookupIdx name).isSome

/-- `UnstoredIndexExistsFor`. -/
def UnstoredIndexExistsFor (c : TmcConfigurator) (name : String) : Bool :=
  (c.unstoredIndexes.LookupIdx name).isSome

/-- `Init`: `chanErr` is the error of `goVppMux.NewAPIChannel()`. -/
def Init (chanErr : Option String) (ifIndexes : NameToIdx Unit) :
    Except TmcError TmcConfigurator :=
  match chanErr with
  | some err => Except.error (TmcError.noChannel err)
  | none =>
    Except.ok
      { ifIndexes := ifIndexes
        allIndexes := []
        allIndexesSeq := 1
        unstoredIndexes := []
        unstoredIndexSeq := 1
        vppChan := [] }

/-- `clearMapping`. -/
def clearMapping (c : TmcConfigurator) : TmcConfigurator :=
  { c with allIndexes := c.allIndexes.Clear, unstoredIndexes := c.unstoredIndexes.Clear }

/-- `checkTmc`: the Go triple `(tmcConfig, doVPPCall, err)`; an error comes
with no config. `uint16(x)` and `uint8(x)` keep the low 16 and 8 bits. -/
def checkTmc (tmcInput : Option modelTmc.TmcConfig) (index : NameToIdx Unit) :
    Except TmcError (vppcalls.TmcConfig × Bool) :=
  match tmcInput with
  | none => Except.error TmcError.inputEmpty
  | some t =>
    if t.InterfaceName = "" then Except.error (TmcError.noInterface t.ConfigName)
    else
      let ifName := t.InterfaceName
      let ifIndex := index.lookupIndex ifName
      let doVPPCall := (index.LookupIdx ifName).isSome
      Except.ok
        ({ MssValue := t.MssValue % 65536, IfaceIdx := ifIndex,
           IsEnabled := t.TcpMssClamping % 256 }, doVPPCall)

/-- `indexTmcConfig`; the sequence counters are `uint32`. -/
def indexTmcConfig (c : TmcConfigurator) (config : modelTmc.TmcConfig) (withoutIface : Bool) :
    TmcConfigurator :=
  let idx := TmcIdentifier config.InterfaceName
  let c1 : TmcConfigurator :=
    if withoutIface then
      { c with
        unstoredIndexes := c.unstoredIndexes.RegisterName idx c.unstoredIndexSeq (some config)
        unstoredIndexSeq := (c.unstoredIndexSeq + 1) % 4294967296 }
    else c
  { c1 with
    allIndexes := c1.allIndexes.RegisterName idx c1.allIndexesSeq (some config)
    allIndexesSeq := (c1.allIndexesSeq + 1) % 4294967296 }

/-- `removeConfigFromIndex`: returns `(withoutIface, config)` with the new
state; panics when the unstored entry exists and `config` is still nil
(`config.ConfigName` is evaluated for the log call). -/
def removeConfigFromIndex (c : TmcConfigurator) (iface : String) :
    Option (TmcConfigurator × Bool × Option modelTmc.TmcConfig) :=
  let idx := TmcIdentifier iface
  let r : TmcConfigurator × Option modelTmc.TmcConfig :=
    match c.allIndexes.LookupIdx idx with
    | some (_, configIface) =>
      ({ c with allIndexes := c.allIndexes.UnregisterName idx }, configIface)
    | none => (c, none)
  match r.1.unstoredIndexes.LookupIdx idx with
  | some _ =>
    match r.2 with
    | none => none
    | some config =>
      some ({ r.1 with unstoredIndexes := r.1.unstoredIndexes.UnregisterName idx }, true,
        some config)
  | none => some (r.1, false, r.2)

/-- `configFromIndex`. -/
def configFromIndex (c : TmcConfigurator) (iface : String) (fromAllConfigs : Bool) :
    Option modelTmc.TmcConfig :=
  let idx := TmcIdentifier iface
  let found :=
    if !fromAllConfigs then c.unstoredIndexes.LookupIdx idx else c.allIndexes.LookupIdx idx
  match found with
  | some (_, configIface) => configIface
  | none => none

/-- `TmcConfigurator.Add`. -/
def Add (ch : vppcalls.Channel) (c : TmcConfigurator) (config : Option modelTmc.TmcConfig) :
    Result :=
  match checkTmc config c.ifIndexes with
  | Except.error err => some (c, some err)
  | Except.ok (tmcConfig, doVPPCall) =>
    match config with
    | none => none
    | some cfg =>
      if !doVPPCall then some (indexTmcConfig c cfg true, none)
      else
        match vppcalls.ModifyTmcConfig ch c.vppChan tmcConfig.IfaceIdx tmcConfig.MssValue
            tmcConfig.IsEnabled with
        | (sent, some err) =>
          some ({ c with vppChan := sent }, some (TmcError.addFailed cfg.ConfigName err))
        | (sent, none) => some (indexTmcConfig { c with vppChan := sent } cfg false, none)

/-- `TmcConfigurator.Delete`. -/
def Delete (ch : vppcalls.Channel) (c : TmcConfigurator) (config : Option modelTmc.TmcConfig) :
    Result :=
  match checkTmc config c.ifIndexes with
  | Except.error err => some (c, some err)
  | Except.ok (tmcConfig, _) =>
    match config with
    | none => none
    | some cfg =>
      match removeConfigFromIndex c cfg.InterfaceName with
      | none => none
      | some (c1, withoutIf, _) =>
        if withoutIf then some (c1, none)
        else
          match vppcalls.ModifyTmcConfig ch c1.vppChan tmcConfig.IfaceIdx tmcConfig.MssValue
              tmcConfig.IsEnabled with
          | (sent, some err) =>
            some ({ c1 with vppChan := sent }, some (TmcError.deleteFailed cfg.ConfigName err))
          | (sent, none) => some ({ c1 with vppChan := sent }, none)

/-- `TmcConfigurator.Modify`. -/
def Modify (ch : vppcalls.Channel) (c : TmcConfigurator)
    (oldConfig newConfig : Option modelTmc.TmcConfig) : Result :=
  match oldConfig with
  | none => some (c, some TmcError.oldNil)
  | some _ =>
    match newConfig with
    | none => some (c, some TmcError.newNil)
    | some _ =>
      match Delete ch c oldConfig with
      | none => none
      | some (c1, some err) => some (c1, some err)
      | some (c1, none) =>
        match Add ch c1 newConfig with
        | none => none
        | some (c2, some err) => some (c2, some err)
        | some (c2, none) => some (c2, none)

/-- `TmcConfigurator.ResolveDeletedInterface`. -/
def ResolveDeletedInterface (ch : vppcalls.Channel) (c : TmcConfigurator)
    (interfaceName : String) : Result :=
  match configFromIndex c interfaceName true with
  | some config =>
    match Delete ch c (some config) with
    | none => none
    | some (c1, some err) => some (c1, some err)
    | some (c1, none) => some (c1, none)
  | none => some (c, none)

/-- `TmcConfigurator.ResolveCreatedInterface`. -/
def ResolveCreatedInterface (ch : vppcalls.Channel) (c : TmcConfigurator)
    (interfaceName : String) : Result :=
  match configFromIndex c interfaceName false with
  | some config =>
    match Add ch c (some config) with
    | none => none
    | some (c1, none) =>
      some ({ c1 with
              unstoredIndexes := c1.unstoredIndexes.UnregisterName (TmcIdentifier interfaceName) },
        none)
    | some (c1, some err) => some (c1, some err)
  | none => some (c, none)

/-- The reading of the specification of `Modify`: `Delete(old)` followed by
`Add(new)`, the add step being attempted only when the delete step returned
no error. -/
def deleteThenAdd (ch : vppcalls.Channel) (c : TmcConfigurator)
    (oldConfig newConfig : Option modelTmc.TmcConfig) : Result :=
  (Delete ch c oldConfig).bind fun r =>
    match r.2 with
    | none => Add ch r.1 newConfig
    | some err => some (r.1, some err)

/-- The state `removeConfigFromIndex` leaves when it returns: the identifier
of the interface is unregistered from both registries. -/
def unregistered (c : TmcConfigurator) (iface : String) : TmcConfigurator :=
  { c with allIndexes := c.allIndexes.UnregisterName (TmcIdentifier iface),
           unstoredIndexes := c.unstoredIndexes.UnregisterName (TmcIdentifier iface) }

/-- The states the configurator can be in: those produced by a successful
`Init` and then by any sequence of calls of its operations, the channel
answering in any way at each call and the interface registry `ifIndexes`
(owned by the interface plugin) changing in any way between calls. -/
inductive Reachable : TmcConfigurator → Prop where
  | init (ifIndexes : NameToIdx Unit) (c : TmcConfigurator) :
      Init none ifIndexes = Except.ok c → Reachable c
  | interfaces (c : TmcConfigurator) (ifIndexes : NameToIdx Unit) :
      Reachable c → Reachable { c with ifIndexes := ifIndexes }
  | clear (c : TmcConfigurator) : Reachable c → Reachable (clearMapping c)
  | add (ch : vppcalls.Channel) (c c1 : TmcConfigurator) (config : Option modelTmc.TmcConfig)
      (err : Option TmcError) :
      Reachable c → Add ch c config = some (c1, err) → Reachable c1
  | delete (ch : vppcalls.Channel) (c c1 : TmcConfigurator) (config : Option modelTmc.TmcConfig)
      (err : Option TmcError) :
      Reachable c → Delete ch c config = some (c1, err) → Reachable c1
  | modify (ch : vppcalls.Channel) (c c1 : TmcConfigurator)
      (oldConfig newConfig : Option modelTmc.TmcConfig) (err : Option TmcError) :
      Reachable c → Modify ch c oldConfig newConfig = some (c1, err) → Reachable c1
  | resolveCreated (ch : vppcalls.Channel) (c c1 : TmcConfigurator) (interfaceName : String)
      (err : Option TmcError) :
      Reachable c → ResolveCreatedInterface ch c interfaceName = some (c1, err) → Reachable c1
  | resolveDeleted (ch : vppcalls.Channel) (c c1 : TmcConfigurator) (interfaceName : String)
      (err : Option TmcError) :
      Reachable c → ResolveDeletedInterface ch c interfaceName = some (c1, err) → Reachable c1

/-- A channel on which the device accepts every request. -/
def acceptAll : vppcalls.Channel := fun _ _ => (none, 0)

/-- A channel on which the device rejects every request with `Retval` `-1`. -/
def rejectAll : vppcalls.Channel := fun _ _ => (none, -1)

/-- The config `tmcConfig()` of `examples/localclient_vpp/tmc/main.go`. -/
def tmcConfig : modelTmc.TmcConfig :=
  { ConfigName := "config1", TcpMssClamping := 1, InterfaceName := "memif1", MssValue := 1450 }

/-- A second config for the interface of `tmcConfig`, with another MSS. -/
def tmcConfig2 : modelTmc.TmcConfig :=
  { ConfigName := "config2", TcpMssClamping := 1, InterfaceName := "memif1", MssValue := 1200 }

/-- The configurator right after `Init`, no interface being registered. -/
def fresh : TmcConfigurator :=
  { ifIndexes := [], allIndexes := [], allIndexesSeq := 1, unstoredIndexes := [],
    unstoredIndexSeq := 1, vppChan := [] }

/-- An interface registry in which `memif1` has index `5`. -/
def memif1Up : NameToIdx Unit := [("memif1", 5, ())]

/-- The configurator after `Add(tmcConfig())` on the fresh configurator: the
config is pending. -/
def pending : TmcConfigurator :=
  { ifIndexes := [], allIndexes := [("tmc-iface-memif1", 1, some tmcConfig)], allIndexesSeq := 2,
    unstoredIndexes := [("tmc-iface-memif1", 1, some tmcConfig)], unstoredIndexSeq := 2,
    vppChan := [] }

/-- The pending configurator once `memif1` is registered in `ifIndexes`. -/
def pendingUp : TmcConfigurator := { pending with ifIndexes := memif1Up }

/-- The configurator after `Add(tmcConfig())` with `memif1` registered and the
device accepting: the config is realized. -/
def realized : TmcConfigurator :=
  { ifIndexes := memif1Up, allIndexes := [("tmc-iface-memif1", 1, some tmcConfig)],
    allIndexesSeq := 2, unstoredIndexes := [], unstoredIndexSeq := 1,
    vppChan := [{ IsEnable := 1, SwIfIndex := 5, Mss := 1450 }] }

/-- A registry is keyed by its configs: every entry found carries a non-nil
config with a non-empty interface name, registered under the identifier of
that interface. -/
def KeyedByConfig (r : NameToIdx (Option modelTmc.TmcConfig)) : Prop :=
  ∀ (name : String) (i : Nat) (m : Option modelTmc.TmcConfig),
    r.LookupIdx name = some (i, m) →
      ∃ cfg : modelTmc.TmcConfig,
        m = some cfg ∧ cfg.InterfaceName ≠ "" ∧ name = TmcIdentifier cfg.InterfaceName

/-- The bookkeeping invariant of the configurator: both registries are keyed
by their configs and every name of `unstoredIndexes` is also a name of
`allIndexes`. -/
def WellFormed (c : TmcConfigurator) : Prop :=
  KeyedByConfig c.allIndexes ∧ KeyedByConfig c.unstoredIndexes ∧
    ∀ name : String, c.unstoredIndexes.LookupIdx name ≠ none → c.allIndexes.LookupIdx name ≠ none

end ifplugin

namespace ifplugin

open idxvpp

/-- One call on the configurator, or one change of the interface registry by
its owner: `Step c c1` holds when `c1` is the state after such a step taken
in state `c` (the channel answering in any way). -/
inductive Step : TmcConfigurator → TmcConfigurator → Prop where
  | interfaces (c : TmcConfigurator) (ifIndexes : NameToIdx Unit) :
      Step c { c with ifIndexes := ifIndexes }
  | clear (c : TmcConfigurator) : Step c (clearMapping c)
  | add (ch : vppcalls.Channel) (c c1 : TmcConfigurator) (config : Option modelTmc.TmcConfig)
      (err : Option TmcError) : Add ch c config = some (c1, err) → Step c c1
  | delete (ch : vppcalls.Channel) (c c1 : TmcConfigurator) (config : Option modelTmc.TmcConfig)
      (err : Option TmcError) : Delete ch c config = some (c1, err) → Step c c1
  | modify (ch : vppcalls.Channel) (c c1 : TmcConfigurator)
      (oldConfig newConfig : Option modelTmc.TmcConfig) (err : Option TmcError) :
      Modify ch c oldConfig newConfig = some (c1, err) → Step c c1
  | resolveCreated (ch : vppcalls.Channel) (c c1 : TmcConfigurator) (interfaceName : String)
      (err : Option TmcError) :
      ResolveCreatedInterface ch c interfaceName = some (c1, err) → Step c c1
  | resolveDeleted (ch : vppcalls.Channel) (c c1 : TmcConfigurator) (interfaceName : String)
      (err : Option TmcError) :
      ResolveDeletedInterface ch c interfaceName = some (c1, err) → Step c c1

/-- A step that stays within the range of the `uint32` sequence counters: each
counter is either left alone or was below `2^32 - 1`, so that its increment
did not wrap around. -/
def UnwrappedStep (c c1 : TmcConfigurator) : Prop :=
  Step c c1 ∧
    (c1.allIndexesSeq = c.allIndexesSeq ∨ c.allIndexesSeq + 1 < 4294967296) ∧
    (c1.unstoredIndexSeq = c.unstoredIndexSeq ∨ c.unstoredIndexSeq + 1 < 4294967296)

/-- The states reached from a successful `Init` by steps none of which wraps
a sequence counter, that is, with fewer than `2^32 - 1` registrations in each
registry. -/
def ReachableUnwrapped (c : TmcConfigurator) : Prop :=
  ∃ (ifIndexes : NameToIdx Unit) (c0 : TmcConfigurator),
    Init none ifIndexes = Except.ok c0 ∧ Relation.ReflTransGen UnwrappedStep c0 c

/-- The indices of a registry are pairwise distinct and all below `seq`. -/
def IndexesBelow {μ : Type} (r : NameToIdx μ) (seq : Nat) : Prop :=
  (∀ e ∈ r, e.2.1 < seq) ∧ (r.map (fun e => e.2.1)).Nodup

/-- The invariant of the sequence counters: both are at least `1` and fit in
a `uint32`, and each registry holds pairwise distinct indices below its
counter. -/
def SeqInv (c : TmcConfigurator) : Prop :=
  1 ≤ c.allIndexesSeq ∧ c.allIndexesSeq < 4294967296 ∧
    1 ≤ c.unstoredIndexSeq ∧ c.unstoredIndexSeq < 4294967296 ∧
    IndexesBelow c.allIndexes c.allIndexesSeq ∧
    IndexesBelow c.unstoredIndexes c.unstoredIndexSeq

/-- From `c` to `c1` the counters did not decrease and every entry of `c1` is
either an entry of `c` or carries an index at least the counter of `c`. -/
def Advances (c c1 : TmcConfigurator) : Prop :=
  c.allIndexesSeq ≤ c1.allIndexesSeq ∧ c.unstoredIndexSeq ≤ c1.unstoredIndexSeq ∧
    (∀ e ∈ c1.allIndexes, e ∈ c.allIndexes ∨ c.allIndexesSeq ≤ e.2.1) ∧
    (∀ e ∈ c1.unstoredIndexes, e ∈ c.unstoredIndexes ∨ c.unstoredIndexSeq ≤ e.2.1)

/-- The pending configurator after `ResolveCreatedInterface("memif1")` was
called while `memif1` was still not registered in `ifIndexes`. -/
def resolvedAbsent : TmcConfigurator :=
  { ifIndexes := [], allIndexes := [("tmc-iface-memif1", 2, some tmcConfig)], allIndexesSeq := 3,
    unstoredIndexes := [], unstoredIndexSeq := 3, vppChan := [] }

/-- The realized configurator after `memif1` left `ifIndexes` and
`Add(tmcConfig())` was called again. -/
def readded : TmcConfigurator :=
  { ifIndexes := [], allIndexes := [("tmc-iface-memif1", 2, some tmcConfig)], allIndexesSeq := 3,
    unstoredIndexes := [("tmc-iface-memif1", 1, some tmcConfig)], unstoredIndexSeq := 2,
    vppChan := [{ IsEnable := 1, SwIfIndex := 5, Mss := 1450 }] }

end ifplugin

/-! # The LocalSID descriptor: a shallow embedding

Source file embedded here: `plugins/vpp/srplugin/descriptor/localsid.go`.

* The Go standard library is not part of the sources. `net.ParseIP`,
  `strings.ToLower` and `strings.TrimSpace` are taken as parameters (the
  structure `Stdlib`); the byte-level methods `To4`, `To16` and `Equal` of
  `net.IP` are written out as the library documents them.
* `interfaces.InterfaceKey` (a function of this repository outside the sources
  read here) is taken as a parameter.
* A run-time panic (nil pointer dereference, failed type assertion) is the
  result `none`.
-/

namespace net

/-- The type `net.IP`, a slice of bytes. -/
abbrev IP := List Nat

/-- The 12 bytes that precede an IPv4 address in its 16-byte form. -/
def v4InV6Prefix : List Nat := [0, 0, 0, 0, 0, 0, 0, 0, 0, 0, 255, 255]

/-- The method `IP.To4` of the Go standard library: the 4-byte form of an
IPv4 address (given by 4 bytes, or by 16 bytes with the IPv4-in-IPv6 prefix),
`none` (nil) otherwise. -/
def To4 (ip : IP) : Option IP :=
  if ip.length = 4 then some ip
  else if ip.length = 16 ∧ ip.take 12 = v4InV6Prefix then some (ip.drop 12)
  else none

/-- The method `IP.To16` of the Go standard library: the 16-byte form of an
address of 4 or 16 bytes, `none` (nil) otherwise. -/
def To16 (ip : IP) : Option IP :=
  if ip.length = 4 then some (v4InV6Prefix ++ ip)
  else if ip.length = 16 then some ip
  else none

/-- The method `IP.Equal` of the Go standard library: the same bytes, an IPv4
address and its 16-byte form being considered equal. -/
def Equal (ip x : IP) : Bool :=
  if ip.length = x.length then decide (ip = x)
  else if ip.length = 4 ∧ x.length = 16 then
    decide (x.take 12 = v4InV6Prefix ∧ ip = x.drop 12)
  else if ip.length = 16 ∧ x.length = 4 then
    decide (ip.take 12 = v4InV6Prefix ∧ ip.drop 12 = x)
  else false

end net

/-- The functions of the Go standard library the descriptor calls on text:
`net.ParseIP` (`none` for nil), `strings.ToLower` and `strings.TrimSpace`. -/
structure Stdlib where
  ParseIP : String → Option net.IP
  ToLower : String → String
  TrimSpace : String → String

namespace srv6

/-- The payload `LocalSID_EndX`; of each payload only the fields the
descriptor reads are kept. -/
structure LocalSID_EndX where
  Psp : Bool
  NextHop : String
  OutgoingInterface : String
deriving DecidableEq

/-- The payload `LocalSID_EndT`. -/
structure LocalSID_EndT where
  Psp : Bool
deriving DecidableEq

/-- The payload `LocalSID_EndDX2`; `NextHop` is a MAC address. -/
structure LocalSID_EndDX2 where
  VlanTag : Nat
  NextHop : String
  OutgoingInterface : String
deriving DecidableEq

/-- The payload `LocalSID_EndDX4`. -/
structure LocalSID_EndDX4 where
  NextHop : String
  OutgoingInterface : String
deriving DecidableEq

/-- The payload `LocalSID_EndDX6`. -/
structure LocalSID_EndDX6 where
  NextHop : String
  OutgoingInterface : String
deriving DecidableEq

/-- The payload `LocalSID_EndAD`. -/
structure LocalSID_EndAD where
  OutgoingInterface : String
  IncomingInterface : String
  ServiceAddress : String
deriving DecidableEq

/-- The values an `EndFunction` field can hold besides nil: one of the nine
generated wrappers `*LocalSID_BaseEndFunction`, `*LocalSID_EndFunction_X`, ...,
whose payload pointer may be nil (`none`), or a value of some other type,
given by an identifier of its type and its content as `reflect.DeepEqual`
sees it. -/
inductive EndFunction where
  | BaseEndFunction
  | EndFunction_X (p : Option LocalSID_EndX)
  | EndFunction_T (p : Option LocalSID_EndT)
  | EndFunction_DX2 (p : Option LocalSID_EndDX2)
  | EndFunction_DX4 (p : Option LocalSID_EndDX4)
  | EndFunction_DX6 (p : Option LocalSID_EndDX6)
  | EndFunction_DT4
  | EndFunction_DT6
  | EndFunction_AD (p : Option LocalSID_EndAD)
  | unknown (typeId : Nat) (content : List Nat)
deriving DecidableEq

/-- The dynamic type of an end function, as `reflect.TypeOf` reports it. -/
inductive EndFunctionType where
  | BaseEndFunction
  | EndFunction_X
  | EndFunction_T
  | EndFunction_DX2
  | EndFunction_DX4
  | EndFunction_DX6
  | EndFunction_DT4
  | EndFunction_DT6
  | EndFunction_AD
  | unknown (typeId : Nat)
deriving DecidableEq

/-- `reflect.TypeOf` on an end function. -/
def EndFunction.TypeOf : EndFunction → EndFunctionType
  | EndFunction.BaseEndFunction => EndFunctionType.BaseEndFunction
  | EndFunction.EndFunction_X _ => EndFunctionType.EndFunction_X
  | EndFunction.EndFunction_T _ => EndFunctionType.EndFunction_T
  | EndFunction.EndFunction_DX2 _ => EndFunctionType.EndFunction_DX2
  | EndFunction.EndFunction_DX4 _ => EndFunctionType.EndFunction_DX4
  | EndFunction.EndFunction_DX6 _ => EndFunctionType.EndFunction_DX6
  | EndFunction.EndFunction_DT4 => EndFunctionType.EndFunction_DT4
  | EndFunction.EndFunction_DT6 => EndFunctionType.EndFunction_DT6
  | EndFunction.EndFunction_AD _ => EndFunctionType.EndFunction_AD
  | EndFunction.unknown t _ => EndFunctionType.unknown t

/-- The message `srv6.LocalSID` (generated code, not part of the sources read
here), with the three fields the descriptor reads; `EndFunction` is `none`
when the interface value is nil. -/
structure LocalSID where
  Sid : String
  FibTableId : Int
  EndFunction : Option EndFunction
deriving DecidableEq

end srv6

namespace scheduler

/-- The `Dependency` of the scheduler API: a label and the key of the value
depended on. -/
structure Dependency where
  Label : String
  Key : String
deriving DecidableEq

end scheduler

namespace descriptor

/-- The dependency label `localsidOutgoingInterfaceDep`. -/
def localsidOutgoingInterfaceDep : String := "sr-localsid-outgoing-interface-exists"

/-- The dependency label `localsidIncomingInterfaceDep`. -/
def localsidIncomingInterfaceDep : String := "sr-localsid-incoming-interface-exists"

/-- The errors of `ParseIPv6` and `ParseIPv4`: `" %q is not ip address"`,
`" %q is not ipv6 address"` and `" %q is not ipv4 address"`. -/
inductive ParseError where
  | notIP (str : String)
  | notIPv6 (str : String)
  | notIPv4 (str : String)
deriving DecidableEq

/-- `ParseIPv6`. -/
def ParseIPv6 (std : Stdlib) (str : String) : Except ParseError net.IP :=
  match std.ParseIP str with
  | none => Except.error (ParseError.notIP str)
  | some ip =>
    match net.To16 ip with
    | none => Except.error (ParseError.notIPv6 str)
    | some ipv6 => Except.ok ipv6

/-- `ParseIPv4`. -/
def ParseIPv4 (std : Stdlib) (str : String) : Except ParseError net.IP :=
  match std.ParseIP str with
  | none => Except.error (ParseError.notIP str)
  | some ip =>
    match net.To4 ip with
    | none => Except.error (ParseError.notIPv4 str)
    | some ipv4 => Except.ok ipv4

/-- `equivalentTrimmedLowered`. -/
def equivalentTrimmedLowered (std : Stdlib) (str1 str2 : String) : Bool :=
  decide (std.TrimSpace (std.ToLower str1) = std.TrimSpace (std.ToLower str2))

/-- `equivalentIPv6`. -/
def equivalentIPv6 (std : Stdlib) (ip1Str ip2str : String) : Bool :=
  match ParseIPv6 std ip1Str, ParseIPv6 std ip2str with
  | Except.ok ip1, Except.ok ip2 => net.Equal ip1 ip2
  | _, _ => equivalentTrimmedLowered std ip1Str ip2str

/-- `equivalentIPv4`. -/
def equivalentIPv4 (std : Stdlib) (ip1str ip2str : String) : Bool :=
  match ParseIPv4 std ip1str, ParseIPv4 std ip2str with
  | Except.ok ip1, Except.ok ip2 => net.Equal ip1 ip2
  | _, _ => equivalentTrimmedLowered std ip1str ip2str

/-- `equivalentSIDs`. -/
def equivalentSIDs (std : Stdlib) (sid1 sid2 : String) : Bool :=
  equivalentIPv6 std sid1 sid2

/-- `equivalentEndFunctions`. In each case the operands of the first
comparison read the payloads of both end functions, so a nil payload panics;
a type assertion on `ef2` to another type than its own panics as well. -/
def equivalentEndFunctions (std : Stdlib) (ef1 ef2 : Option srv6.EndFunction) : Option Bool :=
  match ef1, ef2 with
  | none, none => some true
  | none, some _ => some false
  | some _, none => some false
  | some e1, some e2 =>
    if e1.TypeOf ≠ e2.TypeOf then some false
    else
      match e1, e2 with
      | srv6.EndFunction.BaseEndFunction, _ => some true
      | srv6.EndFunction.EndFunction_X (some a), srv6.EndFunction.EndFunction_X (some b) =>
        some (decide (a.Psp = b.Psp) && equivalentIPv6 std a.NextHop b.NextHop &&
          equivalentTrimmedLowered std a.OutgoingInterface b.OutgoingInterface)
      | srv6.EndFunction.EndFunction_X _, _ => none
      | srv6.EndFunction.EndFunction_T (some a), srv6.EndFunction.EndFunction_T (some b) =>
        some (decide (a.Psp = b.Psp))
      | srv6.EndFunction.EndFunction_T _, _ => none
      | srv6.EndFunction.EndFunction_DX2 (some a), srv6.EndFunction.EndFunction_DX2 (some b) =>
        some (decide (a.VlanTag = b.VlanTag) && equivalentTrimmedLowered std a.NextHop b.NextHop &&
          equivalentTrimmedLowered std a.OutgoingInterface b.OutgoingInterface)
      | srv6.EndFunction.EndFunction_DX2 _, _ => none
      | srv6.EndFunction.EndFunction_DX4 (some a), srv6.EndFunction.EndFunction_DX4 (some b) =>
        some (equivalentIPv4 std a.NextHop b.NextHop &&
          equivalentTrimmedLowered std a.OutgoingInterface b.OutgoingInterface)
      | srv6.EndFunction.EndFunction_DX4 _, _ => none
      | srv6.EndFunction.EndFunction_DX6 (some a), srv6.EndFunction.EndFunction_DX6 (some b) =>
        some (equivalentIPv4 std a.NextHop b.NextHop &&
          equivalentTrimmedLowered std a.OutgoingInterface b.OutgoingInterface)
      | srv6.EndFunction.EndFunction_DX6 _, _ => none
      | srv6.EndFunction.EndFunction_DT4, _ => some true
      | srv6.EndFunction.EndFunction_DT6, _ => some true
      | srv6.EndFunction.EndFunction_AD (some a), srv6.EndFunction.EndFunction_AD (some b) =>
        some (equivalentTrimmedLowered std a.OutgoingInterface b.OutgoingInterface &&
          equivalentTrimmedLowered std a.IncomingInterface b.IncomingInterface &&
          (equivalentIPv4 std a.ServiceAddress b.ServiceAddress ||
            equivalentIPv6 std a.ServiceAddress b.ServiceAddress))
      | srv6.EndFunction.EndFunction_AD _, _ => none
      | srv6.EndFunction.unknown t1 v1, srv6.EndFunction.unknown t2 v2 =>
        some (decide (t1 = t2 ∧ v1 = v2))
      | srv6.EndFunction.unknown _ _, _ => some false

/-- `EquivalentLocalSIDs`; `&&` evaluates its right operand only when the
left one is true. -/
def EquivalentLocalSIDs (std : Stdlib) (_key : String) (oldLocalSID newLocalSID : srv6.LocalSID) :
    Option Bool :=
  if oldLocalSID.FibTableId ≠ newLocalSID.FibTableId then some false
  else if !equivalentSIDs std oldLocalSID.Sid newLocalSID.Sid then some false
  else equivalentEndFunctions std oldLocalSID.EndFunction newLocalSID.EndFunction

/-- `Dependencies`; `InterfaceKey` is `interfaces.InterfaceKey`. Reading the
interface name of a nil payload panics. -/
def Dependencies (InterfaceKey : String → String) (_key : String) (localSID : srv6.LocalSID) :
    Option (List scheduler.Dependency) :=
  match localSID.EndFunction with
  | some (srv6.EndFunction.EndFunction_X p) =>
    p.map fun ef =>
      [{ Label := localsidOutgoingInterfaceDep, Key := InterfaceKey ef.OutgoingInterface }]
  | some (srv6.EndFunction.EndFunction_DX2 p) =>
    p.map fun ef =>
      [{ Label := localsidOutgoingInterfaceDep, Key := InterfaceKey ef.OutgoingInterface }]
  | some (srv6.EndFunction.EndFunction_DX4 p) =>
    p.map fun ef =>
      [{ Label := localsidOutgoingInterfaceDep, Key := InterfaceKey ef.OutgoingInterface }]
  | some (srv6.EndFunction.EndFunction_DX6 p) =>
    p.map fun ef =>
      [{ Label := localsidOutgoingInterfaceDep, Key := InterfaceKey ef.OutgoingInterface }]
  | some (srv6.EndFunction.EndFunction_AD p) =>
    p.map fun ef =>
      [{ Label := localsidOutgoingInterfaceDep, Key := InterfaceKey ef.OutgoingInterface },
       { Label := localsidIncomingInterfaceDep, Key := InterfaceKey ef.IncomingInterface }]
  | _ => some []

/-- Lower-casing of the ASCII letters of a text. -/
def asciiLower (s : String) : String :=
  String.mk (s.data.map fun ch => if 65 ≤ ch.toNat ∧ ch.toNat ≤ 90 then Char.ofNat (ch.toNat + 32) else ch)

/-- Whether a character is one of the ASCII white-space characters. -/
def asciiSpace (ch : Char) : Bool :=
  ch.toNat = 32 || (9 ≤ ch.toNat && ch.toNat ≤ 13)

/-- Removal of leading and trailing ASCII white space. -/
def asciiTrim (s : String) : String :=
  String.mk ((s.data.dropWhile asciiSpace).reverse.dropWhile asciiSpace).reverse

/-- The IPv6 address `a::1` in 16 bytes. -/
def addrA1 : net.IP := [0, 10, 0, 0, 0, 0, 0, 0, 0, 0, 0, 0, 0, 0, 0, 1]

/-- The IPv6 address `::1` in 16 bytes. -/
def addrLoopback : net.IP := [0, 0, 0, 0, 0, 0, 0, 0, 0, 0, 0, 0, 0, 0, 0, 1]

/-- A standard library for the examples: it agrees with Go's on ASCII text
for `ToLower` and `TrimSpace`, and with `net.ParseIP` on the texts listed
(`net.ParseIP` returns the 16-byte form, also for an IPv4 address, and nil
for a text with a leading or trailing space); other texts are left out. -/
def exampleStd : Stdlib where
  ParseIP := fun s =>
    if s = "A::1" ∨ s = "a::1" ∨ s = "a:0::1" then some addrA1
    else if s = "::1" ∨ s = "0::1" then some addrLoopback
    else if s = "10.0.0.1" then some (net.v4InV6Prefix ++ [10, 0, 0, 1])
    else none
  ToLower := asciiLower
  TrimSpace := asciiTrim

end descriptor

namespace scheduler

/-- Modelled from the spec: the invalid-value error of the scheduler API, built
by `NewInvalidValueError(err, fields...)` (code of this repository outside the
sources read here); the names of the invalid fields are kept, the message is
not. -/
structure InvalidValueError where
  InvalidFields : List String
deriving DecidableEq

end scheduler

namespace descriptor

/-- `Validate`: `some none` is the return of nil, `some (some e)` the return of
the error `e`, `none` a panic (the next hop or service address of a nil payload
is read). -/
def Validate (std : Stdlib) (_key : String) (localSID : srv6.LocalSID) :
    Option (Option scheduler.InvalidValueError) :=
  match ParseIPv6 std localSID.Sid with
  | Except.error _ => some (some { InvalidFields := ["sid"] })
  | Except.ok _ =>
    if localSID.FibTableId < 0 then some (some { InvalidFields := ["fibtableid"] })
    else
      match localSID.EndFunction with
      | some srv6.EndFunction.BaseEndFunction => some none
      | some (srv6.EndFunction.EndFunction_X p) =>
        match p with
        | none => none
        | some ef =>
          match ParseIPv6 std ef.NextHop with
          | Except.error _ => some (some { InvalidFields := ["endfunction_X.NextHop"] })
          | Except.ok _ => some none
      | some (srv6.EndFunction.EndFunction_T _) => some none
      | some (srv6.EndFunction.EndFunction_DX2 _) => some none
      | some (srv6.EndFunction.EndFunction_DX4 p) =>
        match p with
        | none => none
        | some ef =>
          match ParseIPv4 std ef.NextHop with
          | Except.error _ => some (some { InvalidFields := ["endfunction_DX4.NextHop"] })
          | Except.ok _ => some none
      | some (srv6.EndFunction.EndFunction_DX6 p) =>
        match p with
        | none => none
        | some ef =>
          match ParseIPv6 std ef.NextHop with
          | Except.error _ => some (some { InvalidFields := ["endfunction_DX6.NextHop"] })
          | Except.ok _ => some none
      | some srv6.EndFunction.EndFunction_DT4 => some none
      | some srv6.EndFunction.EndFunction_DT6 => some none
      | some (srv6.EndFunction.EndFunction_AD p) =>
        match p with
        | none => none
        | some ef =>
          match std.ParseIP ef.ServiceAddress with
          | none => some (some { InvalidFields := ["endfunction_AD.ServiceAddress"] })
          | some _ => some none
      | none => some (some { InvalidFields := ["endfunction"] })
      | some (srv6.EndFunction.unknown _ _) => some (some { InvalidFields := ["endfunction"] })

/-- The error of `Delete`: `"failed to delete local sid %s: %v"`, with the
address passed to the handler and the error of the handler. -/
structure DeleteError where
  sid : Option net.IP
  cause : String
deriving DecidableEq

/-- `Delete`. `DeleteLocalSid` is the method of the handler `srHandler`
(`none` is a nil address, resp. a nil error). The result is the list of the
addresses the handler was called with, and the error returned. -/
def Delete (std : Stdlib) (DeleteLocalSid : Option net.IP → Option String) (_key : String)
    (value : srv6.LocalSID) : List (Option net.IP) × Option DeleteError :=
  let sid : Option net.IP :=
    match ParseIPv6 std value.Sid with
    | Except.ok ip => some ip
    | Except.error _ => none
  match DeleteLocalSid sid with
  | some err => ([sid], some { sid := sid, cause := err })
  | none => ([sid], none)

end descriptor

/-! # The resync builder of the gRPC adapter: a shallow embedding

Source file embedded here:
`clientv1/defaultplugins/grpcadapter/data_resync_grpc.go`.

* The messages of the model packages are not part of the sources; each is a
  structure with the fields from which the builder derives its key, and a
  field `Rest` for all its other fields, which the builder does not read.
  Values are passed by non-nil pointer and read as values.
* The key functions of the model packages (`l2.FibKey`, `l3.RouteKey`,
  `l3.ArpEntryKey`, `nat.DNatKey`, `ipsec.SAKey`, `ipsec.SPDKey`) are
  parameters.
* The Go map `put` is the list of its entries, one per key; the order in
  which `range` visits a map is not specified, so `Send` takes it as a
  parameter, a function that permutes the entries.
-/

namespace grpcadapter

/-- The message `interfaces.Interfaces_Interface`. -/
structure Interfaces_Interface where
  Name : String
  Rest : List Nat
deriving DecidableEq

/-- The message `bfd.SingleHopBFD_Session`. -/
structure SingleHopBFD_Session where
  Interface : String
  Rest : List Nat
deriving DecidableEq

/-- The message `bfd.SingleHopBFD_Key`; `Id` is a `uint32`. -/
structure SingleHopBFD_Key where
  Id : Nat
  Rest : List Nat
deriving DecidableEq

/-- The message `bfd.SingleHopBFD_EchoFunction`. -/
structure SingleHopBFD_EchoFunction where
  EchoSourceInterface : String
  Rest : List Nat
deriving DecidableEq

/-- The message `l2.BridgeDomains_BridgeDomain`. -/
structure BridgeDomains_BridgeDomain where
  Name : String
  Rest : List Nat
deriving DecidableEq

/-- The message `l2.FibTableEntries_FibTableEntry`. -/
structure FibTableEntries_FibTableEntry where
  BridgeDomain : String
  PhysAddress : String
  Rest : List Nat
deriving DecidableEq

/-- The message `l2.XConnectPairs_XConnectPair`. -/
structure XConnectPairs_XConnectPair where
  ReceiveInterface : String
  Rest : List Nat
deriving DecidableEq

/-- The message `l3.StaticRoutes_Route`. -/
structure StaticRoutes_Route where
  VrfId : Nat
  DstIpAddr : String
  NextHopAddr : String
  Rest : List Nat
deriving DecidableEq

/-- The message `acl.AccessLists_Acl`. -/
structure AccessLists_Acl where
  AclName : String
  Rest : List Nat
deriving DecidableEq

/-- The message `l4.L4Features`. -/
structure L4Features where
  Enabled : Bool
  Rest : List Nat
deriving DecidableEq

/-- The message `l4.AppNamespaces_AppNamespace`. -/
structure AppNamespaces_AppNamespace where
  NamespaceId : String
  Rest : List Nat
deriving DecidableEq

/-- The message `l3.ArpTable_ArpTableEntry`. -/
structure ArpTable_ArpTableEntry where
  Interface : String
  IpAddress : String
  Rest : List Nat
deriving DecidableEq

/-- The message `l3.ProxyArpInterfaces_InterfaceList`. -/
structure ProxyArpInterfaces_InterfaceList where
  Label : String
  Rest : List Nat
deriving DecidableEq

/-- The message `l3.ProxyArpRanges_RangeList`. -/
structure ProxyArpRanges_RangeList where
  Label : String
  Rest : List Nat
deriving DecidableEq

/-- The message `stn.StnRule`. -/
structure StnRule where
  RuleName : String
  Rest : List Nat
deriving DecidableEq

/-- The message `nat.Nat44Global`. -/
structure Nat44Global where
  Rest : List Nat
deriving DecidableEq

/-- The message `nat.Nat44DNat_DNatConfig`. -/
structure Nat44DNat_DNatConfig where
  Label : String
  Rest : List Nat
deriving DecidableEq

/-- The message `ipsec.SecurityAssociations_SA`. -/
structure SecurityAssociations_SA where
  Name : String
  Rest : List Nat
deriving DecidableEq

/-- The message `ipsec.SecurityPolicyDatabases_SPD`. -/
structure SecurityPolicyDatabases_SPD where
  Name : String
  Rest : List Nat
deriving DecidableEq

/-- The values of type `proto.Message` the builder stores, by dynamic type. -/
inductive Message where
  | Interface (val : Interfaces_Interface)
  | BfdSession (val : SingleHopBFD_Session)
  | BfdAuthKeys (val : SingleHopBFD_Key)
  | BfdEchoFunction (val : SingleHopBFD_EchoFunction)
  | BD (val : BridgeDomains_BridgeDomain)
  | BDFIB (val : FibTableEntries_FibTableEntry)
  | XConnect (val : XConnectPairs_XConnectPair)
  | StaticRoute (val : StaticRoutes_Route)
  | ACL (val : AccessLists_Acl)
  | L4Features (val : L4Features)
  | AppNamespace (val : AppNamespaces_AppNamespace)
  | Arp (val : ArpTable_ArpTableEntry)
  | ProxyArpInterfaces (val : ProxyArpInterfaces_InterfaceList)
  | ProxyArpRanges (val : ProxyArpRanges_RangeList)
  | StnRule (val : StnRule)
  | NAT44Global (val : Nat44Global)
  | NAT44DNat (val : Nat44DNat_DNatConfig)
  | IPSecSA (val : SecurityAssociations_SA)
  | IPSecSPD (val : SecurityPolicyDatabases_SPD)
deriving DecidableEq

/-- The key functions of the model packages the builder calls. -/
structure KeyFuncs where
  FibKey : String → String → String
  RouteKey : Nat → String → String → String
  ArpEntryKey : String → String → String
  DNatKey : String → String
  SAKey : String → String
  SPDKey : String → String

/-- The message `rpc.ResyncConfigRequest`; each field is `none` while its
pointer is nil, and otherwise the list held by the container message. -/
structure ResyncConfigRequest where
  Interfaces : Option (List Interfaces_Interface)
  BDs : Option (List BridgeDomains_BridgeDomain)
  XCons : Option (List XConnectPairs_XConnectPair)
  StaticRoutes : Option (List StaticRoutes_Route)
  ACLs : Option (List AccessLists_Acl)
deriving DecidableEq

/-- The `Reply` of the adapter: the error it carries, `none` for nil. -/
abbrev Reply := Option String

/-- `DataResyncDSL`. `client` is the method `ResyncConfig` of the client,
giving the error of the call; `put` is the map of the values to send. -/
structure DataResyncDSL where
  client : ResyncConfigRequest → Option String
  put : List (String × Message)

/-- The map assignment `m[key] = val`. -/
def mapSet (m : List (String × Message)) (key : String) (val : Message) :
    List (String × Message) :=
  m.filter (fun e => decide (e.1 ≠ key)) ++ [(key, val)]

/-- `NewDataResyncDSL`. -/
def NewDataResyncDSL (client : ResyncConfigRequest → Option String) : DataResyncDSL :=
  { client := client, put := [] }

/-- `DataResyncDSL.Interface`. -/
def DataResyncDSL.Interface (dsl : DataResyncDSL) (val : Interfaces_Interface) : DataResyncDSL :=
  { dsl with put := mapSet dsl.put val.Name (Message.Interface val) }

/-- `DataResyncDSL.BfdSession`. -/
def DataResyncDSL.BfdSession (dsl : DataResyncDSL) (val : SingleHopBFD_Session) :
    DataResyncDSL :=
  { dsl with put := mapSet dsl.put val.Interface (Message.BfdSession val) }

/-- `DataResyncDSL.BfdAuthKeys`; the key is `strconv.Itoa(int(val.Id))`, the
identifier written in decimal digits. -/
def DataResyncDSL.BfdAuthKeys (dsl : DataResyncDSL) (val : SingleHopBFD_Key) : DataResyncDSL :=
  { dsl with put := mapSet dsl.put (toString val.Id) (Message.BfdAuthKeys val) }

/-- `DataResyncDSL.BfdEchoFunction`. -/
def DataResyncDSL.BfdEchoFunction (dsl : DataResyncDSL) (val : SingleHopBFD_EchoFunction) :
    DataResyncDSL :=
  { dsl with put := mapSet dsl.put val.EchoSourceInterface (Message.BfdEchoFunction val) }

/-- `DataResyncDSL.BD`. -/
def DataResyncDSL.BD (dsl : DataResyncDSL) (val : BridgeDomains_BridgeDomain) : DataResyncDSL :=
  { dsl with put := mapSet dsl.put val.Name (Message.BD val) }

/-- `DataResyncDSL.BDFIB`. -/
def DataResyncDSL.BDFIB (keys : KeyFuncs) (dsl : DataResyncDSL)
    (val : FibTableEntries_FibTableEntry) : DataResyncDSL :=
  { dsl with
    put := mapSet dsl.put (keys.FibKey val.BridgeDomain val.PhysAddress) (Message.BDFIB val) }

/-- `DataResyncDSL.XConnect`. -/
def DataResyncDSL.XConnect (dsl : DataResyncDSL) (val : XConnectPairs_XConnectPair) :
    DataResyncDSL :=
  { dsl with put := mapSet dsl.put val.ReceiveInterface (Message.XConnect val) }

/-- `DataResyncDSL.StaticRoute`. -/
def DataResyncDSL.StaticRoute (keys : KeyFuncs) (dsl : DataResyncDSL) (val : StaticRoutes_Route) :
    DataResyncDSL :=
  { dsl with
    put := mapSet dsl.put (keys.RouteKey val.VrfId val.DstIpAddr val.NextHopAddr)
      (Message.StaticRoute val) }

/-- `DataResyncDSL.ACL`. -/
def DataResyncDSL.ACL (dsl : DataResyncDSL) (val : AccessLists_Acl) : DataResyncDSL :=
  { dsl with put := mapSet dsl.put val.AclName (Message.ACL val) }

/-- `DataResyncDSL.L4Features`; the key is `strconv.FormatBool(val.Enabled)`. -/
def DataResyncDSL.L4Features (dsl : DataResyncDSL) (val : L4Features) : DataResyncDSL :=
  { dsl with
    put := mapSet dsl.put (if val.Enabled then "true" else "false") (Message.L4Features val) }

/-- `DataResyncDSL.AppNamespace`. -/
def DataResyncDSL.AppNamespace (dsl : DataResyncDSL) (val : AppNamespaces_AppNamespace) :
    DataResyncDSL :=
  { dsl with put := mapSet dsl.put val.NamespaceId (Message.AppNamespace val) }

/-- `DataResyncDSL.Arp`. -/
def DataResyncDSL.Arp (keys : KeyFuncs) (dsl : DataResyncDSL) (arp : ArpTable_ArpTableEntry) :
    DataResyncDSL :=
  { dsl with put := mapSet dsl.put (keys.ArpEntryKey arp.Interface arp.IpAddress) (Message.Arp arp) }

/-- `DataResyncDSL.ProxyArpInterfaces`. -/
def DataResyncDSL.ProxyArpInterfaces (dsl : DataResyncDSL)
    (val : ProxyArpInterfaces_InterfaceList) : DataResyncDSL :=
  { dsl with put := mapSet dsl.put val.Label (Message.ProxyArpInterfaces val) }

/-- `DataResyncDSL.ProxyArpRanges`. -/
def DataResyncDSL.ProxyArpRanges (dsl : DataResyncDSL) (val : ProxyArpRanges_RangeList) :
    DataResyncDSL :=
  { dsl with put := mapSet dsl.put val.Label (Message.ProxyArpRanges val) }

/-- `DataResyncDSL.StnRule`. -/
def DataResyncDSL.StnRule (dsl : DataResyncDSL) (val : StnRule) : DataResyncDSL :=
  { dsl with put := mapSet dsl.put val.RuleName (Message.StnRule val) }

/-- `DataResyncDSL.NAT44Global`. -/
def DataResyncDSL.NAT44Global (dsl : DataResyncDSL) (nat44 : Nat44Global) : DataResyncDSL :=
  { dsl with put := mapSet dsl.put "global" (Message.NAT44Global nat44) }

/-- `DataResyncDSL.NAT44DNat`. -/
def DataResyncDSL.NAT44DNat (keys : KeyFuncs) (dsl : DataResyncDSL)
    (nat44 : Nat44DNat_DNatConfig) : DataResyncDSL :=
  { dsl with put := mapSet dsl.put (keys.DNatKey nat44.Label) (Message.NAT44DNat nat44) }

/-- `DataResyncDSL.IPSecSA`. -/
def DataResyncDSL.IPSecSA (keys : KeyFuncs) (dsl : DataResyncDSL) (sa : SecurityAssociations_SA) :
    DataResyncDSL :=
  { dsl with put := mapSet dsl.put (keys.SAKey sa.Name) (Message.IPSecSA sa) }

/-- `DataResyncDSL.IPSecSPD`. -/
def DataResyncDSL.IPSecSPD (keys : KeyFuncs) (dsl : DataResyncDSL)
    (spd : SecurityPolicyDatabases_SPD) : DataResyncDSL :=
  { dsl with put := mapSet dsl.put (keys.SPDKey spd.Name) (Message.IPSecSPD spd) }

/-- The `append` of `Send` to a list of the request: a nil container is
allocated first. -/
def appendTo {α : Type} (l : Option (List α)) (x : α) : Option (List α) :=
  match l with
  | none => some [x]
  | some xs => some (xs ++ [x])

/-- The body of the loop of `Send`: the type switch on one value. -/
def sendStep (resyncReq : ResyncConfigRequest) (val : Message) : ResyncConfigRequest :=
  match val with
  | Message.Interface typed =>
    { resyncReq with Interfaces := appendTo resyncReq.Interfaces typed }
  | Message.BD typed => { resyncReq with BDs := appendTo resyncReq.BDs typed }
  | Message.XConnect typed => { resyncReq with XCons := appendTo resyncReq.XCons typed }
  | Message.StaticRoute typed =>
    { resyncReq with StaticRoutes := appendTo resyncReq.StaticRoutes typed }
  | Message.ACL typed => { resyncReq with ACLs := appendTo resyncReq.ACLs typed }
  | _ => resyncReq

/-- `DataResyncDSL.Send`; `range` visits the entries of `put` in the order
`visit dsl.put`. The result is the list of the requests passed to the client
and the reply. -/
def DataResyncDSL.Send (visit : List (String × Message) → List (String × Message))
    (dsl : DataResyncDSL) : List ResyncConfigRequest × Reply :=
  let resyncReq : ResyncConfigRequest :=
    (visit dsl.put).foldl (fun req e => sendStep req e.2)
      { Interfaces := none, BDs := none, XCons := none, StaticRoutes := none, ACLs := none }
  ([resyncReq], dsl.client resyncReq)

/-- The key under which the builder stores a value: that of the method that
accepts values of its type. -/
def keyOf (keys : KeyFuncs) : Message → String
  | Message.Interface val => val.Name
  | Message.BfdSession val => val.Interface
  | Message.BfdAuthKeys val => toString val.Id
  | Message.BfdEchoFunction val => val.EchoSourceInterface
  | Message.BD val => val.Name
  | Message.BDFIB val => keys.FibKey val.BridgeDomain val.PhysAddress
  | Message.XConnect val => val.ReceiveInterface
  | Message.StaticRoute val => keys.RouteKey val.VrfId val.DstIpAddr val.NextHopAddr
  | Message.ACL val => val.AclName
  | Message.L4Features val => if val.Enabled then "true" else "false"
  | Message.AppNamespace val => val.NamespaceId
  | Message.Arp val => keys.ArpEntryKey val.Interface val.IpAddress
  | Message.ProxyArpInterfaces val => val.Label
  | Message.ProxyArpRanges val => val.Label
  | Message.StnRule val => val.RuleName
  | Message.NAT44Global _ => "global"
  | Message.NAT44DNat val => keys.DNatKey val.Label
  | Message.IPSecSA val => keys.SAKey val.Name
  | Message.IPSecSPD val => keys.SPDKey val.Name

/-- The call of the builder method that accepts the value `val`. -/
def DataResyncDSL.call (keys : KeyFuncs) (dsl : DataResyncDSL) : Message → DataResyncDSL
  | Message.Interface val => dsl.Interface val
  | Message.BfdSession val => dsl.BfdSession val
  | Message.BfdAuthKeys val => dsl.BfdAuthKeys val
  | Message.BfdEchoFunction val => dsl.BfdEchoFunction val
  | Message.BD val => dsl.BD val
  | Message.BDFIB val => dsl.BDFIB keys val
  | Message.XConnect val => dsl.XConnect val
  | Message.StaticRoute val => dsl.StaticRoute keys val
  | Message.ACL val => dsl.ACL val
  | Message.L4Features val => dsl.L4Features val
  | Message.AppNamespace val => dsl.AppNamespace val
  | Message.Arp val => dsl.Arp keys val
  | Message.ProxyArpInterfaces val => dsl.ProxyArpInterfaces val
  | Message.ProxyArpRanges val => dsl.ProxyArpRanges val
  | Message.StnRule val => dsl.StnRule val
  | Message.NAT44Global val => dsl.NAT44Global val
  | Message.NAT44DNat val => dsl.NAT44DNat keys val
  | Message.IPSecSA val => dsl.IPSecSA keys val
  | Message.IPSecSPD val => dsl.IPSecSPD keys val

/-- The builders a caller can hold: a new one, and after any calls of the
builder methods. -/
inductive Built (keys : KeyFuncs) : DataResyncDSL → Prop where
  | new (client : ResyncConfigRequest → Option String) : Built keys (NewDataResyncDSL client)
  | call (dsl : DataResyncDSL) (val : Message) : Built keys dsl → Built keys (dsl.call keys val)

/-- The interfaces of a request (none when the container is nil). -/
def ResyncConfigRequest.interfaces (req : ResyncConfigRequest) : List Interfaces_Interface :=
  req.Interfaces.getD []

/-- The number of objects a request carries. -/
def ResyncConfigRequest.size (req : ResyncConfigRequest) : Nat :=
  (req.Interfaces.getD []).length + (req.BDs.getD []).length + (req.XCons.getD []).length +
    (req.StaticRoutes.getD []).length + (req.ACLs.getD []).length

/-- Key functions for the examples: a type-specific text before the name. -/
def exampleKeys : KeyFuncs where
  FibKey := fun bd mac => "fib/" ++ bd ++ "/" ++ mac
  RouteKey := fun vrf dst hop => "route/" ++ toString vrf ++ "/" ++ dst ++ "/" ++ hop
  ArpEntryKey := fun ifc ip => "arp/" ++ ifc ++ "/" ++ ip
  DNatKey := fun label => "dnat/" ++ label
  SAKey := fun name => "sa/" ++ name
  SPDKey := fun name => "spd/" ++ name

/-- A client whose `ResyncConfig` succeeds. -/
def okClient : ResyncConfigRequest → Option String := fun _ => none

end grpcadapter

namespace grpcadapter

/-- The value as an interface, when its dynamic type is
`*interfaces.Interfaces_Interface`. -/
def Message.asInterface : Message → Option Interfaces_Interface
  | Message.Interface val => some val
  | _ => none

/-- Fifteen values of fifteen types under fifteen different keys. -/
def fifteen : DataResyncDSL :=
  ((((((((((((((((NewDataResyncDSL okClient).Interface ⟨"if1", []⟩).BfdSession
    ⟨"bfd-if", []⟩).BfdAuthKeys ⟨1, []⟩).BfdEchoFunction ⟨"echo-if", []⟩).BDFIB exampleKeys
    ⟨"bd1", "aa:bb", []⟩).L4Features ⟨true, []⟩).AppNamespace ⟨"ns1", []⟩).Arp exampleKeys
    ⟨"if1", "10.0.0.2", []⟩).ProxyArpInterfaces ⟨"pif", []⟩).ProxyArpRanges
    ⟨"prng", []⟩).StnRule ⟨"rule1", []⟩).NAT44Global ⟨[]⟩).NAT44DNat exampleKeys
    ⟨"d1", []⟩).IPSecSA exampleKeys ⟨"sa1", []⟩).IPSecSPD exampleKeys ⟨"spd1", []⟩)

end grpcadapter

namespace srv6

/-- Whether the payload pointer of an end function is non-nil, for the
variants of which the descriptor reads the payload. -/
def EndFunction.populated : EndFunction → Bool
  | EndFunction.EndFunction_X p => p.isSome
  | EndFunction.EndFunction_T p => p.isSome
  | EndFunction.EndFunction_DX2 p => p.isSome
  | EndFunction.EndFunction_DX4 p => p.isSome
  | EndFunction.EndFunction_DX6 p => p.isSome
  | EndFunction.EndFunction_AD p => p.isSome
  | _ => true

/-- Whether the end function of a LocalSID, if any, carries a non-nil
payload. -/
def LocalSID.populated (v : LocalSID) : Bool :=
  match v.EndFunction with
  | none => true
  | some e => e.populated

end srv6

namespace descriptor

/-- An interface key function for the examples: a fixed text before the
name of the interface. -/
def exampleInterfaceKey (name : String) : String := "vpp/config/v2/interface/" ++ name

end descriptor

/-! ## Lemmas on the registry -/

namespace idxvpp.NameToIdx

variable {μ : Type}

theorem lookup_unregister_same (r : NameToIdx μ) (n : String) :
    LookupIdx (UnregisterName r n) n = none := by
  induction r with
  | nil => rfl
  | cons e r ih =>
    obtain ⟨k, i, m⟩ := e
    by_cases h : k = n
    · simpa [UnregisterName, List.filter_cons, h] using ih
    · have : (UnregisterName ((k, i, m) :: r) n) = (k, i, m) :: UnregisterName r n := by
        simp [UnregisterName, List.filter_cons, h]
      rw [this]
      simp [LookupIdx, h, ih]

theorem lookup_unregister_ne (r : NameToIdx μ) {n n' : String} (h : n' ≠ n) :
    LookupIdx (UnregisterName r n) n' = LookupIdx r n' := by
  induction r with
  | nil => rfl
  | cons e r ih =>
    obtain ⟨k, i, m⟩ := e
    by_cases hk : k = n
    · have hk' : k ≠ n' := fun h' => h (h'.symm.trans hk)
      have : (UnregisterName ((k, i, m) :: r) n) = UnregisterName r n := by
        simp [UnregisterName, List.filter_cons, hk]
      rw [this, ih]
      simp [LookupIdx, hk']
    · have : (UnregisterName ((k, i, m) :: r) n) = (k, i, m) :: UnregisterName r n := by
        simp [UnregisterName, List.filter_cons, hk]
      rw [this]
      simp [LookupIdx, ih]

theorem lookup_append_of_none (r r' : NameToIdx μ) {n : String} (h : LookupIdx r n = none) :
    LookupIdx (r ++ r') n = LookupIdx r' n := by
  induction r with
  | nil => rfl
  | cons e r ih =>
    obtain ⟨k, i, m⟩ := e
    by_cases hk : k = n
    · simp [LookupIdx, hk] at h
    · simp only [LookupIdx, hk, if_false] at h
      simp [LookupIdx, hk, ih h]

theorem lookup_append_of_some (r r' : NameToIdx μ) {n : String} {v : Nat × μ}
    (h : LookupIdx r n = some v) : LookupIdx (r ++ r') n = some v := by
  induction r with
  | nil => simp [LookupIdx] at h
  | cons e r ih =>
    obtain ⟨k, i, m⟩ := e
    by_cases hk : k = n
    · simp only [LookupIdx, hk, if_true] at h
      simp [LookupIdx, hk, h]
    · simp only [LookupIdx, hk, if_false] at h
      simp [LookupIdx, hk, ih h]

theorem lookup_register_same (r : NameToIdx μ) (n : String) (i : Nat) (m : μ) :
    LookupIdx (RegisterName r n i m) n = some (i, m) := by
  unfold RegisterName
  rw [lookup_append_of_none _ _ (lookup_unregister_same r n)]
  simp [LookupIdx]

theorem lookup_register_ne (r : NameToIdx μ) {n n' : String} (i : Nat) (m : μ) (h : n' ≠ n) :
    LookupIdx (RegisterName r n i m) n' = LookupIdx r n' := by
  unfold RegisterName
  cases hl : LookupIdx (UnregisterName r n) n' with
  | none =>
    rw [lookup_append_of_none _ _ hl, ← lookup_unregister_ne r h, hl]
    simp [LookupIdx, Ne.symm h]
  | some v =>
    rw [lookup_append_of_some _ _ hl, ← lookup_unregister_ne r h, hl]

theorem count_unregister_same (r : NameToIdx μ) (n : String) :
    count (UnregisterName r n) n = 0 := by
  simp [count, UnregisterName, List.filter_filter]

theorem count_register_same (r : NameToIdx μ) (n : String) (i : Nat) (m : μ) :
    count (RegisterName r n i m) n = 1 := by
  have h := count_unregister_same r n
  simp only [count] at h
  simp [count, RegisterName, List.filter_append, h]

end idxvpp.NameToIdx

namespace ifplugin

theorem TmcIdentifier_injective {a b : String} (h : TmcIdentifier a = TmcIdentifier b) : a = b := by
  unfold TmcIdentifier at h
  have h' := congrArg String.data h
  simp only [String.data_append] at h'
  exact String.ext (List.append_cancel_left h')

end ifplugin

/-! ## Lemmas on the operations -/

namespace vppcalls

theorem ModifyTmcConfig_sent (ch : Channel) (sent : List TmcEnableDisable) (i m e : Nat) :
    (ModifyTmcConfig ch sent i m e).1 = sent ++ [{ IsEnable := e, SwIfIndex := i, Mss := m }] := by
  unfold ModifyTmcConfig
  rcases h : ch sent { IsEnable := e, SwIfIndex := i, Mss := m } with ⟨_ | err, r⟩
  · by_cases hr : r = 0 <;> simp [h, hr]
  · simp [h]

theorem ModifyTmcConfig_accept (ch : Channel) (sent : List TmcEnableDisable) (i m e : Nat)
    (h : ch sent { IsEnable := e, SwIfIndex := i, Mss := m } = (none, 0)) :
    ModifyTmcConfig ch sent i m e = (sent ++ [{ IsEnable := e, SwIfIndex := i, Mss := m }], none) := by
  unfold ModifyTmcConfig
  simp [h]

theorem ModifyTmcConfig_eq (ch : Channel) (sent : List TmcEnableDisable) (i m e : Nat) :
    ModifyTmcConfig ch sent i m e =
      (sent ++ [{ IsEnable := e, SwIfIndex := i, Mss := m }], (ModifyTmcConfig ch sent i m e).2) := by
  rw [← ModifyTmcConfig_sent ch sent i m e]

end vppcalls

namespace ifplugin

open idxvpp

theorem checkTmc_unready (cfg : modelTmc.TmcConfig) (index : NameToIdx Unit)
    (hne : cfg.InterfaceName ≠ "") (hl : index.LookupIdx cfg.InterfaceName = none) :
    checkTmc (some cfg) index =
      Except.ok ({ MssValue := cfg.MssValue % 65536, IfaceIdx := 0,
                   IsEnabled := cfg.TcpMssClamping % 256 }, false) := by
  simp [checkTmc, hne, hl, NameToIdx.lookupIndex]

theorem checkTmc_ready (cfg : modelTmc.TmcConfig) (index : NameToIdx Unit) (i : Nat) (u : Unit)
    (hne : cfg.InterfaceName ≠ "") (hl : index.LookupIdx cfg.InterfaceName = some (i, u)) :
    checkTmc (some cfg) index =
      Except.ok ({ MssValue := cfg.MssValue % 65536, IfaceIdx := i,
                   IsEnabled := cfg.TcpMssClamping % 256 }, true) := by
  simp [checkTmc, hne, hl, NameToIdx.lookupIndex]

theorem Add_nil (ch : vppcalls.Channel) (c : TmcConfigurator) :
    Add ch c none = some (c, some TmcError.inputEmpty) := by
  simp [Add, checkTmc]

theorem Add_noInterface (ch : vppcalls.Channel) (c : TmcConfigurator) (cfg : modelTmc.TmcConfig)
    (h : cfg.InterfaceName = "") :
    Add ch c (some cfg) = some (c, some (TmcError.noInterface cfg.ConfigName)) := by
  simp [Add, checkTmc, h]

theorem Add_unready (ch : vppcalls.Channel) (c : TmcConfigurator) (cfg : modelTmc.TmcConfig)
    (hne : cfg.InterfaceName ≠ "") (hl : c.ifIndexes.LookupIdx cfg.InterfaceName = none) :
    Add ch c (some cfg) = some (indexTmcConfig c cfg true, none) := by
  simp [Add, checkTmc_unready cfg c.ifIndexes hne hl]

theorem Add_accepted (ch : vppcalls.Channel) (c : TmcConfigurator) (cfg : modelTmc.TmcConfig)
    (i : Nat) (u : Unit) (hne : cfg.InterfaceName ≠ "")
    (hl : c.ifIndexes.LookupIdx cfg.InterfaceName = some (i, u))
    (hok : ch c.vppChan (vppcalls.TmcEnableDisable.mk (cfg.TcpMssClamping % 256) i (cfg.MssValue % 65536)) = (none, 0)) :
    Add ch c (some cfg) =
      some (indexTmcConfig
        { c with vppChan := c.vppChan ++ [vppcalls.TmcEnableDisable.mk (cfg.TcpMssClamping % 256) i (cfg.MssValue % 65536)] } cfg false, none) := by
  simp [Add, checkTmc_ready cfg c.ifIndexes i u hne hl, vppcalls.ModifyTmcConfig_accept _ _ _ _ _ hok]

theorem Add_rejected (ch : vppcalls.Channel) (c : TmcConfigurator) (cfg : modelTmc.TmcConfig)
    (i : Nat) (u : Unit) (err : TmcError) (hne : cfg.InterfaceName ≠ "")
    (hl : c.ifIndexes.LookupIdx cfg.InterfaceName = some (i, u))
    (hfail : (vppcalls.ModifyTmcConfig ch c.vppChan i (cfg.MssValue % 65536)
      (cfg.TcpMssClamping % 256)).2 = some err) :
    Add ch c (some cfg) =
      some ({ c with vppChan := c.vppChan ++ [vppcalls.TmcEnableDisable.mk (cfg.TcpMssClamping % 256) i (cfg.MssValue % 65536)] },
        some (TmcError.addFailed cfg.ConfigName err)) := by
  have h := vppcalls.ModifyTmcConfig_eq ch c.vppChan i (cfg.MssValue % 65536)
    (cfg.TcpMssClamping % 256)
  rw [hfail] at h
  simp [Add, checkTmc_ready cfg c.ifIndexes i u hne hl, h]

end ifplugin

/-! ## The bookkeeping invariant -/

namespace ifplugin

open idxvpp

theorem keyed_unregister (r : NameToIdx (Option modelTmc.TmcConfig)) (n : String)
    (h : KeyedByConfig r) : KeyedByConfig (r.UnregisterName n) := by
  intro name i m hl
  by_cases hn : name = n
  · subst hn
    rw [NameToIdx.lookup_unregister_same] at hl
    cases hl
  · rw [NameToIdx.lookup_unregister_ne r hn] at hl
    exact h name i m hl

theorem keyed_register (r : NameToIdx (Option modelTmc.TmcConfig)) (cfg : modelTmc.TmcConfig)
    (k : Nat) (h : KeyedByConfig r) (hne : cfg.InterfaceName ≠ "") :
    KeyedByConfig (r.RegisterName (TmcIdentifier cfg.InterfaceName) k (some cfg)) := by
  intro name i m hl
  by_cases hn : name = TmcIdentifier cfg.InterfaceName
  · subst hn
    rw [NameToIdx.lookup_register_same] at hl
    injection hl with hl
    injection hl with _ hm
    exact ⟨cfg, hm.symm, hne, rfl⟩
  · rw [NameToIdx.lookup_register_ne r k (some cfg) hn] at hl
    exact h name i m hl

theorem wellFormed_vppChan (c : TmcConfigurator) (sent : List vppcalls.TmcEnableDisable)
    (h : WellFormed c) : WellFormed { c with vppChan := sent } := h

theorem wellFormed_indexTmcConfig (c : TmcConfigurator) (cfg : modelTmc.TmcConfig) (b : Bool)
    (h : WellFormed c) (hne : cfg.InterfaceName ≠ "") : WellFormed (indexTmcConfig c cfg b) := by
  obtain ⟨ha, hu, hsub⟩ := h
  cases b with
  | false =>
    refine ⟨keyed_register _ cfg _ ha hne, hu, ?_⟩
    intro name hn
    by_cases hk : name = TmcIdentifier cfg.InterfaceName
    · subst hk
      simp [indexTmcConfig, NameToIdx.lookup_register_same]
    · have := hsub name hn
      simpa [indexTmcConfig, NameToIdx.lookup_register_ne _ _ _ hk] using this
  | true =>
    refine ⟨keyed_register _ cfg _ ha hne, keyed_register _ cfg _ hu hne, ?_⟩
    intro name hn
    by_cases hk : name = TmcIdentifier cfg.InterfaceName
    · subst hk
      simp [indexTmcConfig, NameToIdx.lookup_register_same]
    · have hn' : c.unstoredIndexes.LookupIdx name ≠ none := by
        simpa [indexTmcConfig, NameToIdx.lookup_register_ne _ _ _ hk] using hn
      have := hsub name hn'
      simpa [indexTmcConfig, NameToIdx.lookup_register_ne _ _ _ hk] using this

theorem wellFormed_unregister (c : TmcConfigurator) (n : String) (h : WellFormed c) :
    WellFormed { c with allIndexes := c.allIndexes.UnregisterName n,
                        unstoredIndexes := c.unstoredIndexes.UnregisterName n } := by
  obtain ⟨ha, hu, hsub⟩ := h
  refine ⟨keyed_unregister _ n ha, keyed_unregister _ n hu, ?_⟩
  intro name hn
  by_cases hk : name = n
  · subst hk
    simp [NameToIdx.lookup_unregister_same] at hn
  · simp only [NameToIdx.lookup_unregister_ne _ hk] at hn ⊢
    exact hsub name hn

theorem wellFormed_unregister_unstored (c : TmcConfigurator) (n : String) (h : WellFormed c) :
    WellFormed { c with unstoredIndexes := c.unstoredIndexes.UnregisterName n } := by
  obtain ⟨ha, hu, hsub⟩ := h
  refine ⟨ha, keyed_unregister _ n hu, ?_⟩
  intro name hn
  by_cases hk : name = n
  · subst hk
    simp [NameToIdx.lookup_unregister_same] at hn
  · simp only [NameToIdx.lookup_unregister_ne _ hk] at hn
    exact hsub name hn

end ifplugin

namespace idxvpp.NameToIdx

theorem unregister_of_lookup_none {μ : Type} (r : NameToIdx μ) (n : String)
    (h : LookupIdx r n = none) : UnregisterName r n = r := by
  induction r with
  | nil => rfl
  | cons e r ih =>
    obtain ⟨k, i, m⟩ := e
    by_cases hk : k = n
    · simp [LookupIdx, hk] at h
    · simp only [LookupIdx, hk, if_false] at h
      have := ih h
      simp only [UnregisterName] at this ⊢
      rw [List.filter_cons_of_pos (by simpa using hk), this]

end idxvpp.NameToIdx

namespace ifplugin

open idxvpp

theorem removeConfigFromIndex_eq (c c1 : TmcConfigurator) (iface : String) (b : Bool)
    (x : Option modelTmc.TmcConfig) (h : removeConfigFromIndex c iface = some (c1, b, x)) :
    c1 = unregistered c iface ∧
      b = (c.unstoredIndexes.LookupIdx (TmcIdentifier iface)).isSome := by
  unfold removeConfigFromIndex at h
  cases ha : c.allIndexes.LookupIdx (TmcIdentifier iface) with
  | none =>
    have hua := NameToIdx.unregister_of_lookup_none _ _ ha
    cases hu : c.unstoredIndexes.LookupIdx (TmcIdentifier iface) with
    | none =>
      have huu := NameToIdx.unregister_of_lookup_none _ _ hu
      simp [ha, hu] at h
      obtain ⟨h1, h2, _⟩ := h
      subst h1
      simp [unregistered, hua, huu, h2]
    | some v => simp [ha, hu] at h
  | some v =>
    obtain ⟨i, m⟩ := v
    cases hu : c.unstoredIndexes.LookupIdx (TmcIdentifier iface) with
    | none =>
      have huu := NameToIdx.unregister_of_lookup_none _ _ hu
      simp [ha, hu] at h
      obtain ⟨h1, h2, _⟩ := h
      subst h1
      simp [unregistered, huu, h2]
    | some w =>
      cases m with
      | none => simp [ha, hu] at h
      | some cfg =>
        simp [ha, hu] at h
        obtain ⟨h1, h2, _⟩ := h
        subst h1
        simp [unregistered, h2]

theorem removeConfigFromIndex_wellFormed (c : TmcConfigurator) (iface : String)
    (h : WellFormed c) :
    ∃ x, removeConfigFromIndex c iface =
      some (unregistered c iface, (c.unstoredIndexes.LookupIdx (TmcIdentifier iface)).isSome, x) := by
  cases hr : removeConfigFromIndex c iface with
  | some r =>
    obtain ⟨c1, b, x⟩ := r
    obtain ⟨h1, h2⟩ := removeConfigFromIndex_eq c c1 iface b x hr
    exact ⟨x, by rw [h1, h2]⟩
  | none =>
    exfalso
    obtain ⟨ha, _, hsub⟩ := h
    unfold removeConfigFromIndex at hr
    cases hu : c.unstoredIndexes.LookupIdx (TmcIdentifier iface) with
    | none =>
      cases hl : c.allIndexes.LookupIdx (TmcIdentifier iface) <;> simp [hl, hu] at hr
    | some w =>
      have hne := hsub (TmcIdentifier iface) (by rw [hu]; exact Option.some_ne_none w)
      cases hl : c.allIndexes.LookupIdx (TmcIdentifier iface) with
      | none => exact hne hl
      | some v =>
        obtain ⟨i, m⟩ := v
        obtain ⟨cfg, hm, _, _⟩ := ha _ i m hl
        subst hm
        simp [hl, hu] at hr

end ifplugin

namespace ifplugin

open idxvpp

theorem checkTmc_valid (cfg : modelTmc.TmcConfig) (index : NameToIdx Unit)
    (hne : cfg.InterfaceName ≠ "") :
    checkTmc (some cfg) index =
      Except.ok ({ MssValue := cfg.MssValue % 65536,
                   IfaceIdx := index.lookupIndex cfg.InterfaceName,
                   IsEnabled := cfg.TcpMssClamping % 256 },
        (index.LookupIdx cfg.InterfaceName).isSome) := by
  simp [checkTmc, hne]

theorem Delete_nil (ch : vppcalls.Channel) (c : TmcConfigurator) :
    Delete ch c none = some (c, some TmcError.inputEmpty) := by
  simp [Delete, checkTmc]

theorem Delete_noInterface (ch : vppcalls.Channel) (c : TmcConfigurator)
    (cfg : modelTmc.TmcConfig) (h : cfg.InterfaceName = "") :
    Delete ch c (some cfg) = some (c, some (TmcError.noInterface cfg.ConfigName)) := by
  simp [Delete, checkTmc, h]

theorem Delete_pending (ch : vppcalls.Channel) (c c1 : TmcConfigurator)
    (cfg : modelTmc.TmcConfig) (x : Option modelTmc.TmcConfig) (hne : cfg.InterfaceName ≠ "")
    (hr : removeConfigFromIndex c cfg.InterfaceName = some (c1, true, x)) :
    Delete ch c (some cfg) = some (c1, none) := by
  simp [Delete, checkTmc_valid cfg c.ifIndexes hne, hr]

theorem Delete_stored (ch : vppcalls.Channel) (c c1 : TmcConfigurator)
    (cfg : modelTmc.TmcConfig) (x : Option modelTmc.TmcConfig) (hne : cfg.InterfaceName ≠ "")
    (hr : removeConfigFromIndex c cfg.InterfaceName = some (c1, false, x)) :
    Delete ch c (some cfg) =
      some ({ c1 with vppChan := c1.vppChan ++
                [vppcalls.TmcEnableDisable.mk (cfg.TcpMssClamping % 256)
                  (c.ifIndexes.lookupIndex cfg.InterfaceName) (cfg.MssValue % 65536)] },
        (vppcalls.ModifyTmcConfig ch c1.vppChan (c.ifIndexes.lookupIndex cfg.InterfaceName)
          (cfg.MssValue % 65536) (cfg.TcpMssClamping % 256)).2.map
            (TmcError.deleteFailed cfg.ConfigName)) := by
  have h := vppcalls.ModifyTmcConfig_eq ch c1.vppChan (c.ifIndexes.lookupIndex cfg.InterfaceName)
    (cfg.MssValue % 65536) (cfg.TcpMssClamping % 256)
  simp only [Delete, checkTmc_valid cfg c.ifIndexes hne, hr]
  rw [h]
  cases (vppcalls.ModifyTmcConfig ch c1.vppChan (c.ifIndexes.lookupIndex cfg.InterfaceName)
    (cfg.MssValue % 65536) (cfg.TcpMssClamping % 256)).2 <;> simp

theorem Add_wellFormed (ch : vppcalls.Channel) (c c1 : TmcConfigurator)
    (config : Option modelTmc.TmcConfig) (err : Option TmcError)
    (h : Add ch c config = some (c1, err)) (hw : WellFormed c) : WellFormed c1 := by
  cases config with
  | none =>
    rw [Add_nil] at h
    injection h with h; injection h with h1 _; subst h1; exact hw
  | some cfg =>
    by_cases hne : cfg.InterfaceName = ""
    · rw [Add_noInterface ch c cfg hne] at h
      injection h with h; injection h with h1 _; subst h1; exact hw
    · simp only [Add, checkTmc_valid cfg c.ifIndexes hne] at h
      split at h
      · injection h with h; injection h with h1 _; subst h1
        exact wellFormed_indexTmcConfig c cfg true hw hne
      · split at h
        · injection h with h; injection h with h1 _; subst h1; exact hw
        · injection h with h; injection h with h1 _; subst h1
          exact wellFormed_indexTmcConfig _ cfg false (wellFormed_vppChan c _ hw) hne

theorem Delete_wellFormed (ch : vppcalls.Channel) (c c1 : TmcConfigurator)
    (config : Option modelTmc.TmcConfig) (err : Option TmcError)
    (h : Delete ch c config = some (c1, err)) (hw : WellFormed c) : WellFormed c1 := by
  cases config with
  | none =>
    rw [Delete_nil] at h
    injection h with h; injection h with h1 _; subst h1; exact hw
  | some cfg =>
    by_cases hne : cfg.InterfaceName = ""
    · rw [Delete_noInterface ch c cfg hne] at h
      injection h with h; injection h with h1 _; subst h1; exact hw
    · obtain ⟨x, hr⟩ := removeConfigFromIndex_wellFormed c cfg.InterfaceName hw
      have hu : WellFormed (unregistered c cfg.InterfaceName) := wellFormed_unregister c _ hw
      cases hb : (c.unstoredIndexes.LookupIdx (TmcIdentifier cfg.InterfaceName)).isSome with
      | true =>
        rw [hb] at hr
        rw [Delete_pending ch c _ cfg x hne hr] at h
        injection h with h; injection h with h1 _; subst h1; exact hu
      | false =>
        rw [hb] at hr
        rw [Delete_stored ch c _ cfg x hne hr] at h
        injection h with h; injection h with h1 _; subst h1; exact hu

theorem Modify_wellFormed (ch : vppcalls.Channel) (c c1 : TmcConfigurator)
    (oldConfig newConfig : Option modelTmc.TmcConfig) (err : Option TmcError)
    (h : Modify ch c oldConfig newConfig = some (c1, err)) (hw : WellFormed c) :
    WellFormed c1 := by
  cases oldConfig with
  | none => simp [Modify] at h; obtain ⟨h1, _⟩ := h; subst h1; exact hw
  | some o =>
    cases newConfig with
    | none => simp [Modify] at h; obtain ⟨h1, _⟩ := h; subst h1; exact hw
    | some n =>
      simp only [Modify] at h
      cases hd : Delete ch c (some o) with
      | none => simp [hd] at h
      | some r =>
        obtain ⟨c2, e2⟩ := r
        have hw2 := Delete_wellFormed ch c c2 _ e2 hd hw
        cases e2 with
        | some e => simp [hd] at h; obtain ⟨h1, _⟩ := h; subst h1; exact hw2
        | none =>
          simp only [hd] at h
          cases ha : Add ch c2 (some n) with
          | none => simp [ha] at h
          | some r3 =>
            obtain ⟨c3, e3⟩ := r3
            have hw3 := Add_wellFormed ch c2 c3 _ e3 ha hw2
            cases e3 <;> (simp [ha] at h; obtain ⟨h1, _⟩ := h; subst h1; exact hw3)

theorem ResolveCreatedInterface_wellFormed (ch : vppcalls.Channel) (c c1 : TmcConfigurator)
    (interfaceName : String) (err : Option TmcError)
    (h : ResolveCreatedInterface ch c interfaceName = some (c1, err)) (hw : WellFormed c) :
    WellFormed c1 := by
  simp only [ResolveCreatedInterface] at h
  cases hc : configFromIndex c interfaceName false with
  | none => simp [hc] at h; obtain ⟨h1, _⟩ := h; subst h1; exact hw
  | some cfg =>
    simp only [hc] at h
    cases ha : Add ch c (some cfg) with
    | none => simp [ha] at h
    | some r =>
      obtain ⟨c2, e2⟩ := r
      have hw2 := Add_wellFormed ch c c2 _ e2 ha hw
      cases e2 with
      | some e => simp [ha] at h; obtain ⟨h1, _⟩ := h; subst h1; exact hw2
      | none =>
        simp [ha] at h; obtain ⟨h1, _⟩ := h; subst h1
        exact wellFormed_unregister_unstored c2 _ hw2

theorem ResolveDeletedInterface_wellFormed (ch : vppcalls.Channel) (c c1 : TmcConfigurator)
    (interfaceName : String) (err : Option TmcError)
    (h : ResolveDeletedInterface ch c interfaceName = some (c1, err)) (hw : WellFormed c) :
    WellFormed c1 := by
  simp only [ResolveDeletedInterface] at h
  cases hc : configFromIndex c interfaceName true with
  | none => simp [hc] at h; obtain ⟨h1, _⟩ := h; subst h1; exact hw
  | some cfg =>
    simp only [hc] at h
    cases hd : Delete ch c (some cfg) with
    | none => simp [hd] at h
    | some r =>
      obtain ⟨c2, e2⟩ := r
      have hw2 := Delete_wellFormed ch c c2 _ e2 hd hw
      cases e2 <;> (simp [hd] at h; obtain ⟨h1, _⟩ := h; subst h1; exact hw2)

theorem wellFormed_empty (c : TmcConfigurator) (ha : c.allIndexes = [])
    (hu : c.unstoredIndexes = []) : WellFormed c := by
  refine ⟨?_, ?_, ?_⟩
  · intro name i m hl; rw [ha] at hl; cases hl
  · intro name i m hl; rw [hu] at hl; cases hl
  · intro name hn; rw [hu] at hn; exact absurd rfl hn

/-- Every state the configurator can be in satisfies the bookkeeping
invariant. -/
theorem reachable_wellFormed (c : TmcConfigurator) (h : Reachable c) : WellFormed c := by
  induction h with
  | init ifIndexes c hi =>
    simp only [Init] at hi
    injection hi with hi
    subst hi
    exact wellFormed_empty _ rfl rfl
  | interfaces c ifIndexes _ ih => exact ih
  | clear c _ _ => exact wellFormed_empty _ rfl rfl
  | add ch c c1 config err _ h ih => exact Add_wellFormed ch c c1 config err h ih
  | delete ch c c1 config err _ h ih => exact Delete_wellFormed ch c c1 config err h ih
  | modify ch c c1 o n err _ h ih => exact Modify_wellFormed ch c c1 o n err h ih
  | resolveCreated ch c c1 n err _ h ih =>
    exact ResolveCreatedInterface_wellFormed ch c c1 n err h ih
  | resolveDeleted ch c c1 n err _ h ih =>
    exact ResolveDeletedInterface_wellFormed ch c c1 n err h ih

end ifplugin

/-! ## Example states -/

namespace ifplugin

open idxvpp

theorem reachable_fresh : Reachable fresh := Reachable.init [] fresh rfl

theorem reachable_pending : Reachable pending :=
  Reachable.add acceptAll fresh pending (some tmcConfig) none reachable_fresh (by decide)

theorem reachable_pendingUp : Reachable pendingUp :=
  Reachable.interfaces pending memif1Up reachable_pending

theorem reachable_realized : Reachable realized :=
  Reachable.add acceptAll { fresh with ifIndexes := memif1Up } realized (some tmcConfig) none
    (Reachable.interfaces fresh memif1Up reachable_fresh) (by decide)

end ifplugin

/-! ## The reconciler: claims on `Add`, `Delete` and the notification hooks -/

namespace ifplugin

open idxvpp

theorem indexTmcConfig_vppChan (c : TmcConfigurator) (cfg : modelTmc.TmcConfig) (b : Bool) :
    (indexTmcConfig c cfg b).vppChan = c.vppChan := by
  cases b <;> rfl

theorem indexTmcConfig_unstored_true (c : TmcConfigurator) (cfg : modelTmc.TmcConfig) :
    (indexTmcConfig c cfg true).unstoredIndexes =
      c.unstoredIndexes.RegisterName (TmcIdentifier cfg.InterfaceName) c.unstoredIndexSeq
        (some cfg) := rfl

theorem indexTmcConfig_all (c : TmcConfigurator) (cfg : modelTmc.TmcConfig) (b : Bool) :
    (indexTmcConfig c cfg b).allIndexes =
      c.allIndexes.RegisterName (TmcIdentifier cfg.InterfaceName) c.allIndexesSeq (some cfg) := by
  cases b <;> rfl

/-- C1: `Add` defers an unready object. For every configurator state and every
non-nil config with a non-empty `InterfaceName` whose interface is not found
in `ifIndexes`, `Add` returns nil, sends no request to the device, and
afterwards `TmcIdentifier(InterfaceName)` is registered in `unstoredIndexes`
with that config as its metadata. -/
theorem add_defers_unready (ch : vppcalls.Channel) (c : TmcConfigurator)
    (cfg : modelTmc.TmcConfig) (hne : cfg.InterfaceName ≠ "")
    (hl : c.ifIndexes.LookupIdx cfg.InterfaceName = none) :
    ∃ c1 : TmcConfigurator,
      Add ch c (some cfg) = some (c1, none) ∧ c1.vppChan = c.vppChan ∧
        c1.unstoredIndexes.LookupIdx (TmcIdentifier cfg.InterfaceName) =
          some (c.unstoredIndexSeq, some cfg) ∧
        UnstoredIndexExistsFor c1 (TmcIdentifier cfg.InterfaceName) = true := by
  have hlk : (indexTmcConfig c cfg true).unstoredIndexes.LookupIdx
      (TmcIdentifier cfg.InterfaceName) = some (c.unstoredIndexSeq, some cfg) := by
    rw [indexTmcConfig_unstored_true, NameToIdx.lookup_register_same]
  refine ⟨indexTmcConfig c cfg true, Add_unready ch c cfg hne hl, ?_, hlk, ?_⟩
  · exact indexTmcConfig_vppChan c cfg true
  · simp [UnstoredIndexExistsFor, hlk]

theorem add_defers_unready_witness :
    ∃ c1 : TmcConfigurator,
      Add acceptAll fresh (some tmcConfig) = some (c1, none) ∧ c1.vppChan = fresh.vppChan ∧
        c1.unstoredIndexes.LookupIdx (TmcIdentifier tmcConfig.InterfaceName) =
          some (fresh.unstoredIndexSeq, some tmcConfig) ∧
        UnstoredIndexExistsFor c1 (TmcIdentifier tmcConfig.InterfaceName) = true :=
  add_defers_unready acceptAll fresh tmcConfig (by decide) (by decide)

/-- C2: deferred realization. For every state of the configurator in which
`TmcIdentifier(n)` is registered in `unstoredIndexes` with config `cfg`,
interface `n` is registered in `ifIndexes` with index `i`, and the device
accepts the command, `ResolveCreatedInterface(n)` returns nil and sends
exactly one request, that of
`ModifyTmcConfig(i, uint16(cfg.MssValue), uint8(cfg.TcpMssClamping))`;
afterwards the key is absent from `unstoredIndexes` and registered in
`allIndexes` with `cfg`. -/
theorem resolveCreated_realizes (ch : vppcalls.Channel) (c : TmcConfigurator) (n : String)
    (cfg : modelTmc.TmcConfig) (k i : Nat) (u : Unit) (hreach : Reachable c)
    (hp : c.unstoredIndexes.LookupIdx (TmcIdentifier n) = some (k, some cfg))
    (hi : c.ifIndexes.LookupIdx n = some (i, u))
    (hok : ch c.vppChan
      (vppcalls.TmcEnableDisable.mk (cfg.TcpMssClamping % 256) i (cfg.MssValue % 65536)) =
        (none, 0)) :
    ∃ c1 : TmcConfigurator,
      ResolveCreatedInterface ch c n = some (c1, none) ∧
        c1.vppChan = c.vppChan ++
          [vppcalls.TmcEnableDisable.mk (cfg.TcpMssClamping % 256) i (cfg.MssValue % 65536)] ∧
        c1.unstoredIndexes.LookupIdx (TmcIdentifier n) = none ∧
        c1.allIndexes.LookupIdx (TmcIdentifier n) = some (c.allIndexesSeq, some cfg) := by
  obtain ⟨_, hu, _⟩ := reachable_wellFormed c hreach
  obtain ⟨cfg', hm, hne, hkey⟩ := hu _ k (some cfg) hp
  injection hm with hm
  subst hm
  have hn : cfg.InterfaceName = n := (TmcIdentifier_injective hkey).symm
  have hcf : configFromIndex c n false = some cfg := by simp [configFromIndex, hp]
  have hadd := Add_accepted ch c cfg i u hne (by rw [hn]; exact hi) hok
  refine ⟨{ indexTmcConfig { c with vppChan := c.vppChan ++
      [vppcalls.TmcEnableDisable.mk (cfg.TcpMssClamping % 256) i (cfg.MssValue % 65536)] }
        cfg false with
      unstoredIndexes := (indexTmcConfig { c with vppChan := c.vppChan ++
        [vppcalls.TmcEnableDisable.mk (cfg.TcpMssClamping % 256) i (cfg.MssValue % 65536)] }
          cfg false).unstoredIndexes.UnregisterName (TmcIdentifier n) }, ?_, ?_, ?_, ?_⟩
  · simp only [ResolveCreatedInterface, hcf, hadd]
  · rfl
  · exact NameToIdx.lookup_unregister_same _ _
  · show (indexTmcConfig _ cfg false).allIndexes.LookupIdx (TmcIdentifier n) = _
    rw [indexTmcConfig_all, hn, NameToIdx.lookup_register_same]

theorem resolveCreated_realizes_witness :
    ∃ c1 : TmcConfigurator,
      ResolveCreatedInterface acceptAll pendingUp "memif1" = some (c1, none) ∧
        c1.vppChan = pendingUp.vppChan ++
          [vppcalls.TmcEnableDisable.mk (tmcConfig.TcpMssClamping % 256) 5
            (tmcConfig.MssValue % 65536)] ∧
        c1.unstoredIndexes.LookupIdx (TmcIdentifier "memif1") = none ∧
        c1.allIndexes.LookupIdx (TmcIdentifier "memif1") =
          some (pendingUp.allIndexesSeq, some tmcConfig) :=
  resolveCreated_realizes acceptAll pendingUp "memif1" tmcConfig 1 5 () reachable_pendingUp
    (by decide) (by decide) (by decide)

/-- C3: pending deletion is silent. For every state of the configurator in
which the key of a valid config `cfg` (non-nil, non-empty `InterfaceName`) is
registered in `unstoredIndexes`, `Delete(cfg)` returns nil, sends no request
to the device, and afterwards the key is in neither `unstoredIndexes` nor
`allIndexes`. -/
theorem delete_pending_silent (ch : vppcalls.Channel) (c : TmcConfigurator)
    (cfg : modelTmc.TmcConfig) (k : Nat) (m : Option modelTmc.TmcConfig)
    (hreach : Reachable c) (hne : cfg.InterfaceName ≠ "")
    (hp : c.unstoredIndexes.LookupIdx (TmcIdentifier cfg.InterfaceName) = some (k, m)) :
    ∃ c1 : TmcConfigurator,
      Delete ch c (some cfg) = some (c1, none) ∧ c1.vppChan = c.vppChan ∧
        c1.unstoredIndexes.LookupIdx (TmcIdentifier cfg.InterfaceName) = none ∧
        c1.allIndexes.LookupIdx (TmcIdentifier cfg.InterfaceName) = none := by
  obtain ⟨x, hr⟩ := removeConfigFromIndex_wellFormed c cfg.InterfaceName
    (reachable_wellFormed c hreach)
  rw [hp] at hr
  refine ⟨unregistered c cfg.InterfaceName, Delete_pending ch c _ cfg x hne hr, rfl, ?_, ?_⟩
  · exact NameToIdx.lookup_unregister_same _ _
  · exact NameToIdx.lookup_unregister_same _ _

theorem delete_pending_silent_witness :
    ∃ c1 : TmcConfigurator,
      Delete rejectAll pending (some tmcConfig) = some (c1, none) ∧
        c1.vppChan = pending.vppChan ∧
        c1.unstoredIndexes.LookupIdx (TmcIdentifier tmcConfig.InterfaceName) = none ∧
        c1.allIndexes.LookupIdx (TmcIdentifier tmcConfig.InterfaceName) = none :=
  delete_pending_silent rejectAll pending tmcConfig 1 (some tmcConfig) reachable_pending
    (by decide) (by decide)

/-- C4: cascading removal. For every state of the configurator in which the
config `cfg` for interface `n` is realized (its key is in `allIndexes` and not
in `unstoredIndexes`) and the device accepts the command,
`ResolveDeletedInterface(n)` returns nil, sends exactly one request, the one
built from `cfg`, and afterwards no entry for `TmcIdentifier(n)` remains in
`allIndexes`; when no config is registered for `n` it sends no request and
changes nothing. -/
theorem resolveDeleted_cascades (ch : vppcalls.Channel) (c : TmcConfigurator) (n : String)
    (hreach : Reachable c) :
    (∀ (k : Nat) (cfg : modelTmc.TmcConfig),
      c.allIndexes.LookupIdx (TmcIdentifier n) = some (k, some cfg) →
      c.unstoredIndexes.LookupIdx (TmcIdentifier n) = none →
      ch c.vppChan (vppcalls.TmcEnableDisable.mk (cfg.TcpMssClamping % 256)
        (c.ifIndexes.lookupIndex n) (cfg.MssValue % 65536)) = (none, 0) →
      ∃ c1 : TmcConfigurator,
        ResolveDeletedInterface ch c n = some (c1, none) ∧
          c1.vppChan = c.vppChan ++
            [vppcalls.TmcEnableDisable.mk (cfg.TcpMssClamping % 256)
              (c.ifIndexes.lookupIndex n) (cfg.MssValue % 65536)] ∧
          c1.allIndexes.LookupIdx (TmcIdentifier n) = none ∧
          IndexExistsFor c1 (TmcIdentifier n) = false) ∧
    (c.allIndexes.LookupIdx (TmcIdentifier n) = none →
      ResolveDeletedInterface ch c n = some (c, none)) := by
  constructor
  · intro k cfg ha hu hok
    have hw := reachable_wellFormed c hreach
    obtain ⟨cfg', hm, hne, hkey⟩ := hw.1 _ k (some cfg) ha
    injection hm with hm
    subst hm
    have hn : cfg.InterfaceName = n := (TmcIdentifier_injective hkey).symm
    have hcf : configFromIndex c n true = some cfg := by simp [configFromIndex, ha]
    obtain ⟨x, hr⟩ := removeConfigFromIndex_wellFormed c cfg.InterfaceName hw
    rw [hn, hu] at hr
    rw [← hn] at hr
    have hdel := Delete_stored ch c _ cfg x hne hr
    have hacc := vppcalls.ModifyTmcConfig_accept ch c.vppChan (c.ifIndexes.lookupIndex n)
      (cfg.MssValue % 65536) (cfg.TcpMssClamping % 256) hok
    have hlk : (unregistered c cfg.InterfaceName).allIndexes.LookupIdx (TmcIdentifier n) =
        none := by
      rw [hn]; exact NameToIdx.lookup_unregister_same _ _
    refine ⟨{ unregistered c cfg.InterfaceName with vppChan := c.vppChan ++
      [vppcalls.TmcEnableDisable.mk (cfg.TcpMssClamping % 256) (c.ifIndexes.lookupIndex n)
        (cfg.MssValue % 65536)] }, ?_, rfl, hlk, ?_⟩
    · simp only [ResolveDeletedInterface, hcf, hdel]
      rw [hn]
      have h2 : (vppcalls.ModifyTmcConfig ch (unregistered c n).vppChan
          (c.ifIndexes.lookupIndex n) (cfg.MssValue % 65536) (cfg.TcpMssClamping % 256)).2 =
            none := by
        show (vppcalls.ModifyTmcConfig ch c.vppChan _ _ _).2 = none
        rw [hacc]
      rw [h2]
      rfl
    · simp only [IndexExistsFor]
      show (Option.isSome ((unregistered c cfg.InterfaceName).allIndexes.LookupIdx
        (TmcIdentifier n))) = false
      rw [hlk]; rfl
  · intro ha
    simp [ResolveDeletedInterface, configFromIndex, ha]

theorem resolveDeleted_cascades_witness :
    (∃ c1 : TmcConfigurator,
      ResolveDeletedInterface acceptAll realized "memif1" = some (c1, none) ∧
        c1.vppChan = realized.vppChan ++
          [vppcalls.TmcEnableDisable.mk (tmcConfig.TcpMssClamping % 256)
            (realized.ifIndexes.lookupIndex "memif1") (tmcConfig.MssValue % 65536)] ∧
        c1.allIndexes.LookupIdx (TmcIdentifier "memif1") = none ∧
        IndexExistsFor c1 (TmcIdentifier "memif1") = false) ∧
    ResolveDeletedInterface acceptAll fresh "memif1" = some (fresh, none) :=
  ⟨(resolveDeleted_cascades acceptAll realized "memif1" reachable_realized).1 1 tmcConfig
      (by decide) (by decide) (by decide),
    (resolveDeleted_cascades acceptAll fresh "memif1" reachable_fresh).2 (by decide)⟩

end ifplugin

namespace ifplugin

open idxvpp

theorem Add_ready (ch : vppcalls.Channel) (c : TmcConfigurator) (cfg : modelTmc.TmcConfig)
    (i : Nat) (u : Unit) (hne : cfg.InterfaceName ≠ "")
    (hl : c.ifIndexes.LookupIdx cfg.InterfaceName = some (i, u)) :
    Add ch c (some cfg) =
      match (vppcalls.ModifyTmcConfig ch c.vppChan i (cfg.MssValue % 65536)
        (cfg.TcpMssClamping % 256)).2 with
      | some err =>
        some ({ c with vppChan := c.vppChan ++
                  [vppcalls.TmcEnableDisable.mk (cfg.TcpMssClamping % 256) i
                    (cfg.MssValue % 65536)] },
          some (TmcError.addFailed cfg.ConfigName err))
      | none =>
        some (indexTmcConfig { c with vppChan := c.vppChan ++
                  [vppcalls.TmcEnableDisable.mk (cfg.TcpMssClamping % 256) i
                    (cfg.MssValue % 65536)] } cfg false, none) := by
  have h := vppcalls.ModifyTmcConfig_eq ch c.vppChan i (cfg.MssValue % 65536)
    (cfg.TcpMssClamping % 256)
  simp only [Add, checkTmc_ready cfg c.ifIndexes i u hne hl]
  rw [h]
  cases (vppcalls.ModifyTmcConfig ch c.vppChan i (cfg.MssValue % 65536)
    (cfg.TcpMssClamping % 256)).2 <;> simp

/-- C5 (as stated, refuted): with `memif1` registered and the device accepting,
`Add(tmcConfig())` succeeds and realizes the config; the second `Add` of the
same config sends the request once more, re-registers the key under index `2`
and moves `allIndexesSeq` to `3`, so it is not a no-op. -/
theorem add_twice_counterexample :
    Add acceptAll { fresh with ifIndexes := memif1Up } (some tmcConfig) = some (realized, none) ∧
    Add acceptAll realized (some tmcConfig) =
      some ({ ifIndexes := memif1Up, allIndexes := [("tmc-iface-memif1", 2, some tmcConfig)],
              allIndexesSeq := 3, unstoredIndexes := [], unstoredIndexSeq := 1,
              vppChan := [{ IsEnable := 1, SwIfIndex := 5, Mss := 1450 },
                          { IsEnable := 1, SwIfIndex := 5, Mss := 1450 }] }, none) ∧
    ¬ (∃ err, Add acceptAll realized (some tmcConfig) = some (realized, err)) := by
  have h2 : Add acceptAll realized (some tmcConfig) =
      some ({ ifIndexes := memif1Up, allIndexes := [("tmc-iface-memif1", 2, some tmcConfig)],
              allIndexesSeq := 3, unstoredIndexes := [], unstoredIndexSeq := 1,
              vppChan := [{ IsEnable := 1, SwIfIndex := 5, Mss := 1450 },
                          { IsEnable := 1, SwIfIndex := 5, Mss := 1450 }] }, none) := by
    decide
  refine ⟨by decide, h2, ?_⟩
  rintro ⟨err, h⟩
  rw [h2] at h
  injection h with h
  have h3 := congrArg (fun p => p.1.allIndexesSeq) h
  change (3 : Nat) = 2 at h3
  exact absurd h3 (by decide)

/-- C5 (amended): for every valid config `cfg` whose interface is registered
in `ifIndexes`, a second `Add(cfg)` after a successful `Add(cfg)` is not a
no-op: it sends the same request once more and, when the device accepts it,
returns nil and registers the key in `allIndexes` with `cfg` again, under the
next index, advancing `allIndexesSeq` by one (modulo `2^32`); `unstoredIndexes`
and `unstoredIndexSeq` are left unchanged. -/
theorem add_twice_reissues (ch : vppcalls.Channel) (c c1 : TmcConfigurator)
    (cfg : modelTmc.TmcConfig) (i : Nat) (u : Unit) (hne : cfg.InterfaceName ≠ "")
    (hl : c.ifIndexes.LookupIdx cfg.InterfaceName = some (i, u))
    (h1 : Add ch c (some cfg) = some (c1, none)) :
    ∃ (c2 : TmcConfigurator) (err : Option TmcError),
      Add ch c1 (some cfg) = some (c2, err) ∧
        c1.vppChan = c.vppChan ++
          [vppcalls.TmcEnableDisable.mk (cfg.TcpMssClamping % 256) i (cfg.MssValue % 65536)] ∧
        c2.vppChan = c1.vppChan ++
          [vppcalls.TmcEnableDisable.mk (cfg.TcpMssClamping % 256) i (cfg.MssValue % 65536)] ∧
        c2.unstoredIndexes = c1.unstoredIndexes ∧ c2.unstoredIndexSeq = c1.unstoredIndexSeq ∧
        (ch c1.vppChan (vppcalls.TmcEnableDisable.mk (cfg.TcpMssClamping % 256) i
            (cfg.MssValue % 65536)) = (none, 0) →
          err = none ∧
            c2.allIndexes.LookupIdx (TmcIdentifier cfg.InterfaceName) =
              some (c1.allIndexesSeq, some cfg) ∧
            c2.allIndexesSeq = (c1.allIndexesSeq + 1) % 4294967296) := by
  have hc1 : c1 = indexTmcConfig { c with vppChan := c.vppChan ++
      [vppcalls.TmcEnableDisable.mk (cfg.TcpMssClamping % 256) i (cfg.MssValue % 65536)] }
        cfg false := by
    rw [Add_ready ch c cfg i u hne hl] at h1
    cases hm : (vppcalls.ModifyTmcConfig ch c.vppChan i (cfg.MssValue % 65536)
      (cfg.TcpMssClamping % 256)).2 with
    | some e => rw [hm] at h1; simp at h1
    | none =>
      rw [hm] at h1
      injection h1 with h1
      injection h1 with h1 _
      exact h1.symm
  have hl1 : c1.ifIndexes.LookupIdx cfg.InterfaceName = some (i, u) := by
    rw [hc1]; exact hl
  have hv1 : c1.vppChan = c.vppChan ++
      [vppcalls.TmcEnableDisable.mk (cfg.TcpMssClamping % 256) i (cfg.MssValue % 65536)] := by
    rw [hc1]; rfl
  rw [Add_ready ch c1 cfg i u hne hl1]
  cases hm : (vppcalls.ModifyTmcConfig ch c1.vppChan i (cfg.MssValue % 65536)
    (cfg.TcpMssClamping % 256)).2 with
  | some e =>
    refine ⟨_, _, rfl, hv1, rfl, rfl, rfl, ?_⟩
    intro hok
    rw [vppcalls.ModifyTmcConfig_accept ch c1.vppChan i _ _ hok] at hm
    cases hm
  | none =>
    refine ⟨_, _, rfl, hv1, rfl, rfl, rfl, ?_⟩
    intro _
    refine ⟨rfl, ?_, rfl⟩
    rw [indexTmcConfig_all, NameToIdx.lookup_register_same]

theorem add_twice_reissues_witness :
    ∃ (c2 : TmcConfigurator) (err : Option TmcError),
      Add acceptAll realized (some tmcConfig) = some (c2, err) ∧
        realized.vppChan = ([] : List vppcalls.TmcEnableDisable) ++
          [vppcalls.TmcEnableDisable.mk (tmcConfig.TcpMssClamping % 256) 5
            (tmcConfig.MssValue % 65536)] ∧
        c2.vppChan = realized.vppChan ++
          [vppcalls.TmcEnableDisable.mk (tmcConfig.TcpMssClamping % 256) 5
            (tmcConfig.MssValue % 65536)] ∧
        c2.unstoredIndexes = realized.unstoredIndexes ∧
        c2.unstoredIndexSeq = realized.unstoredIndexSeq ∧
        (acceptAll realized.vppChan (vppcalls.TmcEnableDisable.mk (tmcConfig.TcpMssClamping % 256) 5
            (tmcConfig.MssValue % 65536)) = (none, 0) →
          err = none ∧
            c2.allIndexes.LookupIdx (TmcIdentifier tmcConfig.InterfaceName) =
              some (realized.allIndexesSeq, some tmcConfig) ∧
            c2.allIndexesSeq = (realized.allIndexesSeq + 1) % 4294967296) :=
  add_twice_reissues acceptAll { fresh with ifIndexes := memif1Up } realized tmcConfig 5 ()
    (by decide) (by decide) (by decide)

/-- C6: `Add` is atomic on device failure. For every valid config whose
interface is registered in `ifIndexes`, if the device call `ModifyTmcConfig`
fails then `Add` returns a non-nil error and `allIndexes`, `unstoredIndexes`
and both sequence counters are exactly as before the call; the same holds when
the failing `Add` is driven by `ResolveCreatedInterface` for a pending config,
which then stays pending. -/
theorem add_atomic_on_failure (ch : vppcalls.Channel) (c : TmcConfigurator)
    (cfg : modelTmc.TmcConfig) (i : Nat) (u : Unit) (hne : cfg.InterfaceName ≠ "")
    (hl : c.ifIndexes.LookupIdx cfg.InterfaceName = some (i, u))
    (hfail : (vppcalls.ModifyTmcConfig ch c.vppChan i (cfg.MssValue % 65536)
      (cfg.TcpMssClamping % 256)).2 ≠ none) :
    (∃ (c1 : TmcConfigurator) (err : TmcError),
      Add ch c (some cfg) = some (c1, some err) ∧
        c1.allIndexes = c.allIndexes ∧ c1.unstoredIndexes = c.unstoredIndexes ∧
        c1.allIndexesSeq = c.allIndexesSeq ∧ c1.unstoredIndexSeq = c.unstoredIndexSeq) ∧
    (∀ n : String, configFromIndex c n false = some cfg →
      ∃ (c1 : TmcConfigurator) (err : TmcError),
        ResolveCreatedInterface ch c n = some (c1, some err) ∧
          c1.allIndexes = c.allIndexes ∧ c1.unstoredIndexes = c.unstoredIndexes ∧
          c1.allIndexesSeq = c.allIndexesSeq ∧ c1.unstoredIndexSeq = c.unstoredIndexSeq ∧
          configFromIndex c1 n false = some cfg) := by
  obtain ⟨e, he⟩ := Option.ne_none_iff_exists'.mp hfail
  have hadd := Add_rejected ch c cfg i u e hne hl he
  constructor
  · exact ⟨_, _, hadd, rfl, rfl, rfl, rfl⟩
  · intro n hcf
    refine ⟨{ c with vppChan := c.vppChan ++
      [vppcalls.TmcEnableDisable.mk (cfg.TcpMssClamping % 256) i (cfg.MssValue % 65536)] },
      TmcError.addFailed cfg.ConfigName e, ?_, rfl, rfl, rfl, rfl, ?_⟩
    · simp only [ResolveCreatedInterface, hcf, hadd]
    · exact hcf

theorem add_atomic_on_failure_witness :
    (∃ (c1 : TmcConfigurator) (err : TmcError),
      Add rejectAll pendingUp (some tmcConfig) = some (c1, some err) ∧
        c1.allIndexes = pendingUp.allIndexes ∧ c1.unstoredIndexes = pendingUp.unstoredIndexes ∧
        c1.allIndexesSeq = pendingUp.allIndexesSeq ∧
        c1.unstoredIndexSeq = pendingUp.unstoredIndexSeq) ∧
    (∃ (c1 : TmcConfigurator) (err : TmcError),
      ResolveCreatedInterface rejectAll pendingUp "memif1" = some (c1, some err) ∧
        c1.allIndexes = pendingUp.allIndexes ∧ c1.unstoredIndexes = pendingUp.unstoredIndexes ∧
        c1.allIndexesSeq = pendingUp.allIndexesSeq ∧
        c1.unstoredIndexSeq = pendingUp.unstoredIndexSeq ∧
        configFromIndex c1 "memif1" false = some tmcConfig) :=
  ⟨(add_atomic_on_failure rejectAll pendingUp tmcConfig 5 () (by decide) (by decide)
      (by decide)).1,
    (add_atomic_on_failure rejectAll pendingUp tmcConfig 5 () (by decide) (by decide)
      (by decide)).2 "memif1" (by decide)⟩

/-- C7 (the code at the failing input): the config is realized and the device
rejects the request of `Delete`; `Delete` returns the error, yet the key has
already been unregistered from `allIndexes`. -/
theorem delete_failure_unregisters :
    realized.allIndexes.LookupIdx (TmcIdentifier "memif1") = some (1, some tmcConfig) ∧
    Delete rejectAll realized (some tmcConfig) =
      some ({ ifIndexes := memif1Up, allIndexes := [], allIndexesSeq := 2, unstoredIndexes := [],
              unstoredIndexSeq := 1,
              vppChan := [{ IsEnable := 1, SwIfIndex := 5, Mss := 1450 },
                          { IsEnable := 1, SwIfIndex := 5, Mss := 1450 }] },
        some (TmcError.deleteFailed "config1" (TmcError.retval (-1)))) := by
  decide

end ifplugin

namespace ifplugin

open idxvpp

/-- C8: `Modify` is `Delete` then `Add` with fail-fast. For every state and
all arguments, `Modify(old, new)` returns an error, sends no request and
changes nothing when `old` is nil or `new` is nil; otherwise its result (error,
requests sent and final state) is that of running `Delete(old)` and then, only
if `Delete` returned nil, `Add(new)`, so that a failed delete step returns its
error without the add step. -/
theorem modify_is_delete_then_add (ch : vppcalls.Channel) (c : TmcConfigurator)
    (oldConfig newConfig : Option modelTmc.TmcConfig) :
    (oldConfig = none ∨ newConfig = none →
      ∃ err : TmcError, Modify ch c oldConfig newConfig = some (c, some err)) ∧
    (oldConfig ≠ none → newConfig ≠ none →
      Modify ch c oldConfig newConfig = deleteThenAdd ch c oldConfig newConfig ∧
      ∀ (c1 : TmcConfigurator) (err : TmcError),
        Delete ch c oldConfig = some (c1, some err) →
          Modify ch c oldConfig newConfig = some (c1, some err)) := by
  constructor
  · intro h
    cases oldConfig with
    | none => exact ⟨TmcError.oldNil, rfl⟩
    | some o =>
      cases newConfig with
      | none => exact ⟨TmcError.newNil, rfl⟩
      | some n => simp at h
  · intro ho hn
    cases oldConfig with
    | none => exact absurd rfl ho
    | some o =>
      cases newConfig with
      | none => exact absurd rfl hn
      | some n =>
        constructor
        · simp only [Modify, deleteThenAdd]
          cases hd : Delete ch c (some o) with
          | none => rfl
          | some r =>
            obtain ⟨c1, e1⟩ := r
            cases e1 with
            | some e => rfl
            | none =>
              simp only [Option.bind]
              cases ha : Add ch c1 (some n) with
              | none => rfl
              | some r2 =>
                obtain ⟨c2, e2⟩ := r2
                cases e2 <;> rfl
        · intro c1 err hd
          simp only [Modify, hd]

theorem modify_is_delete_then_add_witness :
    (∃ err : TmcError, Modify acceptAll realized none (some tmcConfig2) = some (realized, some err)) ∧
    (Modify rejectAll realized (some tmcConfig) (some tmcConfig2) =
        deleteThenAdd rejectAll realized (some tmcConfig) (some tmcConfig2) ∧
      ∀ (c1 : TmcConfigurator) (err : TmcError),
        Delete rejectAll realized (some tmcConfig) = some (c1, some err) →
          Modify rejectAll realized (some tmcConfig) (some tmcConfig2) = some (c1, some err)) :=
  ⟨(modify_is_delete_then_add acceptAll realized none (some tmcConfig2)).1 (Or.inl rfl),
    (modify_is_delete_then_add rejectAll realized (some tmcConfig) (some tmcConfig2)).2
      (by decide) (by decide)⟩

/-- C9: a validation error never enters the pending set. For every state,
`Add` of a nil config or of a config whose `InterfaceName` is empty returns a
non-nil error and leaves the configurator as it was (no request sent,
`allIndexes`, `unstoredIndexes` and both sequence counters unchanged);
`Delete` of such a config likewise returns an error and changes nothing. -/
theorem invalid_config_rejected (ch : vppcalls.Channel) (c : TmcConfigurator)
    (config : Option modelTmc.TmcConfig)
    (hbad : config = none ∨ ∃ cfg : modelTmc.TmcConfig, config = some cfg ∧ cfg.InterfaceName = "") :
    (∃ err : TmcError, Add ch c config = some (c, some err)) ∧
    (∃ err : TmcError, Delete ch c config = some (c, some err)) := by
  rcases hbad with h | ⟨cfg, h, he⟩
  · subst h
    exact ⟨⟨_, Add_nil ch c⟩, ⟨_, Delete_nil ch c⟩⟩
  · subst h
    exact ⟨⟨_, Add_noInterface ch c cfg he⟩, ⟨_, Delete_noInterface ch c cfg he⟩⟩

theorem invalid_config_rejected_witness :
    (∃ err : TmcError, Add acceptAll pending (some { tmcConfig with InterfaceName := "" }) =
      some (pending, some err)) ∧
    (∃ err : TmcError, Delete acceptAll pending (some { tmcConfig with InterfaceName := "" }) =
      some (pending, some err)) :=
  invalid_config_rejected acceptAll pending (some { tmcConfig with InterfaceName := "" })
    (Or.inr ⟨{ tmcConfig with InterfaceName := "" }, rfl, rfl⟩)

/-- C10: pending last-write-wins. For every two valid configs `cfg1` and `cfg2`
with the same `InterfaceName` whose interface is not in `ifIndexes`, after
`Add(cfg1)` then `Add(cfg2)` (both return nil, no request is sent)
`unstoredIndexes` holds exactly one entry for `TmcIdentifier(InterfaceName)`
and its metadata is `cfg2`; a later `ResolveCreatedInterface`, once the
interface is registered with index `i`, sends exactly one request, built from
`cfg2`, and when the device accepts it the key is realized with `cfg2`. -/
theorem pending_last_write_wins (ch : vppcalls.Channel) (c : TmcConfigurator)
    (cfg1 cfg2 : modelTmc.TmcConfig) (hne : cfg1.InterfaceName ≠ "")
    (hsame : cfg2.InterfaceName = cfg1.InterfaceName)
    (hl : c.ifIndexes.LookupIdx cfg1.InterfaceName = none) :
    ∃ c1 c2 : TmcConfigurator,
      Add ch c (some cfg1) = some (c1, none) ∧ Add ch c1 (some cfg2) = some (c2, none) ∧
        c2.vppChan = c.vppChan ∧
        c2.unstoredIndexes.filter (fun e => decide (e.1 = TmcIdentifier cfg1.InterfaceName)) =
          [(TmcIdentifier cfg1.InterfaceName, c1.unstoredIndexSeq, some cfg2)] ∧
        c2.unstoredIndexes.count (TmcIdentifier cfg1.InterfaceName) = 1 ∧
        configFromIndex c2 cfg1.InterfaceName false = some cfg2 ∧
        ∀ (ch3 : vppcalls.Channel) (ifIndexes : NameToIdx Unit) (i : Nat) (u : Unit),
          ifIndexes.LookupIdx cfg1.InterfaceName = some (i, u) →
          ∃ (c3 : TmcConfigurator) (err : Option TmcError),
            ResolveCreatedInterface ch3 { c2 with ifIndexes := ifIndexes } cfg1.InterfaceName =
              some (c3, err) ∧
            c3.vppChan = c.vppChan ++
              [vppcalls.TmcEnableDisable.mk (cfg2.TcpMssClamping % 256) i
                (cfg2.MssValue % 65536)] ∧
            (ch3 c.vppChan (vppcalls.TmcEnableDisable.mk (cfg2.TcpMssClamping % 256) i
                (cfg2.MssValue % 65536)) = (none, 0) →
              err = none ∧
                c3.unstoredIndexes.LookupIdx (TmcIdentifier cfg1.InterfaceName) = none ∧
                c3.allIndexes.LookupIdx (TmcIdentifier cfg1.InterfaceName) =
                  some (c2.allIndexesSeq, some cfg2)) := by
  have hne2 : cfg2.InterfaceName ≠ "" := by rw [hsame]; exact hne
  have h1 := Add_unready ch c cfg1 hne hl
  have hl2 : (indexTmcConfig c cfg1 true).ifIndexes.LookupIdx cfg2.InterfaceName = none := by
    rw [hsame]; exact hl
  have h2 := Add_unready ch (indexTmcConfig c cfg1 true) cfg2 hne2 hl2
  have hfil : ∀ (r : NameToIdx (Option modelTmc.TmcConfig)) (n : String) (k : Nat)
      (m : Option modelTmc.TmcConfig),
      (r.RegisterName n k m).filter (fun e => decide (e.1 = n)) = [(n, k, m)] := by
    intro r n k m
    simp [NameToIdx.RegisterName, NameToIdx.UnregisterName, List.filter_append,
      List.filter_filter]
  have hun : (indexTmcConfig (indexTmcConfig c cfg1 true) cfg2 true).unstoredIndexes =
      (indexTmcConfig c cfg1 true).unstoredIndexes.RegisterName
        (TmcIdentifier cfg1.InterfaceName) (indexTmcConfig c cfg1 true).unstoredIndexSeq
        (some cfg2) := by
    rw [indexTmcConfig_unstored_true, hsame]
  have hlk : (indexTmcConfig (indexTmcConfig c cfg1 true) cfg2 true).unstoredIndexes.LookupIdx
      (TmcIdentifier cfg1.InterfaceName) =
        some ((indexTmcConfig c cfg1 true).unstoredIndexSeq, some cfg2) := by
    rw [hun, NameToIdx.lookup_register_same]
  refine ⟨indexTmcConfig c cfg1 true, indexTmcConfig (indexTmcConfig c cfg1 true) cfg2 true,
    h1, h2, ?_, ?_, ?_, ?_, ?_⟩
  · rw [indexTmcConfig_vppChan, indexTmcConfig_vppChan]
  · rw [hun]; exact hfil _ _ _ _
  · rw [hun]; exact NameToIdx.count_register_same _ _ _ _
  · simp [configFromIndex, hlk]
  · intro ch3 ifIndexes i u hi
    have hcf : configFromIndex
        { indexTmcConfig (indexTmcConfig c cfg1 true) cfg2 true with ifIndexes := ifIndexes }
        cfg1.InterfaceName false = some cfg2 := by
      simp only [configFromIndex]
      simp [hlk]
    have hi2 : ({ indexTmcConfig (indexTmcConfig c cfg1 true) cfg2 true with
        ifIndexes := ifIndexes } : TmcConfigurator).ifIndexes.LookupIdx cfg2.InterfaceName =
          some (i, u) := by
      rw [hsame]; exact hi
    have hadd := Add_ready ch3
      { indexTmcConfig (indexTmcConfig c cfg1 true) cfg2 true with ifIndexes := ifIndexes }
      cfg2 i u hne2 hi2
    have hvc : ({ indexTmcConfig (indexTmcConfig c cfg1 true) cfg2 true with
        ifIndexes := ifIndexes } : TmcConfigurator).vppChan = c.vppChan := by
      show (indexTmcConfig (indexTmcConfig c cfg1 true) cfg2 true).vppChan = c.vppChan
      rw [indexTmcConfig_vppChan, indexTmcConfig_vppChan]
    rw [hvc] at hadd
    simp only [ResolveCreatedInterface, hcf, hadd]
    cases hm : (vppcalls.ModifyTmcConfig ch3 c.vppChan i (cfg2.MssValue % 65536)
      (cfg2.TcpMssClamping % 256)).2 with
    | some e =>
      refine ⟨_, _, rfl, rfl, ?_⟩
      intro hok
      rw [vppcalls.ModifyTmcConfig_accept ch3 c.vppChan i _ _ hok] at hm
      cases hm
    | none =>
      refine ⟨_, _, rfl, rfl, ?_⟩
      intro _
      refine ⟨rfl, NameToIdx.lookup_unregister_same _ _, ?_⟩
      show (indexTmcConfig _ cfg2 false).allIndexes.LookupIdx _ = _
      rw [indexTmcConfig_all, hsame, NameToIdx.lookup_register_same]

theorem pending_last_write_wins_witness :
    ∃ c1 c2 : TmcConfigurator,
      Add acceptAll fresh (some tmcConfig) = some (c1, none) ∧
        Add acceptAll c1 (some tmcConfig2) = some (c2, none) ∧
        c2.vppChan = fresh.vppChan ∧
        c2.unstoredIndexes.filter
            (fun e => decide (e.1 = TmcIdentifier tmcConfig.InterfaceName)) =
          [(TmcIdentifier tmcConfig.InterfaceName, c1.unstoredIndexSeq, some tmcConfig2)] ∧
        c2.unstoredIndexes.count (TmcIdentifier tmcConfig.InterfaceName) = 1 ∧
        configFromIndex c2 tmcConfig.InterfaceName false = some tmcConfig2 ∧
        ∀ (ch3 : vppcalls.Channel) (ifIndexes : NameToIdx Unit) (i : Nat) (u : Unit),
          ifIndexes.LookupIdx tmcConfig.InterfaceName = some (i, u) →
          ∃ (c3 : TmcConfigurator) (err : Option TmcError),
            ResolveCreatedInterface ch3 { c2 with ifIndexes := ifIndexes }
                tmcConfig.InterfaceName = some (c3, err) ∧
            c3.vppChan = fresh.vppChan ++
              [vppcalls.TmcEnableDisable.mk (tmcConfig2.TcpMssClamping % 256) i
                (tmcConfig2.MssValue % 65536)] ∧
            (ch3 fresh.vppChan (vppcalls.TmcEnableDisable.mk (tmcConfig2.TcpMssClamping % 256) i
                (tmcConfig2.MssValue % 65536)) = (none, 0) →
              err = none ∧
                c3.unstoredIndexes.LookupIdx (TmcIdentifier tmcConfig.InterfaceName) = none ∧
                c3.allIndexes.LookupIdx (TmcIdentifier tmcConfig.InterfaceName) =
                  some (c2.allIndexesSeq, some tmcConfig2)) :=
  pending_last_write_wins acceptAll fresh tmcConfig tmcConfig2 (by decide) (by decide)
    (by decide)

end ifplugin

/-! ## The reconciler: realized, pending and the device -/

namespace ifplugin

open idxvpp

theorem reachable_resolvedAbsent : Reachable resolvedAbsent :=
  Reachable.resolveCreated acceptAll pending resolvedAbsent "memif1" none reachable_pending
    (by decide)

theorem reachable_readded : Reachable readded :=
  Reachable.add acceptAll { realized with ifIndexes := [] } readded (some tmcConfig) none
    (Reachable.interfaces realized [] reachable_realized) (by decide)

/-- C11 (the code at the failing input): `tmcConfig()` is pending and `memif1`
is still not registered in `ifIndexes` when `ResolveCreatedInterface("memif1")`
is called. The inner `Add` defers the config once more and returns nil, the
hook then unregisters the key from `unstoredIndexes`: the key is left in
`allIndexes` only, that is realized, and no request was ever sent to the
device. -/
theorem resolveCreated_realizes_unapplied :
    Reachable pending ∧
    pending.ifIndexes.LookupIdx "memif1" = none ∧
    UnstoredIndexExistsFor pending (TmcIdentifier "memif1") = true ∧
    ResolveCreatedInterface acceptAll pending "memif1" = some (resolvedAbsent, none) ∧
    IndexExistsFor resolvedAbsent (TmcIdentifier "memif1") = true ∧
    UnstoredIndexExistsFor resolvedAbsent (TmcIdentifier "memif1") = false ∧
    resolvedAbsent.vppChan = [] :=
  ⟨reachable_pending, by decide, by decide, by decide, by decide, by decide, rfl⟩

/-- C12 (the code at the failing input): `tmcConfig()` was applied to the
device by a successful `Add`; `memif1` then leaves `ifIndexes` and
`Add(tmcConfig())` is called again, which registers the key in
`unstoredIndexes`. `Delete(tmcConfig())` now finds the key there, skips the
device call and returns nil, although the one request sent for the key since
it was absent from both registries was accepted. -/
theorem delete_skips_applied_config :
    Add acceptAll { fresh with ifIndexes := memif1Up } (some tmcConfig) = some (realized, none) ∧
    realized.vppChan = [{ IsEnable := 1, SwIfIndex := 5, Mss := 1450 }] ∧
    Add acceptAll { realized with ifIndexes := [] } (some tmcConfig) = some (readded, none) ∧
    Reachable readded ∧
    UnstoredIndexExistsFor readded (TmcIdentifier "memif1") = true ∧
    Delete acceptAll readded (some tmcConfig) =
      some ({ readded with allIndexes := [], unstoredIndexes := [] }, none) ∧
    ({ readded with allIndexes := [], unstoredIndexes := [] } : TmcConfigurator).vppChan =
      realized.vppChan :=
  ⟨by decide, rfl, by decide, reachable_readded, by decide, by decide, rfl⟩

/-- C13 (as stated, refuted): after `Add(tmcConfig())` on the fresh
configurator, a reachable state, the key of the config is registered in
`allIndexes` and in `unstoredIndexes` at the same time. -/
theorem partition_counterexample :
    Reachable pending ∧
    IndexExistsFor pending (TmcIdentifier "memif1") = true ∧
    UnstoredIndexExistsFor pending (TmcIdentifier "memif1") = true :=
  ⟨reachable_pending, by decide, by decide⟩

/-- C13 (amended): in every state reachable from `Init` through `Add`,
`Delete`, `Modify`, `ResolveCreatedInterface` and `ResolveDeletedInterface`,
every key registered in the pending registry `unstoredIndexes` is also
registered in `allIndexes`: the pending registry is nested in the registry of
all configs, not disjoint from it. -/
theorem pending_nested_in_all (c : TmcConfigurator) (name : String) (hreach : Reachable c)
    (hu : UnstoredIndexExistsFor c name = true) : IndexExistsFor c name = true := by
  obtain ⟨_, _, hsub⟩ := reachable_wellFormed c hreach
  simp only [UnstoredIndexExistsFor, IndexExistsFor, Option.isSome_iff_ne_none] at hu ⊢
  exact hsub name hu

theorem pending_nested_in_all_witness :
    IndexExistsFor pending (TmcIdentifier "memif1") = true :=
  pending_nested_in_all pending (TmcIdentifier "memif1") reachable_pending (by decide)

end ifplugin

/-! ## The sequence counters -/

namespace idxvpp.NameToIdx

variable {μ : Type}

theorem mem_unregister {r : NameToIdx μ} {n : String} {e : String × Nat × μ}
    (h : e ∈ UnregisterName r n) : e ∈ r :=
  (List.mem_filter.mp h).1

theorem mem_register {r : NameToIdx μ} {n : String} {k : Nat} {m : μ} {e : String × Nat × μ}
    (h : e ∈ RegisterName r n k m) : e ∈ r ∨ e = (n, k, m) := by
  unfold RegisterName at h
  rcases List.mem_append.mp h with h | h
  · exact Or.inl (mem_unregister h)
  · exact Or.inr (List.mem_singleton.mp h)

end idxvpp.NameToIdx

namespace ifplugin

open idxvpp

theorem indexesBelow_nil {μ : Type} (seq : Nat) : IndexesBelow ([] : NameToIdx μ) seq :=
  ⟨fun _ h => absurd h (List.not_mem_nil _), List.nodup_nil⟩

theorem indexesBelow_unregister {μ : Type} (r : NameToIdx μ) (n : String) (seq : Nat)
    (h : IndexesBelow r seq) : IndexesBelow (r.UnregisterName n) seq := by
  refine ⟨fun e he => h.1 e (NameToIdx.mem_unregister he), ?_⟩
  exact h.2.sublist (List.Sublist.map _ (List.filter_sublist r))

theorem indexesBelow_register {μ : Type} (r : NameToIdx μ) (n : String) (seq : Nat) (m : μ)
    (h : IndexesBelow r seq) : IndexesBelow (r.RegisterName n seq m) (seq + 1) := by
  constructor
  · intro e he
    rcases NameToIdx.mem_register he with he | he
    · exact Nat.lt_succ_of_lt (h.1 e he)
    · subst he
      exact Nat.lt_succ_self _
  · have hu := indexesBelow_unregister r n seq h
    unfold NameToIdx.RegisterName
    rw [List.map_append]
    refine List.Nodup.append hu.2 (List.nodup_singleton _) ?_
    intro x hx hx'
    obtain ⟨e, he, rfl⟩ := List.mem_map.mp hx
    have hlt := hu.1 e he
    have heq : e.2.1 = seq := by simpa using hx'
    omega

theorem advances_refl (c : TmcConfigurator) : Advances c c :=
  ⟨Nat.le_refl _, Nat.le_refl _, fun _ he => Or.inl he, fun _ he => Or.inl he⟩

theorem advances_trans {a b c : TmcConfigurator} (h1 : Advances a b) (h2 : Advances b c) :
    Advances a c := by
  obtain ⟨ha1, hu1, hea1, heu1⟩ := h1
  obtain ⟨ha2, hu2, hea2, heu2⟩ := h2
  refine ⟨Nat.le_trans ha1 ha2, Nat.le_trans hu1 hu2, ?_, ?_⟩
  · intro e he
    rcases hea2 e he with h | h
    · exact hea1 e h
    · exact Or.inr (Nat.le_trans ha1 h)
  · intro e he
    rcases heu2 e he with h | h
    · exact heu1 e h
    · exact Or.inr (Nat.le_trans hu1 h)

theorem seqInv_unregistered (c : TmcConfigurator) (iface : String)
    (sent : List vppcalls.TmcEnableDisable) (h : SeqInv c) :
    SeqInv { unregistered c iface with vppChan := sent } ∧
      Advances c { unregistered c iface with vppChan := sent } := by
  obtain ⟨h1, h2, h3, h4, h5, h6⟩ := h
  refine ⟨⟨h1, h2, h3, h4, indexesBelow_unregister _ _ _ h5, indexesBelow_unregister _ _ _ h6⟩,
    Nat.le_refl _, Nat.le_refl _, ?_, ?_⟩
  · intro e he
    exact Or.inl (NameToIdx.mem_unregister he)
  · intro e he
    exact Or.inl (NameToIdx.mem_unregister he)

theorem seqInv_unregister_unstored (c : TmcConfigurator) (n : String) (h : SeqInv c) :
    SeqInv { c with unstoredIndexes := c.unstoredIndexes.UnregisterName n } ∧
      Advances c { c with unstoredIndexes := c.unstoredIndexes.UnregisterName n } := by
  obtain ⟨h1, h2, h3, h4, h5, h6⟩ := h
  refine ⟨⟨h1, h2, h3, h4, h5, indexesBelow_unregister _ _ _ h6⟩,
    Nat.le_refl _, Nat.le_refl _, fun _ he => Or.inl he, ?_⟩
  intro e he
  exact Or.inl (NameToIdx.mem_unregister he)

theorem seqInv_indexTmcConfig (c : TmcConfigurator) (cfg : modelTmc.TmcConfig) (b : Bool)
    (sent : List vppcalls.TmcEnableDisable) (h : SeqInv c)
    (hA : (indexTmcConfig { c with vppChan := sent } cfg b).allIndexesSeq = c.allIndexesSeq ∨
      c.allIndexesSeq + 1 < 4294967296)
    (hU : (indexTmcConfig { c with vppChan := sent } cfg b).unstoredIndexSeq =
      c.unstoredIndexSeq ∨ c.unstoredIndexSeq + 1 < 4294967296) :
    SeqInv (indexTmcConfig { c with vppChan := sent } cfg b) ∧
      Advances c (indexTmcConfig { c with vppChan := sent } cfg b) := by
  obtain ⟨h1, h2, h3, h4, h5, h6⟩ := h
  have hA' : (c.allIndexesSeq + 1) % 4294967296 = c.allIndexesSeq + 1 := by
    have : (indexTmcConfig { c with vppChan := sent } cfg b).allIndexesSeq =
        (c.allIndexesSeq + 1) % 4294967296 := by cases b <;> rfl
    rw [this] at hA
    omega
  have hall : ∀ e ∈ c.allIndexes.RegisterName (TmcIdentifier cfg.InterfaceName)
      c.allIndexesSeq (some cfg), e ∈ c.allIndexes ∨ c.allIndexesSeq ≤ e.2.1 := by
    intro e he
    rcases NameToIdx.mem_register he with he | he
    · exact Or.inl he
    · subst he; exact Or.inr (Nat.le_refl _)
  cases b with
  | false =>
    refine ⟨⟨?_, ?_, h3, h4, ?_, h6⟩, ?_, Nat.le_refl _, hall, fun _ he => Or.inl he⟩
    · show 1 ≤ (c.allIndexesSeq + 1) % 4294967296
      omega
    · show (c.allIndexesSeq + 1) % 4294967296 < 4294967296
      omega
    · show IndexesBelow (c.allIndexes.RegisterName _ c.allIndexesSeq (some cfg))
        ((c.allIndexesSeq + 1) % 4294967296)
      rw [hA']
      exact indexesBelow_register _ _ _ _ h5
    · show c.allIndexesSeq ≤ (c.allIndexesSeq + 1) % 4294967296
      omega
  | true =>
    have hU' : (c.unstoredIndexSeq + 1) % 4294967296 = c.unstoredIndexSeq + 1 := by
      have : (indexTmcConfig { c with vppChan := sent } cfg true).unstoredIndexSeq =
          (c.unstoredIndexSeq + 1) % 4294967296 := rfl
      rw [this] at hU
      omega
    refine ⟨⟨?_, ?_, ?_, ?_, ?_, ?_⟩, ?_, ?_, hall, ?_⟩
    · show 1 ≤ (c.allIndexesSeq + 1) % 4294967296
      omega
    · show (c.allIndexesSeq + 1) % 4294967296 < 4294967296
      omega
    · show 1 ≤ (c.unstoredIndexSeq + 1) % 4294967296
      omega
    · show (c.unstoredIndexSeq + 1) % 4294967296 < 4294967296
      omega
    · show IndexesBelow (c.allIndexes.RegisterName _ c.allIndexesSeq (some cfg))
        ((c.allIndexesSeq + 1) % 4294967296)
      rw [hA']
      exact indexesBelow_register _ _ _ _ h5
    · show IndexesBelow (c.unstoredIndexes.RegisterName _ c.unstoredIndexSeq (some cfg))
        ((c.unstoredIndexSeq + 1) % 4294967296)
      rw [hU']
      exact indexesBelow_register _ _ _ _ h6
    · show c.allIndexesSeq ≤ (c.allIndexesSeq + 1) % 4294967296
      omega
    · show c.unstoredIndexSeq ≤ (c.unstoredIndexSeq + 1) % 4294967296
      omega
    · intro e he
      rcases NameToIdx.mem_register he with he | he
      · exact Or.inl he
      · subst he; exact Or.inr (Nat.le_refl _)

end ifplugin

namespace ifplugin

open idxvpp

theorem Add_shape (ch : vppcalls.Channel) (c c1 : TmcConfigurator)
    (config : Option modelTmc.TmcConfig) (err : Option TmcError)
    (h : Add ch c config = some (c1, err)) :
    ∃ sent : List vppcalls.TmcEnableDisable,
      c1 = { c with vppChan := sent } ∨
        ∃ (cfg : modelTmc.TmcConfig) (b : Bool),
          c1 = indexTmcConfig { c with vppChan := sent } cfg b := by
  cases config with
  | none =>
    rw [Add_nil] at h
    injection h with h; injection h with h1 _
    exact ⟨c.vppChan, Or.inl h1.symm⟩
  | some cfg =>
    by_cases hne : cfg.InterfaceName = ""
    · rw [Add_noInterface ch c cfg hne] at h
      injection h with h; injection h with h1 _
      exact ⟨c.vppChan, Or.inl h1.symm⟩
    · simp only [Add, checkTmc_valid cfg c.ifIndexes hne] at h
      split at h
      · injection h with h; injection h with h1 _
        exact ⟨c.vppChan, Or.inr ⟨cfg, true, h1.symm⟩⟩
      · split at h
        · rename_i sent _ _
          injection h with h; injection h with h1 _
          exact ⟨sent, Or.inl h1.symm⟩
        · rename_i sent _
          injection h with h; injection h with h1 _
          exact ⟨sent, Or.inr ⟨cfg, false, h1.symm⟩⟩

theorem Delete_shape (ch : vppcalls.Channel) (c c1 : TmcConfigurator)
    (config : Option modelTmc.TmcConfig) (err : Option TmcError)
    (h : Delete ch c config = some (c1, err)) :
    c1 = c ∨ ∃ (iface : String) (sent : List vppcalls.TmcEnableDisable),
      c1 = { unregistered c iface with vppChan := sent } := by
  cases config with
  | none =>
    rw [Delete_nil] at h
    injection h with h; injection h with h1 _
    exact Or.inl h1.symm
  | some cfg =>
    by_cases hne : cfg.InterfaceName = ""
    · rw [Delete_noInterface ch c cfg hne] at h
      injection h with h; injection h with h1 _
      exact Or.inl h1.symm
    · cases hr : removeConfigFromIndex c cfg.InterfaceName with
      | none => simp [Delete, checkTmc_valid cfg c.ifIndexes hne, hr] at h
      | some r =>
        obtain ⟨c2, b, x⟩ := r
        obtain ⟨hc2, _⟩ := removeConfigFromIndex_eq c c2 cfg.InterfaceName b x hr
        cases b with
        | true =>
          rw [Delete_pending ch c c2 cfg x hne hr] at h
          injection h with h; injection h with h1 _
          exact Or.inr ⟨cfg.InterfaceName, c.vppChan, by rw [← h1, hc2]; rfl⟩
        | false =>
          rw [Delete_stored ch c c2 cfg x hne hr] at h
          injection h with h; injection h with h1 _
          exact Or.inr ⟨cfg.InterfaceName, _, by rw [← h1, hc2]⟩

theorem Add_seqInv (ch : vppcalls.Channel) (c c1 : TmcConfigurator)
    (config : Option modelTmc.TmcConfig) (err : Option TmcError)
    (h : Add ch c config = some (c1, err)) (hi : SeqInv c)
    (hA : c1.allIndexesSeq = c.allIndexesSeq ∨ c.allIndexesSeq + 1 < 4294967296)
    (hU : c1.unstoredIndexSeq = c.unstoredIndexSeq ∨ c.unstoredIndexSeq + 1 < 4294967296) :
    SeqInv c1 ∧ Advances c c1 := by
  obtain ⟨sent, h1 | ⟨cfg, b, h1⟩⟩ := Add_shape ch c c1 config err h
  · subst h1
    exact ⟨hi, advances_refl _⟩
  · subst h1
    exact seqInv_indexTmcConfig c cfg b sent hi hA hU

theorem Delete_seqInv (ch : vppcalls.Channel) (c c1 : TmcConfigurator)
    (config : Option modelTmc.TmcConfig) (err : Option TmcError)
    (h : Delete ch c config = some (c1, err)) (hi : SeqInv c) :
    SeqInv c1 ∧ Advances c c1 ∧ c1.allIndexesSeq = c.allIndexesSeq ∧
      c1.unstoredIndexSeq = c.unstoredIndexSeq := by
  rcases Delete_shape ch c c1 config err h with h1 | ⟨iface, sent, h1⟩
  · subst h1
    exact ⟨hi, advances_refl _, rfl, rfl⟩
  · subst h1
    obtain ⟨h2, h3⟩ := seqInv_unregistered c iface sent hi
    exact ⟨h2, h3, rfl, rfl⟩

theorem step_seqInv (c c1 : TmcConfigurator) (hs : UnwrappedStep c c1) (hi : SeqInv c) :
    SeqInv c1 ∧ Advances c c1 := by
  obtain ⟨hstep, hA, hU⟩ := hs
  cases hstep with
  | interfaces _ ifIndexes => exact ⟨hi, advances_refl _⟩
  | clear _ =>
    obtain ⟨h1, h2, h3, h4, _, _⟩ := hi
    exact ⟨⟨h1, h2, h3, h4, indexesBelow_nil _, indexesBelow_nil _⟩, Nat.le_refl _,
      Nat.le_refl _, fun _ he => absurd he (List.not_mem_nil _),
      fun _ he => absurd he (List.not_mem_nil _)⟩
  | add ch _ _ config err h => exact Add_seqInv ch _ _ config err h hi hA hU
  | delete ch _ _ config err h =>
    obtain ⟨h1, h2, _, _⟩ := Delete_seqInv ch _ _ config err h hi
    exact ⟨h1, h2⟩
  | resolveDeleted ch _ _ n err h =>
    simp only [ResolveDeletedInterface] at h
    cases hc : configFromIndex c n true with
    | none =>
      simp [hc] at h; obtain ⟨h1, _⟩ := h; subst h1
      exact ⟨hi, advances_refl _⟩
    | some cfg =>
      simp only [hc] at h
      cases hd : Delete ch c (some cfg) with
      | none => simp [hd] at h
      | some r =>
        obtain ⟨c2, e2⟩ := r
        obtain ⟨h2, h3, _, _⟩ := Delete_seqInv ch c c2 _ e2 hd hi
        cases e2 <;> (simp [hd] at h; obtain ⟨h1, _⟩ := h; subst h1; exact ⟨h2, h3⟩)
  | resolveCreated ch _ _ n err h =>
    simp only [ResolveCreatedInterface] at h
    cases hc : configFromIndex c n false with
    | none =>
      simp [hc] at h; obtain ⟨h1, _⟩ := h; subst h1
      exact ⟨hi, advances_refl _⟩
    | some cfg =>
      simp only [hc] at h
      cases ha : Add ch c (some cfg) with
      | none => simp [ha] at h
      | some r =>
        obtain ⟨c2, e2⟩ := r
        cases e2 with
        | some e =>
          simp [ha] at h; obtain ⟨h1, _⟩ := h; subst h1
          exact Add_seqInv ch c c2 _ _ ha hi hA hU
        | none =>
          simp [ha] at h; obtain ⟨h1, _⟩ := h; subst h1
          obtain ⟨h2, h3⟩ := Add_seqInv ch c c2 _ _ ha hi hA hU
          obtain ⟨h4, h5⟩ := seqInv_unregister_unstored c2 (TmcIdentifier n) h2
          exact ⟨h4, advances_trans h3 h5⟩
  | modify ch _ _ o n err h =>
    cases o with
    | none => simp [Modify] at h; obtain ⟨h1, _⟩ := h; subst h1; exact ⟨hi, advances_refl _⟩
    | some o =>
      cases n with
      | none => simp [Modify] at h; obtain ⟨h1, _⟩ := h; subst h1; exact ⟨hi, advances_refl _⟩
      | some n =>
        simp only [Modify] at h
        cases hd : Delete ch c (some o) with
        | none => simp [hd] at h
        | some r =>
          obtain ⟨c2, e2⟩ := r
          obtain ⟨h2, h3, h4, h5⟩ := Delete_seqInv ch c c2 _ e2 hd hi
          cases e2 with
          | some e => simp [hd] at h; obtain ⟨h1, _⟩ := h; subst h1; exact ⟨h2, h3⟩
          | none =>
            simp only [hd] at h
            cases ha : Add ch c2 (some n) with
            | none => simp [ha] at h
            | some r3 =>
              obtain ⟨c3, e3⟩ := r3
              have hc3 : c3 = c1 := by
                cases e3 <;> (simp [ha] at h; exact h.1)
              subst hc3
              rw [← h4] at hA
              rw [← h5] at hU
              obtain ⟨h6, h7⟩ := Add_seqInv ch c2 c3 _ e3 ha h2 hA hU
              exact ⟨h6, advances_trans h3 h7⟩

theorem seqInv_init (ifIndexes : NameToIdx Unit) (c : TmcConfigurator)
    (h : Init none ifIndexes = Except.ok c) : SeqInv c := by
  simp only [Init] at h
  injection h with h
  subst h
  exact ⟨Nat.le_refl _, by show 1 < 4294967296; omega, Nat.le_refl _,
    by show 1 < 4294967296; omega, indexesBelow_nil _,
    indexesBelow_nil _⟩

theorem steps_seqInv (c c1 : TmcConfigurator) (hs : Relation.ReflTransGen UnwrappedStep c c1)
    (hi : SeqInv c) : SeqInv c1 ∧ Advances c c1 := by
  induction hs with
  | refl => exact ⟨hi, advances_refl _⟩
  | tail _ hstep ih =>
    obtain ⟨h1, h2⟩ := step_seqInv _ _ hstep ih.1
    exact ⟨h1, advances_trans ih.2 h2⟩

theorem reachableUnwrapped_seqInv (c : TmcConfigurator) (h : ReachableUnwrapped c) :
    SeqInv c := by
  obtain ⟨ifIndexes, c0, h0, hs⟩ := h
  exact (steps_seqInv c0 c hs (seqInv_init ifIndexes c0 h0)).1

end ifplugin

namespace ifplugin

open idxvpp

theorem reachableUnwrapped_pending : ReachableUnwrapped pending :=
  ⟨[], fresh, rfl,
    Relation.ReflTransGen.single
      ⟨Step.add acceptAll fresh pending (some tmcConfig) none (by decide),
        Or.inr (by decide), Or.inr (by decide)⟩⟩

/-- C14: index uniqueness and monotonicity. In every state reached from `Init`
(counters start at `1`) by steps that do not wrap a `uint32` counter, that is
with fewer than `2^32 - 1` registrations: each index registered in `allIndexes`
is strictly smaller than `allIndexesSeq`; entries of `allIndexes` with distinct
names have distinct indices; in every later such state the counter has not
decreased and each entry registered since carries an index at least the
earlier counter, hence strictly larger than every index registered before; the
same holds for `unstoredIndexes` and `unstoredIndexSeq`; and `clearMapping`
empties both registries and leaves both counters as they are, so that no index
already used is issued again. -/
theorem index_unique_monotone (c : TmcConfigurator) (h : ReachableUnwrapped c) :
    (∀ e ∈ c.allIndexes, e.2.1 < c.allIndexesSeq) ∧
    (∀ e1 ∈ c.allIndexes, ∀ e2 ∈ c.allIndexes, e1.1 ≠ e2.1 → e1.2.1 ≠ e2.2.1) ∧
    (∀ e ∈ c.unstoredIndexes, e.2.1 < c.unstoredIndexSeq) ∧
    (∀ e1 ∈ c.unstoredIndexes, ∀ e2 ∈ c.unstoredIndexes, e1.1 ≠ e2.1 → e1.2.1 ≠ e2.2.1) ∧
    (∀ c1 : TmcConfigurator, Relation.ReflTransGen UnwrappedStep c c1 →
      c.allIndexesSeq ≤ c1.allIndexesSeq ∧ c.unstoredIndexSeq ≤ c1.unstoredIndexSeq ∧
      (∀ e1 ∈ c1.allIndexes, e1 ∉ c.allIndexes →
        c.allIndexesSeq ≤ e1.2.1 ∧ ∀ e ∈ c.allIndexes, e.2.1 < e1.2.1) ∧
      (∀ e1 ∈ c1.unstoredIndexes, e1 ∉ c.unstoredIndexes →
        c.unstoredIndexSeq ≤ e1.2.1 ∧ ∀ e ∈ c.unstoredIndexes, e.2.1 < e1.2.1)) ∧
    ((clearMapping c).allIndexes = [] ∧ (clearMapping c).unstoredIndexes = [] ∧
      (clearMapping c).allIndexesSeq = c.allIndexesSeq ∧
      (clearMapping c).unstoredIndexSeq = c.unstoredIndexSeq) := by
  have hi := reachableUnwrapped_seqInv c h
  obtain ⟨_, _, _, _, ⟨hab, han⟩, ⟨hub, hun⟩⟩ := hi
  refine ⟨hab, ?_, hub, ?_, ?_, ⟨rfl, rfl, rfl, rfl⟩⟩
  · intro e1 h1 e2 h2 hne heq
    exact hne (congrArg Prod.fst (List.inj_on_of_nodup_map han h1 h2 heq))
  · intro e1 h1 e2 h2 hne heq
    exact hne (congrArg Prod.fst (List.inj_on_of_nodup_map hun h1 h2 heq))
  · intro c1 hs
    obtain ⟨_, ha, hu, hea, heu⟩ := steps_seqInv c c1 hs (reachableUnwrapped_seqInv c h)
    refine ⟨ha, hu, ?_, ?_⟩
    · intro e1 h1 hnot
      rcases hea e1 h1 with hin | hge
      · exact absurd hin hnot
      · exact ⟨hge, fun e he => Nat.lt_of_lt_of_le (hab e he) hge⟩
    · intro e1 h1 hnot
      rcases heu e1 h1 with hin | hge
      · exact absurd hin hnot
      · exact ⟨hge, fun e he => Nat.lt_of_lt_of_le (hub e he) hge⟩

theorem index_unique_monotone_witness :
    (∀ e ∈ pending.allIndexes, e.2.1 < pending.allIndexesSeq) ∧
    (∀ e1 ∈ pending.allIndexes, ∀ e2 ∈ pending.allIndexes, e1.1 ≠ e2.1 → e1.2.1 ≠ e2.2.1) ∧
    (∀ e ∈ pending.unstoredIndexes, e.2.1 < pending.unstoredIndexSeq) ∧
    (∀ e1 ∈ pending.unstoredIndexes, ∀ e2 ∈ pending.unstoredIndexes, e1.1 ≠ e2.1 → e1.2.1 ≠ e2.2.1) ∧
    (∀ c1 : TmcConfigurator, Relation.ReflTransGen UnwrappedStep pending c1 →
      pending.allIndexesSeq ≤ c1.allIndexesSeq ∧ pending.unstoredIndexSeq ≤ c1.unstoredIndexSeq ∧
      (∀ e1 ∈ c1.allIndexes, e1 ∉ pending.allIndexes →
        pending.allIndexesSeq ≤ e1.2.1 ∧ ∀ e ∈ pending.allIndexes, e.2.1 < e1.2.1) ∧
      (∀ e1 ∈ c1.unstoredIndexes, e1 ∉ pending.unstoredIndexes →
        pending.unstoredIndexSeq ≤ e1.2.1 ∧ ∀ e ∈ pending.unstoredIndexes, e.2.1 < e1.2.1)) ∧
    ((clearMapping pending).allIndexes = [] ∧ (clearMapping pending).unstoredIndexes = [] ∧
      (clearMapping pending).allIndexesSeq = pending.allIndexesSeq ∧
      (clearMapping pending).unstoredIndexSeq = pending.unstoredIndexSeq) :=
  index_unique_monotone pending reachableUnwrapped_pending

end ifplugin

/-! ## The handler and the identifier -/

namespace vppcalls

/-- C15: `ModifyTmcConfig` reports device-level failure by return code. It
sends one request whose `IsEnable`, `SwIfIndex` and `Mss` fields are its
`isEnabled`, `ifIdx` and `mssValue` arguments; it returns nil if and only if
the send/receive of the channel returned no error and the `Retval` of the
reply is `0`; a transport error is returned as is, and a non-zero `Retval`
yields a non-nil error. -/
theorem modifyTmcConfig_reports (ch : Channel) (sent : List TmcEnableDisable)
    (ifIdx mssValue isEnabled : Nat) :
    (ModifyTmcConfig ch sent ifIdx mssValue isEnabled).1 =
        sent ++ [{ IsEnable := isEnabled, SwIfIndex := ifIdx, Mss := mssValue }] ∧
    ((ModifyTmcConfig ch sent ifIdx mssValue isEnabled).2 = none ↔
        ch sent { IsEnable := isEnabled, SwIfIndex := ifIdx, Mss := mssValue } = (none, 0)) ∧
    (∀ (err : String) (retval : Int),
        ch sent { IsEnable := isEnabled, SwIfIndex := ifIdx, Mss := mssValue } =
            (some err, retval) →
          (ModifyTmcConfig ch sent ifIdx mssValue isEnabled).2 =
            some (TmcError.transport err)) ∧
    (∀ retval : Int, retval ≠ 0 →
        ch sent { IsEnable := isEnabled, SwIfIndex := ifIdx, Mss := mssValue } =
            (none, retval) →
          (ModifyTmcConfig ch sent ifIdx mssValue isEnabled).2 =
            some (TmcError.retval retval)) := by
  refine ⟨ModifyTmcConfig_sent ch sent ifIdx mssValue isEnabled, ?_, ?_, ?_⟩
  · unfold ModifyTmcConfig
    rcases h : ch sent { IsEnable := isEnabled, SwIfIndex := ifIdx, Mss := mssValue } with
      ⟨_ | err, r⟩
    · by_cases hr : r = 0 <;> simp [h, hr]
    · simp [h]
  · intro err retval h
    unfold ModifyTmcConfig
    simp [h]
  · intro retval hr h
    unfold ModifyTmcConfig
    simp [h, hr]

theorem modifyTmcConfig_reports_witness :
    (ModifyTmcConfig (fun _ _ => (some "timeout", 0)) [] 5 1450 1).2 =
        some (TmcError.transport "timeout") ∧
    (ModifyTmcConfig (fun _ _ => (none, -1)) [] 5 1450 1).2 = some (TmcError.retval (-1)) :=
  ⟨(modifyTmcConfig_reports (fun _ _ => (some "timeout", 0)) [] 5 1450 1).2.2.1 "timeout" 0 rfl,
    (modifyTmcConfig_reports (fun _ _ => (none, -1)) [] 5 1450 1).2.2.2 (-1) (by decide) rfl⟩

end vppcalls

namespace ifplugin

/-- C16: `TmcIdentifier` yields a unique identifier. It is a function of the
interface name alone and it is injective: `TmcIdentifier(a) = TmcIdentifier(b)`
if and only if `a = b`, so that configs for two different interfaces never
share a registry name. -/
theorem tmcIdentifier_unique (a b : String) :
    (TmcIdentifier a = TmcIdentifier b ↔ a = b) ∧
    (a ≠ b → TmcIdentifier a ≠ TmcIdentifier b) ∧
    TmcIdentifier a = "tmc-iface-" ++ a :=
  ⟨⟨TmcIdentifier_injective, fun h => congrArg TmcIdentifier h⟩,
    fun hne h => hne (TmcIdentifier_injective h), rfl⟩

theorem tmcIdentifier_unique_witness :
    TmcIdentifier "memif1" ≠ TmcIdentifier "memif2" :=
  (tmcIdentifier_unique "memif1" "memif2").2.1 (by decide)

end ifplugin

/-! ## The LocalSID descriptor: dependencies and equivalence -/

namespace net

theorem To16_length {ip r : IP} (h : To16 ip = some r) : r.length = 16 := by
  unfold To16 at h
  by_cases h4 : ip.length = 4
  · simp only [h4, if_true] at h
    injection h with h
    subst h
    simp [v4InV6Prefix, h4]
  · by_cases h16 : ip.length = 16
    · simp only [h4, h16, if_true, if_false] at h
      injection h with h
      subst h
      exact h16
    · simp [h4, h16] at h

theorem Equal_of_length {ip x : IP} (h : ip.length = x.length) : Equal ip x = decide (ip = x) := by
  simp [Equal, h]

end net

namespace descriptor

open srv6

theorem ParseIPv6_length {std : Stdlib} {str : String} {ip : net.IP}
    (h : ParseIPv6 std str = Except.ok ip) : ip.length = 16 := by
  unfold ParseIPv6 at h
  cases hp : std.ParseIP str with
  | none => simp [hp] at h
  | some raw =>
    cases h16 : net.To16 raw with
    | none => simp [hp, h16] at h
    | some r =>
      simp [hp, h16] at h
      subst h
      exact net.To16_length h16

theorem equivalentIPv6_parsed {std : Stdlib} {s1 s2 : String} {ip1 ip2 : net.IP}
    (h1 : ParseIPv6 std s1 = Except.ok ip1) (h2 : ParseIPv6 std s2 = Except.ok ip2) :
    equivalentIPv6 std s1 s2 = decide (ip1 = ip2) := by
  simp only [equivalentIPv6, h1, h2]
  exact net.Equal_of_length ((ParseIPv6_length h1).trans (ParseIPv6_length h2).symm)

theorem equivalentEndFunctions_type_ne (std : Stdlib) (e1 e2 : EndFunction)
    (h : e1.TypeOf ≠ e2.TypeOf) : equivalentEndFunctions std (some e1) (some e2) = some false := by
  simp only [equivalentEndFunctions, if_pos h]

/-- C17: the dependencies of a LocalSID are a function of the populated
end-function variant. `Dependencies` returns no dependency for Base, T, DT4,
DT6 and a nil end function; exactly one dependency (label
`sr-localsid-outgoing-interface-exists`, key `InterfaceKey(OutgoingInterface)`)
for X, DX2, DX4 and DX6; and exactly two for AD, the outgoing-interface
dependency followed by (label `sr-localsid-incoming-interface-exists`, key
`InterfaceKey(IncomingInterface)`). -/
theorem dependencies_by_variant (InterfaceKey : String → String) (key sid : String) (fib : Int) :
    Dependencies InterfaceKey key ⟨sid, fib, none⟩ = some [] ∧
    Dependencies InterfaceKey key ⟨sid, fib, some EndFunction.BaseEndFunction⟩ = some [] ∧
    (∀ p, Dependencies InterfaceKey key ⟨sid, fib, some (EndFunction.EndFunction_T p)⟩ =
      some []) ∧
    Dependencies InterfaceKey key ⟨sid, fib, some EndFunction.EndFunction_DT4⟩ = some [] ∧
    Dependencies InterfaceKey key ⟨sid, fib, some EndFunction.EndFunction_DT6⟩ = some [] ∧
    (∀ p : LocalSID_EndX,
      Dependencies InterfaceKey key ⟨sid, fib, some (EndFunction.EndFunction_X (some p))⟩ =
        some [⟨"sr-localsid-outgoing-interface-exists", InterfaceKey p.OutgoingInterface⟩]) ∧
    (∀ p : LocalSID_EndDX2,
      Dependencies InterfaceKey key ⟨sid, fib, some (EndFunction.EndFunction_DX2 (some p))⟩ =
        some [⟨"sr-localsid-outgoing-interface-exists", InterfaceKey p.OutgoingInterface⟩]) ∧
    (∀ p : LocalSID_EndDX4,
      Dependencies InterfaceKey key ⟨sid, fib, some (EndFunction.EndFunction_DX4 (some p))⟩ =
        some [⟨"sr-localsid-outgoing-interface-exists", InterfaceKey p.OutgoingInterface⟩]) ∧
    (∀ p : LocalSID_EndDX6,
      Dependencies InterfaceKey key ⟨sid, fib, some (EndFunction.EndFunction_DX6 (some p))⟩ =
        some [⟨"sr-localsid-outgoing-interface-exists", InterfaceKey p.OutgoingInterface⟩]) ∧
    (∀ p : LocalSID_EndAD,
      Dependencies InterfaceKey key ⟨sid, fib, some (EndFunction.EndFunction_AD (some p))⟩ =
        some [⟨"sr-localsid-outgoing-interface-exists", InterfaceKey p.OutgoingInterface⟩,
              ⟨"sr-localsid-incoming-interface-exists", InterfaceKey p.IncomingInterface⟩]) :=
  ⟨rfl, rfl, fun _ => rfl, rfl, rfl, fun _ => rfl, fun _ => rfl, fun _ => rfl, fun _ => rfl,
    fun _ => rfl⟩

/-- C18: the comparison of end functions matches the types first. For all
LocalSIDs `a` and `b`, if their end functions are of different variants, or
exactly one of them is nil, `EquivalentLocalSIDs(key, a, b)` is false whatever
the nested fields are; if both end functions are nil the result is that of the
comparison of `FibTableId` and of the SIDs. -/
theorem endFunctions_type_match_first (std : Stdlib) (key : String) (a b : LocalSID) :
    (∀ e1 e2 : EndFunction, a.EndFunction = some e1 → b.EndFunction = some e2 →
      e1.TypeOf ≠ e2.TypeOf → EquivalentLocalSIDs std key a b = some false) ∧
    (∀ e : EndFunction, a.EndFunction = some e → b.EndFunction = none →
      EquivalentLocalSIDs std key a b = some false) ∧
    (∀ e : EndFunction, a.EndFunction = none → b.EndFunction = some e →
      EquivalentLocalSIDs std key a b = some false) ∧
    (a.EndFunction = none → b.EndFunction = none →
      EquivalentLocalSIDs std key a b =
        some (decide (a.FibTableId = b.FibTableId) && equivalentSIDs std a.Sid b.Sid)) := by
  refine ⟨?_, ?_, ?_, ?_⟩
  · intro e1 e2 h1 h2 hne
    simp only [EquivalentLocalSIDs, h1, h2, equivalentEndFunctions_type_ne std e1 e2 hne]
    split
    · rfl
    · split <;> rfl
  · intro e h1 h2
    simp only [EquivalentLocalSIDs, h1, h2, equivalentEndFunctions]
    split
    · rfl
    · split <;> rfl
  · intro e h1 h2
    simp only [EquivalentLocalSIDs, h1, h2, equivalentEndFunctions]
    split
    · rfl
    · split <;> rfl
  · intro h1 h2
    simp only [EquivalentLocalSIDs, h1, h2, equivalentEndFunctions]
    by_cases hf : a.FibTableId = b.FibTableId
    · cases hs : equivalentSIDs std a.Sid b.Sid <;> simp [hf]
    · simp [hf]

theorem endFunctions_type_match_first_witness :
    EquivalentLocalSIDs exampleStd "k"
        ⟨"a::1", 0, some (EndFunction.EndFunction_DX4 (some ⟨"10.0.0.1", "memif1"⟩))⟩
        ⟨"a::1", 0, some (EndFunction.EndFunction_DX6 (some ⟨"10.0.0.1", "memif1"⟩))⟩ =
      some false ∧
    EquivalentLocalSIDs exampleStd "k" ⟨"a::1", 0, some EndFunction.EndFunction_DT4⟩
        ⟨"a::1", 0, none⟩ = some false :=
  ⟨(endFunctions_type_match_first exampleStd "k"
      ⟨"a::1", 0, some (EndFunction.EndFunction_DX4 (some ⟨"10.0.0.1", "memif1"⟩))⟩
      ⟨"a::1", 0, some (EndFunction.EndFunction_DX6 (some ⟨"10.0.0.1", "memif1"⟩))⟩).1
      _ _ rfl rfl (by decide),
    (endFunctions_type_match_first exampleStd "k" ⟨"a::1", 0, some EndFunction.EndFunction_DT4⟩
      ⟨"a::1", 0, none⟩).2.1 _ rfl rfl⟩

/-- C19: SIDs are compared by address value, not by text. For all LocalSIDs
`a` and `b` with equal `FibTableId` and equivalent end functions whose SIDs
both parse with `ParseIPv6`, `EquivalentLocalSIDs(key, a, b)` is true if and
only if the two parsed addresses, each in its 16-byte form, are the same,
whatever the textual form of the SIDs. -/
theorem sid_compared_by_value (std : Stdlib) (key : String) (a b : LocalSID) (ip1 ip2 : net.IP)
    (hfib : a.FibTableId = b.FibTableId)
    (hef : equivalentEndFunctions std a.EndFunction b.EndFunction = some true)
    (h1 : ParseIPv6 std a.Sid = Except.ok ip1) (h2 : ParseIPv6 std b.Sid = Except.ok ip2) :
    ip1.length = 16 ∧ ip2.length = 16 ∧
      (EquivalentLocalSIDs std key a b = some true ↔ ip1 = ip2) ∧
      EquivalentLocalSIDs std key a b = some (decide (ip1 = ip2)) := by
  have hs : equivalentSIDs std a.Sid b.Sid = decide (ip1 = ip2) := equivalentIPv6_parsed h1 h2
  refine ⟨ParseIPv6_length h1, ParseIPv6_length h2, ?_, ?_⟩
  · simp only [EquivalentLocalSIDs, hfib, hs, hef]
    by_cases he : ip1 = ip2 <;> simp [he]
  · simp only [EquivalentLocalSIDs, hfib, hs, hef]
    by_cases he : ip1 = ip2 <;> simp [he]

theorem sid_compared_by_value_witness :
    addrA1.length = 16 ∧ addrA1.length = 16 ∧
      (EquivalentLocalSIDs exampleStd "k" ⟨"A::1", 0, some EndFunction.BaseEndFunction⟩
          ⟨"a:0::1", 0, some EndFunction.BaseEndFunction⟩ = some true ↔ addrA1 = addrA1) ∧
      EquivalentLocalSIDs exampleStd "k" ⟨"A::1", 0, some EndFunction.BaseEndFunction⟩
          ⟨"a:0::1", 0, some EndFunction.BaseEndFunction⟩ = some (decide (addrA1 = addrA1)) :=
  sid_compared_by_value exampleStd "k" ⟨"A::1", 0, some EndFunction.BaseEndFunction⟩
    ⟨"a:0::1", 0, some EndFunction.BaseEndFunction⟩ addrA1 addrA1 rfl (by decide) rfl rfl

/-- C20 (the code at failing inputs): the End.DX6 case compares the next hops
with `equivalentIPv4`. For every two DX6 end functions whose next hops are
parsed by `net.ParseIP` to the same 16-byte address that has no 4-byte form
(so both pass the `ParseIPv6` check of `Validate`, and `equivalentIPv6` holds
them equivalent) and whose texts differ after lower-casing and trimming,
`equivalentEndFunctions` returns false, whatever the outgoing interfaces. -/
theorem dx6_nextHop_compared_as_text (std : Stdlib) (p1 p2 : LocalSID_EndDX6) (ip : net.IP)
    (h1 : std.ParseIP p1.NextHop = some ip) (h2 : std.ParseIP p2.NextHop = some ip)
    (hlen : ip.length = 16) (hv6 : net.To4 ip = none)
    (htext : std.TrimSpace (std.ToLower p1.NextHop) ≠ std.TrimSpace (std.ToLower p2.NextHop)) :
    ParseIPv6 std p1.NextHop = Except.ok ip ∧ ParseIPv6 std p2.NextHop = Except.ok ip ∧
      equivalentIPv6 std p1.NextHop p2.NextHop = true ∧
      equivalentEndFunctions std (some (EndFunction.EndFunction_DX6 (some p1)))
        (some (EndFunction.EndFunction_DX6 (some p2))) = some false := by
  have h16 : net.To16 ip = some ip := by
    simp [net.To16, hlen]
  have hp1 : ParseIPv6 std p1.NextHop = Except.ok ip := by simp [ParseIPv6, h1, h16]
  have hp2 : ParseIPv6 std p2.NextHop = Except.ok ip := by simp [ParseIPv6, h2, h16]
  have h4 : equivalentIPv4 std p1.NextHop p2.NextHop = false := by
    simp [equivalentIPv4, ParseIPv4, h1, hv6, equivalentTrimmedLowered, htext]
  refine ⟨hp1, hp2, ?_, ?_⟩
  · rw [equivalentIPv6_parsed hp1 hp2]
    simp
  · simp [equivalentEndFunctions, EndFunction.TypeOf, h4]

theorem dx6_nextHop_compared_as_text_witness :
    ParseIPv6 exampleStd "A::1" = Except.ok addrA1 ∧
      ParseIPv6 exampleStd "a:0::1" = Except.ok addrA1 ∧
      equivalentIPv6 exampleStd "A::1" "a:0::1" = true ∧
      equivalentEndFunctions exampleStd
        (some (EndFunction.EndFunction_DX6 (some ⟨"A::1", "memif1"⟩)))
        (some (EndFunction.EndFunction_DX6 (some ⟨"a:0::1", "memif1"⟩))) = some false :=
  dx6_nextHop_compared_as_text exampleStd ⟨"A::1", "memif1"⟩ ⟨"a:0::1", "memif1"⟩ addrA1
    (by decide) (by decide) (by decide) (by decide) (by decide)

end descriptor

/-! ## The LocalSID descriptor: identifiers, validation and deletion -/

namespace net

theorem Equal_self (ip : IP) : Equal ip ip = true := by
  simp [Equal]

end net

namespace descriptor

open srv6

theorem equivalentTrimmedLowered_self (std : Stdlib) (s : String) :
    equivalentTrimmedLowered std s s = true := by
  simp [equivalentTrimmedLowered]

theorem equivalentIPv6_self (std : Stdlib) (s : String) : equivalentIPv6 std s s = true := by
  unfold equivalentIPv6
  cases h : ParseIPv6 std s with
  | error e => exact equivalentTrimmedLowered_self std s
  | ok ip => exact net.Equal_self ip

theorem equivalentIPv4_self (std : Stdlib) (s : String) : equivalentIPv4 std s s = true := by
  unfold equivalentIPv4
  cases h : ParseIPv4 std s with
  | error e => exact equivalentTrimmedLowered_self std s
  | ok ip => exact net.Equal_self ip

/-- C21: identifiers compare case- and whitespace-insensitively. For every two
end functions of the same variant X, DX2, DX4, DX6 or AD (with payloads) whose
other fields are the same and whose interface names agree after lower-casing
and trimming, `equivalentEndFunctions` returns true; interface names that
still differ after lower-casing and trimming make it return false, whatever
the other fields. -/
theorem identifiers_compared_trimmed_lowered (std : Stdlib) :
    (∀ a b : LocalSID_EndX,
      (a.Psp = b.Psp → a.NextHop = b.NextHop →
        std.TrimSpace (std.ToLower a.OutgoingInterface) =
          std.TrimSpace (std.ToLower b.OutgoingInterface) →
        equivalentEndFunctions std (some (EndFunction.EndFunction_X (some a)))
          (some (EndFunction.EndFunction_X (some b))) = some true) ∧
      (std.TrimSpace (std.ToLower a.OutgoingInterface) ≠
          std.TrimSpace (std.ToLower b.OutgoingInterface) →
        equivalentEndFunctions std (some (EndFunction.EndFunction_X (some a)))
          (some (EndFunction.EndFunction_X (some b))) = some false)) ∧
    (∀ a b : LocalSID_EndDX2,
      (a.VlanTag = b.VlanTag → a.NextHop = b.NextHop →
        std.TrimSpace (std.ToLower a.OutgoingInterface) =
          std.TrimSpace (std.ToLower b.OutgoingInterface) →
        equivalentEndFunctions std (some (EndFunction.EndFunction_DX2 (some a)))
          (some (EndFunction.EndFunction_DX2 (some b))) = some true) ∧
      (std.TrimSpace (std.ToLower a.OutgoingInterface) ≠
          std.TrimSpace (std.ToLower b.OutgoingInterface) →
        equivalentEndFunctions std (some (EndFunction.EndFunction_DX2 (some a)))
          (some (EndFunction.EndFunction_DX2 (some b))) = some false)) ∧
    (∀ a b : LocalSID_EndDX4,
      (a.NextHop = b.NextHop →
        std.TrimSpace (std.ToLower a.OutgoingInterface) =
          std.TrimSpace (std.ToLower b.OutgoingInterface) →
        equivalentEndFunctions std (some (EndFunction.EndFunction_DX4 (some a)))
          (some (EndFunction.EndFunction_DX4 (some b))) = some true) ∧
      (std.TrimSpace (std.ToLower a.OutgoingInterface) ≠
          std.TrimSpace (std.ToLower b.OutgoingInterface) →
        equivalentEndFunctions std (some (EndFunction.EndFunction_DX4 (some a)))
          (some (EndFunction.EndFunction_DX4 (some b))) = some false)) ∧
    (∀ a b : LocalSID_EndDX6,
      (a.NextHop = b.NextHop →
        std.TrimSpace (std.ToLower a.OutgoingInterface) =
          std.TrimSpace (std.ToLower b.OutgoingInterface) →
        equivalentEndFunctions std (some (EndFunction.EndFunction_DX6 (some a)))
          (some (EndFunction.EndFunction_DX6 (some b))) = some true) ∧
      (std.TrimSpace (std.ToLower a.OutgoingInterface) ≠
          std.TrimSpace (std.ToLower b.OutgoingInterface) →
        equivalentEndFunctions std (some (EndFunction.EndFunction_DX6 (some a)))
          (some (EndFunction.EndFunction_DX6 (some b))) = some false)) ∧
    (∀ a b : LocalSID_EndAD,
      (a.ServiceAddress = b.ServiceAddress →
        std.TrimSpace (std.ToLower a.OutgoingInterface) =
          std.TrimSpace (std.ToLower b.OutgoingInterface) →
        std.TrimSpace (std.ToLower a.IncomingInterface) =
          std.TrimSpace (std.ToLower b.IncomingInterface) →
        equivalentEndFunctions std (some (EndFunction.EndFunction_AD (some a)))
          (some (EndFunction.EndFunction_AD (some b))) = some true) ∧
      (std.TrimSpace (std.ToLower a.OutgoingInterface) ≠
            std.TrimSpace (std.ToLower b.OutgoingInterface) ∨
          std.TrimSpace (std.ToLower a.IncomingInterface) ≠
            std.TrimSpace (std.ToLower b.IncomingInterface) →
        equivalentEndFunctions std (some (EndFunction.EndFunction_AD (some a)))
          (some (EndFunction.EndFunction_AD (some b))) = some false)) := by
  refine ⟨?_, ?_, ?_, ?_, ?_⟩
  · intro a b
    constructor
    · intro hp hn ho
      simp [equivalentEndFunctions, EndFunction.TypeOf, equivalentTrimmedLowered, hp, hn, ho,
        equivalentIPv6_self]
    · intro ho
      simp [equivalentEndFunctions, EndFunction.TypeOf, equivalentTrimmedLowered, ho]
  · intro a b
    constructor
    · intro hp hn ho
      simp [equivalentEndFunctions, EndFunction.TypeOf, equivalentTrimmedLowered, hp, hn, ho]
    · intro ho
      simp [equivalentEndFunctions, EndFunction.TypeOf, equivalentTrimmedLowered, ho]
  · intro a b
    constructor
    · intro hn ho
      simp [equivalentEndFunctions, EndFunction.TypeOf, equivalentTrimmedLowered, hn, ho,
        equivalentIPv4_self]
    · intro ho
      simp [equivalentEndFunctions, EndFunction.TypeOf, equivalentTrimmedLowered, ho]
  · intro a b
    constructor
    · intro hn ho
      simp [equivalentEndFunctions, EndFunction.TypeOf, equivalentTrimmedLowered, hn, ho,
        equivalentIPv4_self]
    · intro ho
      simp [equivalentEndFunctions, EndFunction.TypeOf, equivalentTrimmedLowered, ho]
  · intro a b
    constructor
    · intro hs ho hi
      simp [equivalentEndFunctions, EndFunction.TypeOf, equivalentTrimmedLowered, hs, ho, hi,
        equivalentIPv4_self]
    · intro h
      rcases h with ho | hi
      · simp [equivalentEndFunctions, EndFunction.TypeOf, equivalentTrimmedLowered, ho]
      · simp [equivalentEndFunctions, EndFunction.TypeOf, equivalentTrimmedLowered, hi]

theorem identifiers_compared_trimmed_lowered_witness :
    equivalentEndFunctions exampleStd
        (some (EndFunction.EndFunction_X (some ⟨true, "a::1", "memif1"⟩)))
        (some (EndFunction.EndFunction_X (some ⟨true, "a::1", " MEMIF1 "⟩))) = some true ∧
    equivalentEndFunctions exampleStd
        (some (EndFunction.EndFunction_AD (some ⟨"memif1", "memif2", "10.0.0.1"⟩)))
        (some (EndFunction.EndFunction_AD (some ⟨"memif1", "memif3", "10.0.0.1"⟩))) =
      some false :=
  ⟨((identifiers_compared_trimmed_lowered exampleStd).1 ⟨true, "a::1", "memif1"⟩
      ⟨true, "a::1", " MEMIF1 "⟩).1 rfl rfl (by decide),
    ((identifiers_compared_trimmed_lowered exampleStd).2.2.2.2 ⟨"memif1", "memif2", "10.0.0.1"⟩
      ⟨"memif1", "memif3", "10.0.0.1"⟩).2 (Or.inr (by decide))⟩

end descriptor

namespace descriptor

open srv6

theorem Validate_sid_parses (std : Stdlib) (key : String) (v : LocalSID)
    (h : Validate std key v = some none) :
    ∃ ip : net.IP, ParseIPv6 std v.Sid = Except.ok ip := by
  cases hp : ParseIPv6 std v.Sid with
  | ok ip => exact ⟨ip, rfl⟩
  | error e => simp [Validate, hp] at h

theorem ParseIPv6_ok_iff (std : Stdlib) (s : String) (ip16 : net.IP) :
    ParseIPv6 std s = Except.ok ip16 ↔
      ∃ ip : net.IP, std.ParseIP s = some ip ∧ net.To16 ip = some ip16 := by
  unfold ParseIPv6
  cases hp : std.ParseIP s with
  | none => simp
  | some ip =>
    cases h16 : net.To16 ip with
    | none => simp [h16]
    | some r => simp [h16]

theorem ParseIPv4_ok_iff (std : Stdlib) (s : String) (ip4 : net.IP) :
    ParseIPv4 std s = Except.ok ip4 ↔
      ∃ ip : net.IP, std.ParseIP s = some ip ∧ net.To4 ip = some ip4 := by
  unfold ParseIPv4
  cases hp : std.ParseIP s with
  | none => simp
  | some ip =>
    cases h4 : net.To4 ip with
    | none => simp [h4]
    | some r => simp [h4]

/-- The outcome of `Validate` on a LocalSID whose SID parses and whose
`FibTableId` is not negative, by end function (payloads being present). -/
theorem Validate_populated (std : Stdlib) (key sid : String) (fib : Int) (ip : net.IP)
    (hsid : ParseIPv6 std sid = Except.ok ip) (hfib : 0 ≤ fib) :
    Validate std key ⟨sid, fib, none⟩ = some (some ⟨["endfunction"]⟩) ∧
    (∀ t c, Validate std key ⟨sid, fib, some (EndFunction.unknown t c)⟩ =
      some (some ⟨["endfunction"]⟩)) ∧
    Validate std key ⟨sid, fib, some EndFunction.BaseEndFunction⟩ = some none ∧
    (∀ p, Validate std key ⟨sid, fib, some (EndFunction.EndFunction_T p)⟩ = some none) ∧
    (∀ p, Validate std key ⟨sid, fib, some (EndFunction.EndFunction_DX2 p)⟩ = some none) ∧
    Validate std key ⟨sid, fib, some EndFunction.EndFunction_DT4⟩ = some none ∧
    Validate std key ⟨sid, fib, some EndFunction.EndFunction_DT6⟩ = some none ∧
    (∀ p : LocalSID_EndX,
      Validate std key ⟨sid, fib, some (EndFunction.EndFunction_X (some p))⟩ =
        match ParseIPv6 std p.NextHop with
        | Except.ok _ => some none
        | Except.error _ => some (some ⟨["endfunction_X.NextHop"]⟩)) ∧
    (∀ p : LocalSID_EndDX4,
      Validate std key ⟨sid, fib, some (EndFunction.EndFunction_DX4 (some p))⟩ =
        match ParseIPv4 std p.NextHop with
        | Except.ok _ => some none
        | Except.error _ => some (some ⟨["endfunction_DX4.NextHop"]⟩)) ∧
    (∀ p : LocalSID_EndDX6,
      Validate std key ⟨sid, fib, some (EndFunction.EndFunction_DX6 (some p))⟩ =
        match ParseIPv6 std p.NextHop with
        | Except.ok _ => some none
        | Except.error _ => some (some ⟨["endfunction_DX6.NextHop"]⟩)) ∧
    (∀ p : LocalSID_EndAD,
      Validate std key ⟨sid, fib, some (EndFunction.EndFunction_AD (some p))⟩ =
        if std.ParseIP p.ServiceAddress ≠ none then some none
        else some (some ⟨["endfunction_AD.ServiceAddress"]⟩)) := by
  have hf : ¬ fib < 0 := not_lt.mpr hfib
  refine ⟨?_, ?_, ?_, ?_, ?_, ?_, ?_, ?_, ?_, ?_, ?_⟩
  · simp [Validate, hsid, hf]
  · intro t c; simp [Validate, hsid, hf]
  · simp [Validate, hsid, hf]
  · intro p; simp [Validate, hsid, hf]
  · intro p; simp [Validate, hsid, hf]
  · simp [Validate, hsid, hf]
  · simp [Validate, hsid, hf]
  · intro p
    cases h : ParseIPv6 std p.NextHop <;> simp [Validate, hsid, hf, h]
  · intro p
    cases h : ParseIPv4 std p.NextHop <;> simp [Validate, hsid, hf, h]
  · intro p
    cases h : ParseIPv6 std p.NextHop <;> simp [Validate, hsid, hf, h]
  · intro p
    cases h : std.ParseIP p.ServiceAddress <;> simp [Validate, hsid, hf, h]

/-- The first two checks of `Validate`: the SID, then `FibTableId`. -/
theorem Validate_first_checks (std : Stdlib) (key : String) (v : LocalSID) :
    ((∀ ip, ParseIPv6 std v.Sid ≠ Except.ok ip) →
      Validate std key v = some (some ⟨["sid"]⟩)) ∧
    ((∃ ip, ParseIPv6 std v.Sid = Except.ok ip) → v.FibTableId < 0 →
      Validate std key v = some (some ⟨["fibtableid"]⟩)) := by
  constructor
  · intro h
    cases hp : ParseIPv6 std v.Sid with
    | ok ip => exact absurd hp (h ip)
    | error e => simp [Validate, hp]
  · rintro ⟨ip, hp⟩ hf
    simp [Validate, hp, hf]

/-- C22 (the code at failing inputs): the SID `a::1` parses and `FibTableId`
is `0`, the end function is an X, DX4, DX6 or AD wrapper whose payload pointer
is nil. `Validate` reads the next hop (the service address) of the nil payload
and panics instead of returning an invalid-value error, whereas a nil end
function gets the error scoped to `endfunction`. -/
theorem validate_nil_payload_panics :
    ParseIPv6 exampleStd "a::1" = Except.ok addrA1 ∧
    Validate exampleStd "k" ⟨"a::1", 0, some (EndFunction.EndFunction_X none)⟩ = none ∧
    Validate exampleStd "k" ⟨"a::1", 0, some (EndFunction.EndFunction_DX4 none)⟩ = none ∧
    Validate exampleStd "k" ⟨"a::1", 0, some (EndFunction.EndFunction_DX6 none)⟩ = none ∧
    Validate exampleStd "k" ⟨"a::1", 0, some (EndFunction.EndFunction_AD none)⟩ = none ∧
    Validate exampleStd "k" ⟨"a::1", 0, none⟩ = some (some ⟨["endfunction"]⟩) :=
  ⟨rfl, by decide, by decide, by decide, by decide, by decide⟩

/-- C23 (as stated, refuted): the SID `10.0.0.1` is an IPv4 dotted-quad, which
`net.ParseIP` returns in its 16-byte form with the 4-byte form `10.0.0.1`;
`ParseIPv6` accepts it and `Validate` returns nil. -/
theorem validate_ipv4_sid_counterexample :
    exampleStd.ParseIP "10.0.0.1" = some (net.v4InV6Prefix ++ [10, 0, 0, 1]) ∧
    net.To4 (net.v4InV6Prefix ++ [10, 0, 0, 1]) = some [10, 0, 0, 1] ∧
    Validate exampleStd "k" ⟨"10.0.0.1", 0, some EndFunction.BaseEndFunction⟩ = some none :=
  ⟨by decide, by decide, by decide⟩

/-- C23 (amended): `Validate` accepts a LocalSID only if every field declared
as IPv6 (the SID, the End.X next hop, the End.DX6 next hop) is a textual IP
address accepted by `net.ParseIP`, of either family; `ParseIPv6` converts an
IPv4 address to its 16-byte form, so a SID that `net.ParseIP` accepts with 4
or 16 bytes, an IPv4 dotted-quad included, is not rejected with an error
scoped to field `sid`. -/
theorem validate_accepts_any_family (std : Stdlib) (key : String) (v : LocalSID) :
    (Validate std key v = some none →
      std.ParseIP v.Sid ≠ none ∧
      (∀ p : LocalSID_EndX, v.EndFunction = some (EndFunction.EndFunction_X (some p)) →
        std.ParseIP p.NextHop ≠ none) ∧
      (∀ p : LocalSID_EndDX6, v.EndFunction = some (EndFunction.EndFunction_DX6 (some p)) →
        std.ParseIP p.NextHop ≠ none)) ∧
    (∀ ip : net.IP, std.ParseIP v.Sid = some ip → ip.length = 4 ∨ ip.length = 16 →
      Validate std key v ≠ some (some ⟨["sid"]⟩)) := by
  constructor
  · intro h
    obtain ⟨ip, hsid⟩ := Validate_sid_parses std key v h
    have hfib : 0 ≤ v.FibTableId := by
      by_contra hf
      have := (Validate_first_checks std key v).2 ⟨ip, hsid⟩ (not_le.mp hf)
      rw [this] at h
      simp at h
    have hparse : ∀ s a, ParseIPv6 std s = Except.ok a → std.ParseIP s ≠ none := by
      intro s a hs
      obtain ⟨raw, hr, _⟩ := (ParseIPv6_ok_iff std s a).mp hs
      rw [hr]; simp
    obtain ⟨sid, fib, ef⟩ := v
    refine ⟨hparse _ _ hsid, ?_, ?_⟩
    · intro p hp
      simp only at hp
      subst hp
      have hx := (Validate_populated std key sid fib ip hsid hfib).2.2.2.2.2.2.2.1 p
      rw [hx] at h
      cases he : ParseIPv6 std p.NextHop with
      | ok a => exact hparse _ _ he
      | error e => rw [he] at h; simp at h
    · intro p hp
      simp only at hp
      subst hp
      have hx := (Validate_populated std key sid fib ip hsid hfib).2.2.2.2.2.2.2.2.2.1 p
      rw [hx] at h
      cases he : ParseIPv6 std p.NextHop with
      | ok a => exact hparse _ _ he
      | error e => rw [he] at h; simp at h
  · intro ip hp hlen
    have h16 : ∃ r, net.To16 ip = some r := by
      rcases hlen with h4 | h16
      · exact ⟨net.v4InV6Prefix ++ ip, by simp [net.To16, h4]⟩
      · exact ⟨ip, by simp [net.To16, h16]⟩
    obtain ⟨r, hr⟩ := h16
    have hsid : ParseIPv6 std v.Sid = Except.ok r := (ParseIPv6_ok_iff std v.Sid r).mpr ⟨ip, hp, hr⟩
    intro hv
    simp only [Validate, hsid] at hv
    split at hv
    · simp at hv
    · split at hv <;> try (simp at hv)
      all_goals (split at hv <;> try (simp at hv))
      all_goals (split at hv <;> simp at hv)

theorem validate_accepts_any_family_witness :
    Validate exampleStd "k" ⟨"10.0.0.1", 0, some EndFunction.BaseEndFunction⟩ ≠
      some (some ⟨["sid"]⟩) :=
  (validate_accepts_any_family exampleStd "k"
    ⟨"10.0.0.1", 0, some EndFunction.BaseEndFunction⟩).2 (net.v4InV6Prefix ++ [10, 0, 0, 1])
    (by decide) (Or.inr (by decide))

end descriptor

namespace descriptor

open srv6

theorem exampleStd_lengths (s : String) (ip : net.IP) (h : exampleStd.ParseIP s = some ip) :
    ip.length = 4 ∨ ip.length = 16 := by
  simp only [exampleStd] at h
  split_ifs at h <;> (injection h with h; subst h; exact Or.inr (by decide))

/-- C24: `ParseIPv6` parses every textual IP address, an IPv4 address being
converted to IPv6. Given that `net.ParseIP` returns nil or an address of 4 or
16 bytes: `ParseIPv6(s)` returns an error if and only if `net.ParseIP` rejects
`s`, the error is never the one of the "is not ipv6 address" branch, and on
success the result is the 16-byte form of the parsed address (16 bytes, equal
to it as an address); `ParseIPv4(s)` succeeds exactly when `net.ParseIP`
accepts `s` with an address that has a 4-byte form, and returns that form. -/
theorem parseIPv6_accepts_every_address (std : Stdlib)
    (hstd : ∀ (s : String) (ip : net.IP), std.ParseIP s = some ip →
      ip.length = 4 ∨ ip.length = 16) (s : String) :
    ((∃ e, ParseIPv6 std s = Except.error e) ↔ std.ParseIP s = none) ∧
    ParseIPv6 std s ≠ Except.error (ParseError.notIPv6 s) ∧
    (∀ ip : net.IP, std.ParseIP s = some ip →
      ∃ ip16 : net.IP, ParseIPv6 std s = Except.ok ip16 ∧ net.To16 ip = some ip16 ∧
        ip16.length = 16 ∧ net.Equal ip16 ip = true) ∧
    (∀ ip4 : net.IP, ParseIPv4 std s = Except.ok ip4 ↔
      ∃ ip : net.IP, std.ParseIP s = some ip ∧ net.To4 ip = some ip4) := by
  have hok : ∀ ip : net.IP, std.ParseIP s = some ip →
      ∃ ip16 : net.IP, ParseIPv6 std s = Except.ok ip16 ∧ net.To16 ip = some ip16 ∧
        ip16.length = 16 ∧ net.Equal ip16 ip = true := by
    intro ip hp
    rcases hstd s ip hp with h4 | h16
    · have ht : net.To16 ip = some (net.v4InV6Prefix ++ ip) := by simp [net.To16, h4]
      refine ⟨net.v4InV6Prefix ++ ip, (ParseIPv6_ok_iff std s _).mpr ⟨ip, hp, ht⟩, ht,
        net.To16_length ht, ?_⟩
      simp [net.Equal, h4, net.v4InV6Prefix]
    · have ht : net.To16 ip = some ip := by simp [net.To16, h16]
      exact ⟨ip, (ParseIPv6_ok_iff std s _).mpr ⟨ip, hp, ht⟩, ht, h16, net.Equal_self ip⟩
  refine ⟨?_, ?_, hok, ParseIPv4_ok_iff std s⟩
  · constructor
    · rintro ⟨e, he⟩
      cases hp : std.ParseIP s with
      | none => rfl
      | some ip =>
        obtain ⟨ip16, h16, _⟩ := hok ip hp
        rw [h16] at he
        cases he
    · intro hp
      exact ⟨ParseError.notIP s, by simp [ParseIPv6, hp]⟩
  · intro he
    cases hp : std.ParseIP s with
    | none => simp [ParseIPv6, hp] at he
    | some ip =>
      obtain ⟨ip16, h16, _⟩ := hok ip hp
      rw [h16] at he
      cases he

theorem parseIPv6_accepts_every_address_witness :
    ∃ ip16 : net.IP, ParseIPv6 exampleStd "10.0.0.1" = Except.ok ip16 ∧
      net.To16 (net.v4InV6Prefix ++ [10, 0, 0, 1]) = some ip16 ∧
      ip16.length = 16 ∧ net.Equal ip16 (net.v4InV6Prefix ++ [10, 0, 0, 1]) = true :=
  (parseIPv6_accepts_every_address exampleStd exampleStd_lengths "10.0.0.1").2.2.1
    (net.v4InV6Prefix ++ [10, 0, 0, 1]) (by decide)

/-- C25: `Delete` relies on validation. For every LocalSID `v` for which
`Validate(key, v)` returns nil, the `ParseIPv6` call inside `Delete` succeeds,
so that the discarded error is nil and `DeleteLocalSid` is called exactly once,
with the parsed 16-byte address of the SID of `v`; `Delete` returns a non-nil
error if and only if that handler call fails. -/
theorem delete_relies_on_validation (std : Stdlib)
    (DeleteLocalSid : Option net.IP → Option String) (key : String) (v : LocalSID)
    (hvalid : Validate std key v = some none) :
    ∃ ip : net.IP, ParseIPv6 std v.Sid = Except.ok ip ∧ ip.length = 16 ∧
      (Delete std DeleteLocalSid key v).1 = [some ip] ∧
      ((Delete std DeleteLocalSid key v).2 ≠ none ↔ DeleteLocalSid (some ip) ≠ none) := by
  obtain ⟨ip, hsid⟩ := Validate_sid_parses std key v hvalid
  refine ⟨ip, hsid, ParseIPv6_length hsid, ?_, ?_⟩
  · simp only [Delete, hsid]
    cases DeleteLocalSid (some ip) <;> rfl
  · simp only [Delete, hsid]
    cases h : DeleteLocalSid (some ip) <;> simp

theorem delete_relies_on_validation_witness :
    ∃ ip : net.IP, ParseIPv6 exampleStd "a::1" = Except.ok ip ∧ ip.length = 16 ∧
      (Delete exampleStd (fun _ => some "no such sid") "k"
        ⟨"a::1", 0, some EndFunction.BaseEndFunction⟩).1 = [some ip] ∧
      ((Delete exampleStd (fun _ => some "no such sid") "k"
          ⟨"a::1", 0, some EndFunction.BaseEndFunction⟩).2 ≠ none ↔
        (fun _ => some "no such sid" : Option net.IP → Option String) (some ip) ≠ none) :=
  delete_relies_on_validation exampleStd (fun _ => some "no such sid") "k"
    ⟨"a::1", 0, some EndFunction.BaseEndFunction⟩ (by decide)

end descriptor

/-! ## The reconciler: the pending registry and the command of `Delete` -/

namespace ifplugin

open idxvpp

theorem removeConfigFromIndex_not_unstored (c : TmcConfigurator) (iface : String)
    (hu : c.unstoredIndexes.LookupIdx (TmcIdentifier iface) = none) :
    ∃ x, removeConfigFromIndex c iface = some (unregistered c iface, false, x) := by
  cases hr : removeConfigFromIndex c iface with
  | none =>
    unfold removeConfigFromIndex at hr
    cases hl : c.allIndexes.LookupIdx (TmcIdentifier iface) <;> simp [hl, hu] at hr
  | some r =>
    obtain ⟨c1, b, x⟩ := r
    obtain ⟨h1, h2⟩ := removeConfigFromIndex_eq c c1 iface b x hr
    rw [hu] at h2
    exact ⟨x, by rw [h1, h2]; rfl⟩

/-- C29: pending entries are always also in the all-registry. In every state
reachable from `Init` through `Add`, `Delete`, `Modify`,
`ResolveCreatedInterface`, `ResolveDeletedInterface` and `clearMapping`, every
name registered in `unstoredIndexes` is also registered in `allIndexes` with a
non-nil config whose `InterfaceName` yields that name; consequently
`removeConfigFromIndex` does not panic, and the config it holds when it
unregisters an unstored entry is not nil. -/
theorem unstored_entries_have_config (c : TmcConfigurator) (hreach : Reachable c) :
    (∀ (name : String) (i : Nat) (m : Option modelTmc.TmcConfig),
      c.unstoredIndexes.LookupIdx name = some (i, m) →
        ∃ (j : Nat) (cfg : modelTmc.TmcConfig),
          c.allIndexes.LookupIdx name = some (j, some cfg) ∧
            TmcIdentifier cfg.InterfaceName = name) ∧
    (∀ iface : String,
      ∃ (c1 : TmcConfigurator) (withoutIface : Bool) (config : Option modelTmc.TmcConfig),
        removeConfigFromIndex c iface = some (c1, withoutIface, config) ∧
          (withoutIface = true → config ≠ none)) := by
  have hw := reachable_wellFormed c hreach
  obtain ⟨ha, _, hsub⟩ := hw
  have h1 : ∀ (name : String) (i : Nat) (m : Option modelTmc.TmcConfig),
      c.unstoredIndexes.LookupIdx name = some (i, m) →
        ∃ (j : Nat) (cfg : modelTmc.TmcConfig),
          c.allIndexes.LookupIdx name = some (j, some cfg) ∧
            TmcIdentifier cfg.InterfaceName = name := by
    intro name i m hu
    have hne := hsub name (by rw [hu]; exact Option.some_ne_none _)
    cases hl : c.allIndexes.LookupIdx name with
    | none => exact absurd hl hne
    | some v =>
      obtain ⟨j, ma⟩ := v
      obtain ⟨cfg, hm, _, hkey⟩ := ha name j ma hl
      subst hm
      exact ⟨j, cfg, rfl, hkey.symm⟩
  refine ⟨h1, ?_⟩
  intro iface
  cases hu : c.unstoredIndexes.LookupIdx (TmcIdentifier iface) with
  | none =>
    obtain ⟨x, hx⟩ := removeConfigFromIndex_not_unstored c iface hu
    exact ⟨_, false, x, hx, fun h => absurd h (by decide)⟩
  | some v =>
    obtain ⟨i, m⟩ := v
    obtain ⟨j, cfg, hl, _⟩ := h1 _ i m hu
    refine ⟨{ ({ c with allIndexes := c.allIndexes.UnregisterName (TmcIdentifier iface) } :
        TmcConfigurator) with
        unstoredIndexes := c.unstoredIndexes.UnregisterName (TmcIdentifier iface) },
      true, some cfg, ?_, fun _ => Option.some_ne_none cfg⟩
    simp [removeConfigFromIndex, hl, hu]

theorem unstored_entries_have_config_witness :
    (∀ (name : String) (i : Nat) (m : Option modelTmc.TmcConfig),
      pending.unstoredIndexes.LookupIdx name = some (i, m) →
        ∃ (j : Nat) (cfg : modelTmc.TmcConfig),
          pending.allIndexes.LookupIdx name = some (j, some cfg) ∧
            TmcIdentifier cfg.InterfaceName = name) ∧
    (∀ iface : String,
      ∃ (c1 : TmcConfigurator) (withoutIface : Bool) (config : Option modelTmc.TmcConfig),
        removeConfigFromIndex pending iface = some (c1, withoutIface, config) ∧
          (withoutIface = true → config ≠ none)) :=
  unstored_entries_have_config pending reachable_pending

/-- C30: `Delete` sends the same command as `Add`. For every valid config
`cfg` (non-nil, non-empty `InterfaceName`) whose key is not in
`unstoredIndexes`, whether or not the key is registered in `allIndexes`,
`Delete(cfg)` sends exactly one request, with the looked-up interface index
(`0` when the interface is not found), `uint16(cfg.MssValue)` and, as the
enable flag, `uint8(cfg.TcpMssClamping)`; when the interface is registered,
so that `Add(cfg)` sends a request in the same state, it is that same
request. -/
theorem delete_sends_add_command (ch : vppcalls.Channel) (c : TmcConfigurator)
    (cfg : modelTmc.TmcConfig) (hne : cfg.InterfaceName ≠ "")
    (hu : c.unstoredIndexes.LookupIdx (TmcIdentifier cfg.InterfaceName) = none) :
    (∃ (c1 : TmcConfigurator) (err : Option TmcError),
      Delete ch c (some cfg) = some (c1, err) ∧
        c1.vppChan = c.vppChan ++
          [vppcalls.TmcEnableDisable.mk (cfg.TcpMssClamping % 256)
            (c.ifIndexes.lookupIndex cfg.InterfaceName) (cfg.MssValue % 65536)]) ∧
    (∀ (i : Nat) (u : Unit), c.ifIndexes.LookupIdx cfg.InterfaceName = some (i, u) →
      c.ifIndexes.lookupIndex cfg.InterfaceName = i ∧
      ∃ (c2 : TmcConfigurator) (err : Option TmcError),
        Add ch c (some cfg) = some (c2, err) ∧
          c2.vppChan = c.vppChan ++
            [vppcalls.TmcEnableDisable.mk (cfg.TcpMssClamping % 256)
              (c.ifIndexes.lookupIndex cfg.InterfaceName) (cfg.MssValue % 65536)]) ∧
    (c.ifIndexes.LookupIdx cfg.InterfaceName = none →
      c.ifIndexes.lookupIndex cfg.InterfaceName = 0) := by
  refine ⟨?_, ?_, ?_⟩
  · obtain ⟨x, hr⟩ := removeConfigFromIndex_not_unstored c cfg.InterfaceName hu
    exact ⟨_, _, Delete_stored ch c _ cfg x hne hr, rfl⟩
  · intro i u hl
    have hi : c.ifIndexes.lookupIndex cfg.InterfaceName = i := by
      simp [NameToIdx.lookupIndex, hl]
    refine ⟨hi, ?_⟩
    rw [hi, Add_ready ch c cfg i u hne hl]
    cases (vppcalls.ModifyTmcConfig ch c.vppChan i (cfg.MssValue % 65536)
      (cfg.TcpMssClamping % 256)).2 with
    | none => exact ⟨_, _, rfl, by rw [indexTmcConfig_vppChan]⟩
    | some e => exact ⟨_, _, rfl, rfl⟩
  · intro hl
    simp [NameToIdx.lookupIndex, hl]

theorem delete_sends_add_command_witness :
    (∃ (c1 : TmcConfigurator) (err : Option TmcError),
      Delete acceptAll realized (some tmcConfig) = some (c1, err) ∧
        c1.vppChan = realized.vppChan ++
          [vppcalls.TmcEnableDisable.mk (tmcConfig.TcpMssClamping % 256)
            (realized.ifIndexes.lookupIndex tmcConfig.InterfaceName)
            (tmcConfig.MssValue % 65536)]) ∧
    (realized.ifIndexes.lookupIndex tmcConfig.InterfaceName = 5 ∧
      ∃ (c2 : TmcConfigurator) (err : Option TmcError),
        Add acceptAll realized (some tmcConfig) = some (c2, err) ∧
          c2.vppChan = realized.vppChan ++
            [vppcalls.TmcEnableDisable.mk (tmcConfig.TcpMssClamping % 256)
              (realized.ifIndexes.lookupIndex tmcConfig.InterfaceName)
              (tmcConfig.MssValue % 65536)]) :=
  ⟨(delete_sends_add_command acceptAll realized tmcConfig (by decide) (by decide)).1,
    (delete_sends_add_command acceptAll realized tmcConfig (by decide) (by decide)).2.1 5 ()
      (by decide)⟩

end ifplugin

/-! ## The resync builder -/

namespace grpcadapter

theorem call_put (keys : KeyFuncs) (dsl : DataResyncDSL) (val : Message) :
    (dsl.call keys val).put = mapSet dsl.put (keyOf keys val) val := by
  cases val <;> rfl

theorem mem_mapSet {m : List (String × Message)} {key : String} {val : Message}
    {e : String × Message} (h : e ∈ mapSet m key val) : (e ∈ m ∧ e.1 ≠ key) ∨ e = (key, val) := by
  unfold mapSet at h
  rcases List.mem_append.mp h with h | h
  · have := List.mem_filter.mp h
    exact Or.inl ⟨this.1, by simpa using this.2⟩
  · exact Or.inr (List.mem_singleton.mp h)

theorem mapSet_mapSet (m : List (String × Message)) (key : String) (v1 v2 : Message) :
    mapSet (mapSet m key v1) key v2 = mapSet m key v2 := by
  simp [mapSet, List.filter_append, List.filter_filter]

theorem built_keyed (keys : KeyFuncs) (dsl : DataResyncDSL) (h : Built keys dsl) :
    ∀ e ∈ dsl.put, e.1 = keyOf keys e.2 := by
  induction h with
  | new client => intro e he; cases he
  | call dsl val _ ih =>
    intro e he
    rw [call_put] at he
    rcases mem_mapSet he with ⟨h1, _⟩ | h1
    · exact ih e h1
    · subst h1; rfl

theorem foldl_sendStep_interfaces (es : List (String × Message)) (req : ResyncConfigRequest) :
    (es.foldl (fun req e => sendStep req e.2) req).interfaces =
      req.interfaces ++ es.filterMap (fun e => e.2.asInterface) := by
  induction es generalizing req with
  | nil => simp
  | cons e es ih =>
    rw [List.foldl_cons, ih]
    obtain ⟨k, v⟩ := e
    cases v <;>
      simp [sendStep, ResyncConfigRequest.interfaces, Message.asInterface, List.filterMap_cons]
    cases req.Interfaces <;> simp [appendTo]

theorem send_interfaces (visit : List (String × Message) → List (String × Message))
    (dsl : DataResyncDSL) :
    ∃ req : ResyncConfigRequest, dsl.Send visit = ([req], dsl.client req) ∧
      req.interfaces = (visit dsl.put).filterMap (fun e => e.2.asInterface) := by
  refine ⟨_, rfl, ?_⟩
  rw [foldl_sendStep_interfaces]
  rfl

/-- C26: batch dedup. For every builder, every order in which `Send` visits
the map and every three interfaces `a`, `b`, `c` with the same `Name`: after
`Interface(a).Interface(b).Interface(c)` the map holds exactly one entry under
that name, the interface `c`, and the one request `Send` passes to the client
contains exactly one interface with that name, which is `c`; in general a
later put with the same derived key overwrites the earlier one and never
appends. -/
theorem batch_dedup (keys : KeyFuncs)
    (visit : List (String × Message) → List (String × Message))
    (hvisit : ∀ l, (visit l).Perm l) (dsl : DataResyncDSL) (hbuilt : Built keys dsl)
    (a b c : Interfaces_Interface) (hac : a.Name = c.Name) (hbc : b.Name = c.Name) :
    (((dsl.Interface a).Interface b).Interface c).put.filter
        (fun e => decide (e.1 = c.Name)) = [(c.Name, Message.Interface c)] ∧
    (∃ req : ResyncConfigRequest,
      (((dsl.Interface a).Interface b).Interface c).Send visit = ([req], dsl.client req) ∧
        req.interfaces.filter (fun i => decide (i.Name = c.Name)) = [c]) ∧
    (∀ m1 m2 : Message, keyOf keys m1 = keyOf keys m2 →
      ((dsl.call keys m1).call keys m2).put = (dsl.call keys m2).put) := by
  have hput : (((dsl.Interface a).Interface b).Interface c).put =
      mapSet dsl.put c.Name (Message.Interface c) := by
    show mapSet (mapSet (mapSet dsl.put a.Name _) b.Name _) c.Name _ = _
    rw [hac, hbc, mapSet_mapSet, mapSet_mapSet]
  have hkeyed := built_keyed keys dsl hbuilt
  refine ⟨?_, ?_, ?_⟩
  · rw [hput]
    simp [mapSet, List.filter_append, List.filter_filter]
  · obtain ⟨req, hsend, hreq⟩ := send_interfaces visit (((dsl.Interface a).Interface b).Interface c)
    refine ⟨req, hsend, ?_⟩
    have hperm : (req.interfaces.filter (fun i => decide (i.Name = c.Name))).Perm
        (((mapSet dsl.put c.Name (Message.Interface c)).filterMap
          (fun e => e.2.asInterface)).filter (fun i => decide (i.Name = c.Name))) := by
      rw [hreq, hput]
      exact ((hvisit _).filterMap _).filter _
    have hval : ((mapSet dsl.put c.Name (Message.Interface c)).filterMap
        (fun e => e.2.asInterface)).filter (fun i => decide (i.Name = c.Name)) = [c] := by
      have hnone : ((dsl.put.filter (fun e => decide (e.1 ≠ c.Name))).filterMap
          (fun e => e.2.asInterface)).filter (fun i => decide (i.Name = c.Name)) = [] := by
        rw [List.filter_eq_nil_iff]
        intro i hi
        obtain ⟨e, he, hei⟩ := List.mem_filterMap.mp hi
        obtain ⟨hmem, hk⟩ := List.mem_filter.mp he
        have hkey := hkeyed e hmem
        obtain ⟨k, v⟩ := e
        cases v <;> simp [Message.asInterface] at hei
        subst hei
        simp only [keyOf] at hkey
        simpa [hkey] using hk
      simp only [mapSet, List.filterMap_append, List.filter_append, hnone]
      simp [Message.asInterface]
    rw [hval] at hperm
    exact List.perm_singleton.mp hperm
  · intro m1 m2 hk
    rw [call_put, call_put, call_put, hk, mapSet_mapSet]

theorem batch_dedup_witness :
    ((((NewDataResyncDSL okClient).Interface ⟨"memif1", [1]⟩).Interface
        ⟨"memif1", [2]⟩).Interface ⟨"memif1", [3]⟩).put.filter
        (fun e => decide (e.1 = "memif1")) =
      [("memif1", Message.Interface ⟨"memif1", [3]⟩)] ∧
    (∃ req : ResyncConfigRequest,
      ((((NewDataResyncDSL okClient).Interface ⟨"memif1", [1]⟩).Interface
          ⟨"memif1", [2]⟩).Interface ⟨"memif1", [3]⟩).Send id = ([req], okClient req) ∧
        req.interfaces.filter (fun i => decide (i.Name = "memif1")) = [⟨"memif1", [3]⟩]) :=
  ⟨(batch_dedup exampleKeys id (fun l => List.Perm.refl l) (NewDataResyncDSL okClient)
      (Built.new okClient) ⟨"memif1", [1]⟩ ⟨"memif1", [2]⟩ ⟨"memif1", [3]⟩ rfl rfl).1,
    (batch_dedup exampleKeys id (fun l => List.Perm.refl l) (NewDataResyncDSL okClient)
      (Built.new okClient) ⟨"memif1", [1]⟩ ⟨"memif1", [2]⟩ ⟨"memif1", [3]⟩ rfl rfl).2.1⟩

/-- C27 (the code at the failing input): fifteen values of fifteen types are
added under fifteen different keys, one of them an interface. `Send` passes
one request to the client, which holds the interface only: the values of the
fourteen types its type switch has no case for are dropped. -/
theorem send_drops_unhandled_types :
    fifteen.put.length = 15 ∧
    (fifteen.put.map (fun e => e.1)).Nodup ∧
    (fifteen.Send id).1 =
      [{ Interfaces := some [⟨"if1", []⟩], BDs := none, XCons := none, StaticRoutes := none,
         ACLs := none }] ∧
    (∀ req ∈ (fifteen.Send id).1, req.size = 1) := by
  decide

/-- C28 (the code at the failing input): an interface and a bridge domain
with the same name `x` are stored under the same key `x`. After
`Interface(i).BD(b)` the map holds the bridge domain only and `Send` submits
no interface; after `BD(b).Interface(i)` it holds the interface only and
`Send` submits no bridge domain. -/
theorem same_name_overwrites_across_types :
    (((NewDataResyncDSL okClient).Interface ⟨"x", [1]⟩).BD ⟨"x", [2]⟩).put =
      [("x", Message.BD ⟨"x", [2]⟩)] ∧
    ((((NewDataResyncDSL okClient).Interface ⟨"x", [1]⟩).BD ⟨"x", [2]⟩).Send id).1 =
      [{ Interfaces := none, BDs := some [⟨"x", [2]⟩], XCons := none, StaticRoutes := none,
         ACLs := none }] ∧
    (((NewDataResyncDSL okClient).BD ⟨"x", [2]⟩).Interface ⟨"x", [1]⟩).put =
      [("x", Message.Interface ⟨"x", [1]⟩)] ∧
    ((((NewDataResyncDSL okClient).BD ⟨"x", [2]⟩).Interface ⟨"x", [1]⟩).Send id).1 =
      [{ Interfaces := some [⟨"x", [1]⟩], BDs := none, XCons := none, StaticRoutes := none,
         ACLs := none }] := by
  decide

end grpcadapter

/-! ## Narrowing of the numeric fields -/

namespace ifplugin

open idxvpp

/-- C31: `checkTmc` narrows the numeric fields by truncation, without range
validation. For every non-nil config with a non-empty `InterfaceName`,
`checkTmc` returns no error, whatever `MssValue` and `TcpMssClamping`, with
`MssValue mod 2^16` as MSS and `TcpMssClamping mod 2^8` as enable flag, and
these are the values `Add` sends to the device; two configs for the same
interface whose `MssValue` differ by a multiple of `65536` and whose
`TcpMssClamping` differ by a multiple of `256` give the same result of
`checkTmc` and the same request. -/
theorem checkTmc_truncates (index : NameToIdx Unit) (cfg : modelTmc.TmcConfig)
    (hne : cfg.InterfaceName ≠ "") :
    checkTmc (some cfg) index =
      Except.ok ({ MssValue := cfg.MssValue % 65536,
                   IfaceIdx := index.lookupIndex cfg.InterfaceName,
                   IsEnabled := cfg.TcpMssClamping % 256 },
        (index.LookupIdx cfg.InterfaceName).isSome) ∧
    (∀ (ch : vppcalls.Channel) (c : TmcConfigurator) (i : Nat) (u : Unit),
      c.ifIndexes.LookupIdx cfg.InterfaceName = some (i, u) →
      ∃ (c1 : TmcConfigurator) (err : Option TmcError),
        Add ch c (some cfg) = some (c1, err) ∧
          c1.vppChan = c.vppChan ++
            [{ IsEnable := cfg.TcpMssClamping % 256, SwIfIndex := i,
               Mss := cfg.MssValue % 65536 }]) ∧
    (∀ j k : Nat,
      checkTmc (some { cfg with MssValue := cfg.MssValue + 65536 * j,
                                TcpMssClamping := cfg.TcpMssClamping + 256 * k }) index =
        checkTmc (some cfg) index ∧
      ∀ (ch : vppcalls.Channel) (c : TmcConfigurator) (i : Nat) (u : Unit),
        c.ifIndexes.LookupIdx cfg.InterfaceName = some (i, u) →
        ∃ (c1 c2 : TmcConfigurator) (e1 e2 : Option TmcError),
          Add ch c (some cfg) = some (c1, e1) ∧
          Add ch c (some { cfg with MssValue := cfg.MssValue + 65536 * j,
                                    TcpMssClamping := cfg.TcpMssClamping + 256 * k }) =
            some (c2, e2) ∧
          c1.vppChan = c2.vppChan) := by
  have hadd : ∀ (cfg' : modelTmc.TmcConfig), cfg'.InterfaceName ≠ "" →
      ∀ (ch : vppcalls.Channel) (c : TmcConfigurator) (i : Nat) (u : Unit),
      c.ifIndexes.LookupIdx cfg'.InterfaceName = some (i, u) →
      ∃ (c1 : TmcConfigurator) (err : Option TmcError),
        Add ch c (some cfg') = some (c1, err) ∧
          c1.vppChan = c.vppChan ++
            [{ IsEnable := cfg'.TcpMssClamping % 256, SwIfIndex := i,
               Mss := cfg'.MssValue % 65536 }] := by
    intro cfg' hne' ch c i u hl
    rw [Add_ready ch c cfg' i u hne' hl]
    cases (vppcalls.ModifyTmcConfig ch c.vppChan i (cfg'.MssValue % 65536)
      (cfg'.TcpMssClamping % 256)).2 with
    | none => exact ⟨_, _, rfl, by rw [indexTmcConfig_vppChan]⟩
    | some e => exact ⟨_, _, rfl, rfl⟩
  refine ⟨checkTmc_valid cfg index hne, hadd cfg hne, ?_⟩
  intro j k
  constructor
  · rw [checkTmc_valid cfg index hne, checkTmc_valid _ index (by exact hne)]
    simp [Nat.add_mul_mod_self_left]
  · intro ch c i u hl
    obtain ⟨c1, e1, h1, hv1⟩ := hadd cfg hne ch c i u hl
    obtain ⟨c2, e2, h2, hv2⟩ := hadd
      (modelTmc.TmcConfig.mk cfg.ConfigName (cfg.TcpMssClamping + 256 * k) cfg.InterfaceName
        (cfg.MssValue + 65536 * j)) hne ch c i u hl
    refine ⟨c1, c2, e1, e2, h1, h2, ?_⟩
    rw [hv1, hv2]
    simp [Nat.add_mul_mod_self_left]

theorem checkTmc_truncates_witness :
    checkTmc (some { tmcConfig with MssValue := 1450 + 65536, TcpMssClamping := 257 })
        memif1Up =
      Except.ok ({ MssValue := 1450, IfaceIdx := 5, IsEnabled := 1 }, true) ∧
    checkTmc (some { tmcConfig with MssValue := tmcConfig.MssValue + 65536 * 1,
                                    TcpMssClamping := tmcConfig.TcpMssClamping + 256 * 1 })
        memif1Up = checkTmc (some tmcConfig) memif1Up :=
  ⟨(checkTmc_truncates memif1Up
      { tmcConfig with MssValue := 1450 + 65536, TcpMssClamping := 257 } (by decide)).1,
    ((checkTmc_truncates memif1Up tmcConfig (by decide)).2.2 1 1).1⟩

end ifplugin

/-! ## The LocalSID descriptor: the equivalence as a relation -/

namespace net

theorem Equal_comm (ip x : IP) : Equal ip x = Equal x ip := by
  by_cases h : ip.length = x.length
  · simp only [Equal, h, if_true]
    exact decide_eq_decide.mpr eq_comm
  · have h' : ¬ x.length = ip.length := fun h2 => h h2.symm
    simp only [Equal, h, h', if_false]
    by_cases h1 : ip.length = 4 ∧ x.length = 16
    · have h2 : ¬ (x.length = 4 ∧ ip.length = 16) := by omega
      have h3 : x.length = 16 ∧ ip.length = 4 := ⟨h1.2, h1.1⟩
      simp only [h1, h2, h3, and_self, if_true, if_false]
      exact decide_eq_decide.mpr ⟨fun ⟨p, q⟩ => ⟨p, q.symm⟩, fun ⟨p, q⟩ => ⟨p, q.symm⟩⟩
    · by_cases h2 : ip.length = 16 ∧ x.length = 4
      · have h3 : x.length = 4 ∧ ip.length = 16 := ⟨h2.2, h2.1⟩
        simp only [h1, h2, h3, and_self, if_true, if_false]
        exact decide_eq_decide.mpr ⟨fun ⟨p, q⟩ => ⟨p, q.symm⟩, fun ⟨p, q⟩ => ⟨p, q.symm⟩⟩
      · have h3 : ¬ (x.length = 4 ∧ ip.length = 16) := fun h3 => h2 ⟨h3.2, h3.1⟩
        have h4 : ¬ (x.length = 16 ∧ ip.length = 4) := fun h4 => h1 ⟨h4.2, h4.1⟩
        simp only [h1, h2, h3, h4, if_false]

end net

namespace descriptor

open srv6

theorem equivalentTrimmedLowered_comm (std : Stdlib) (s t : String) :
    equivalentTrimmedLowered std s t = equivalentTrimmedLowered std t s := by
  unfold equivalentTrimmedLowered
  exact decide_eq_decide.mpr eq_comm

theorem equivalentIPv6_comm (std : Stdlib) (s t : String) :
    equivalentIPv6 std s t = equivalentIPv6 std t s := by
  unfold equivalentIPv6
  cases hs : ParseIPv6 std s <;> cases ht : ParseIPv6 std t <;>
    first
      | exact equivalentTrimmedLowered_comm std s t
      | exact net.Equal_comm _ _

theorem equivalentIPv4_comm (std : Stdlib) (s t : String) :
    equivalentIPv4 std s t = equivalentIPv4 std t s := by
  unfold equivalentIPv4
  cases hs : ParseIPv4 std s <;> cases ht : ParseIPv4 std t <;>
    first
      | exact equivalentTrimmedLowered_comm std s t
      | exact net.Equal_comm _ _

theorem equivalentEndFunctions_self (std : Stdlib) (e : EndFunction)
    (hp : e.populated = true) : equivalentEndFunctions std (some e) (some e) = some true := by
  cases e with
  | EndFunction_X p =>
    cases p with
    | none => simp [EndFunction.populated] at hp
    | some a =>
      simp [equivalentEndFunctions, equivalentIPv6_self, equivalentTrimmedLowered_self]
  | EndFunction_T p =>
    cases p with
    | none => simp [EndFunction.populated] at hp
    | some a => simp [equivalentEndFunctions]
  | EndFunction_DX2 p =>
    cases p with
    | none => simp [EndFunction.populated] at hp
    | some a => simp [equivalentEndFunctions, equivalentTrimmedLowered_self]
  | EndFunction_DX4 p =>
    cases p with
    | none => simp [EndFunction.populated] at hp
    | some a =>
      simp [equivalentEndFunctions, equivalentIPv4_self, equivalentTrimmedLowered_self]
  | EndFunction_DX6 p =>
    cases p with
    | none => simp [EndFunction.populated] at hp
    | some a =>
      simp [equivalentEndFunctions, equivalentIPv4_self, equivalentTrimmedLowered_self]
  | EndFunction_AD p =>
    cases p with
    | none => simp [EndFunction.populated] at hp
    | some a =>
      simp [equivalentEndFunctions, equivalentIPv4_self, equivalentTrimmedLowered_self]
  | BaseEndFunction => simp [equivalentEndFunctions]
  | EndFunction_DT4 => simp [equivalentEndFunctions]
  | EndFunction_DT6 => simp [equivalentEndFunctions]
  | unknown t c => simp [equivalentEndFunctions]

theorem equivalentEndFunctions_comm (std : Stdlib) (ef1 ef2 : Option EndFunction) :
    equivalentEndFunctions std ef1 ef2 = equivalentEndFunctions std ef2 ef1 := by
  cases ef1 with
  | none => cases ef2 <;> rfl
  | some e1 =>
    cases ef2 with
    | none => rfl
    | some e2 =>
      by_cases ht : e1.TypeOf = e2.TypeOf
      · cases e1 <;> cases e2 <;> simp [EndFunction.TypeOf] at ht
        · simp [equivalentEndFunctions]
        · rename_i p q
          cases p <;> cases q <;> simp [equivalentEndFunctions, EndFunction.TypeOf]
          rename_i a b
          rw [equivalentIPv6_comm std a.NextHop b.NextHop,
            equivalentTrimmedLowered_comm std a.OutgoingInterface b.OutgoingInterface]
          rw [decide_eq_decide.mpr (eq_comm (a := a.Psp) (b := b.Psp))]
        · rename_i p q
          cases p <;> cases q <;> simp [equivalentEndFunctions, EndFunction.TypeOf]
          exact eq_comm
        · rename_i p q
          cases p <;> cases q <;> simp [equivalentEndFunctions, EndFunction.TypeOf]
          rename_i a b
          rw [equivalentTrimmedLowered_comm std a.NextHop b.NextHop,
            equivalentTrimmedLowered_comm std a.OutgoingInterface b.OutgoingInterface]
          rw [decide_eq_decide.mpr (eq_comm (a := a.VlanTag) (b := b.VlanTag))]
        · rename_i p q
          cases p <;> cases q <;> simp [equivalentEndFunctions, EndFunction.TypeOf]
          rename_i a b
          rw [equivalentIPv4_comm std a.NextHop b.NextHop,
            equivalentTrimmedLowered_comm std a.OutgoingInterface b.OutgoingInterface]
        · rename_i p q
          cases p <;> cases q <;> simp [equivalentEndFunctions, EndFunction.TypeOf]
          rename_i a b
          rw [equivalentIPv4_comm std a.NextHop b.NextHop,
            equivalentTrimmedLowered_comm std a.OutgoingInterface b.OutgoingInterface]
        · simp [equivalentEndFunctions]
        · simp [equivalentEndFunctions]
        · rename_i p q
          cases p <;> cases q <;> simp [equivalentEndFunctions, EndFunction.TypeOf]
          rename_i a b
          rw [equivalentIPv4_comm std a.ServiceAddress b.ServiceAddress,
            equivalentIPv6_comm std a.ServiceAddress b.ServiceAddress,
            equivalentTrimmedLowered_comm std a.OutgoingInterface b.OutgoingInterface,
            equivalentTrimmedLowered_comm std a.IncomingInterface b.IncomingInterface]
        · rename_i t1 c1 t2 c2
          subst ht
          simp [equivalentEndFunctions, EndFunction.TypeOf, eq_comm]
      · rw [equivalentEndFunctions_type_ne std e1 e2 ht,
          equivalentEndFunctions_type_ne std e2 e1 (fun h => ht h.symm)]

end descriptor

namespace descriptor

open srv6

theorem equivalentEndFunctions_total (std : Stdlib) (ef1 ef2 : Option EndFunction)
    (h1 : ∀ e, ef1 = some e → e.populated = true) (h2 : ∀ e, ef2 = some e → e.populated = true) :
    ∃ r : Bool, equivalentEndFunctions std ef1 ef2 = some r := by
  rw [← Option.isSome_iff_exists]
  cases ef1 with
  | none => cases ef2 <;> rfl
  | some e1 =>
    cases ef2 with
    | none => rfl
    | some e2 =>
      have hp1 := h1 e1 rfl
      have hp2 := h2 e2 rfl
      by_cases ht : e1.TypeOf = e2.TypeOf
      · cases e1 <;> cases e2 <;> simp [EndFunction.TypeOf] at ht
        · simp [equivalentEndFunctions, EndFunction.TypeOf]
        · rename_i p q
          cases p <;> cases q <;> simp [EndFunction.populated] at hp1 hp2
          simp [equivalentEndFunctions, EndFunction.TypeOf]
        · rename_i p q
          cases p <;> cases q <;> simp [EndFunction.populated] at hp1 hp2
          simp [equivalentEndFunctions, EndFunction.TypeOf]
        · rename_i p q
          cases p <;> cases q <;> simp [EndFunction.populated] at hp1 hp2
          simp [equivalentEndFunctions, EndFunction.TypeOf]
        · rename_i p q
          cases p <;> cases q <;> simp [EndFunction.populated] at hp1 hp2
          simp [equivalentEndFunctions, EndFunction.TypeOf]
        · rename_i p q
          cases p <;> cases q <;> simp [EndFunction.populated] at hp1 hp2
          simp [equivalentEndFunctions, EndFunction.TypeOf]
        · simp [equivalentEndFunctions, EndFunction.TypeOf]
        · simp [equivalentEndFunctions, EndFunction.TypeOf]
        · rename_i p q
          cases p <;> cases q <;> simp [EndFunction.populated] at hp1 hp2
          simp [equivalentEndFunctions, EndFunction.TypeOf]
        · subst ht
          simp [equivalentEndFunctions, EndFunction.TypeOf]
      · rw [equivalentEndFunctions_type_ne std e1 e2 ht]
        rfl

theorem exampleInterfaceKey_injective {a b : String}
    (h : exampleInterfaceKey a = exampleInterfaceKey b) : a = b := by
  unfold exampleInterfaceKey at h
  have h' := congrArg String.data h
  simp only [String.data_append] at h'
  exact String.ext (List.append_cancel_left h')

/-- C32: `EquivalentLocalSIDs` is reflexive and symmetric. For all LocalSIDs
`a` and `b` whose end functions carry non-nil payloads, the comparison returns
(it does not panic), `EquivalentLocalSIDs(key, a, a)` is true and
`EquivalentLocalSIDs(key, a, b) = EquivalentLocalSIDs(key, b, a)`, for every
`net.ParseIP`, hence also when address fields fail to parse, and for the
IPv4-or-IPv6 comparison of the AD variant. -/
theorem equivalentLocalSIDs_refl_symm (std : Stdlib) (key : String) (a b : LocalSID)
    (ha : a.populated = true) (hb : b.populated = true) :
    EquivalentLocalSIDs std key a a = some true ∧
    EquivalentLocalSIDs std key a b = EquivalentLocalSIDs std key b a ∧
    ∃ r : Bool, EquivalentLocalSIDs std key a b = some r := by
  have hpa : ∀ e, a.EndFunction = some e → e.populated = true := by
    intro e he
    simpa [LocalSID.populated, he] using ha
  have hpb : ∀ e, b.EndFunction = some e → e.populated = true := by
    intro e he
    simpa [LocalSID.populated, he] using hb
  refine ⟨?_, ?_, ?_⟩
  · have hself : equivalentEndFunctions std a.EndFunction a.EndFunction = some true := by
      cases he : a.EndFunction with
      | none => rfl
      | some e => exact equivalentEndFunctions_self std e (hpa e he)
    simp [EquivalentLocalSIDs, equivalentSIDs, equivalentIPv6_self, hself]
  · unfold EquivalentLocalSIDs equivalentSIDs
    rw [equivalentIPv6_comm std b.Sid a.Sid,
      equivalentEndFunctions_comm std b.EndFunction a.EndFunction]
    by_cases hf : a.FibTableId = b.FibTableId
    · simp [hf]
    · have hf' : ¬ b.FibTableId = a.FibTableId := fun h => hf h.symm
      simp [hf, hf']
  · obtain ⟨r, hr⟩ := equivalentEndFunctions_total std a.EndFunction b.EndFunction hpa hpb
    unfold EquivalentLocalSIDs
    rw [hr]
    split
    · exact ⟨_, rfl⟩
    · split <;> exact ⟨_, rfl⟩

theorem equivalentLocalSIDs_refl_symm_witness :
    EquivalentLocalSIDs exampleStd "k"
        ⟨"not an address", 0, some (EndFunction.EndFunction_AD (some ⟨"a", "b", "10.0.0.1"⟩))⟩
        ⟨"not an address", 0, some (EndFunction.EndFunction_AD (some ⟨"a", "b", "10.0.0.1"⟩))⟩ =
      some true ∧
    EquivalentLocalSIDs exampleStd "k"
        ⟨"not an address", 0, some (EndFunction.EndFunction_AD (some ⟨"a", "b", "10.0.0.1"⟩))⟩
        ⟨"A::1", 0, some (EndFunction.EndFunction_AD (some ⟨"A", "b", "::1"⟩))⟩ =
      EquivalentLocalSIDs exampleStd "k"
        ⟨"A::1", 0, some (EndFunction.EndFunction_AD (some ⟨"A", "b", "::1"⟩))⟩
        ⟨"not an address", 0, some (EndFunction.EndFunction_AD (some ⟨"a", "b", "10.0.0.1"⟩))⟩ ∧
    ∃ r : Bool, EquivalentLocalSIDs exampleStd "k"
        ⟨"not an address", 0, some (EndFunction.EndFunction_AD (some ⟨"a", "b", "10.0.0.1"⟩))⟩
        ⟨"A::1", 0, some (EndFunction.EndFunction_AD (some ⟨"A", "b", "::1"⟩))⟩ = some r :=
  equivalentLocalSIDs_refl_symm exampleStd "k"
    ⟨"not an address", 0, some (EndFunction.EndFunction_AD (some ⟨"a", "b", "10.0.0.1"⟩))⟩
    ⟨"A::1", 0, some (EndFunction.EndFunction_AD (some ⟨"A", "b", "::1"⟩))⟩ rfl rfl

/-- C33: SID equivalence is not transitive on unvalidated input. For all
texts `a`, `b`, `c` such that `a` fails `ParseIPv6`, `b` and `c` parse to the
same address, `a` equals `b` after lower-casing and trimming, and `c` differs
from `a` after lower-casing and trimming, `equivalentIPv6(a, b)` and
`equivalentIPv6(b, c)` are true but `equivalentIPv6(a, c)` is false. -/
theorem sid_equivalence_not_transitive (std : Stdlib) (a b c : String) (ip : net.IP)
    (e : ParseError) (ha : ParseIPv6 std a = Except.error e)
    (hb : ParseIPv6 std b = Except.ok ip) (hc : ParseIPv6 std c = Except.ok ip)
    (hab : std.TrimSpace (std.ToLower a) = std.TrimSpace (std.ToLower b))
    (hac : std.TrimSpace (std.ToLower c) ≠ std.TrimSpace (std.ToLower a)) :
    equivalentIPv6 std a b = true ∧ equivalentIPv6 std b c = true ∧
      equivalentIPv6 std a c = false := by
  refine ⟨?_, ?_, ?_⟩
  · simp [equivalentIPv6, ha, hb, equivalentTrimmedLowered, hab]
  · rw [equivalentIPv6_parsed hb hc]
    simp
  · simp only [equivalentIPv6, ha, hc, equivalentTrimmedLowered]
    exact decide_eq_false (fun h => hac h.symm)

theorem sid_equivalence_not_transitive_witness :
    equivalentIPv6 exampleStd "::1 " "::1" = true ∧ equivalentIPv6 exampleStd "::1" "0::1" = true ∧
      equivalentIPv6 exampleStd "::1 " "0::1" = false :=
  sid_equivalence_not_transitive exampleStd "::1 " "::1" "0::1" addrLoopback
    (ParseError.notIP "::1 ") rfl rfl rfl (by decide) (by decide)

/-- C34: equivalence does not preserve the declared dependencies. Whenever
`InterfaceKey` is injective, two LocalSIDs with the same valid SID,
non-negative `FibTableId` and End.X functions with the same valid next hop,
whose `OutgoingInterface` are different texts that agree after lower-casing
and trimming, both pass `Validate` and are equivalent for
`EquivalentLocalSIDs`, yet `Dependencies` returns different dependencies for
them: it builds its keys from the raw interface name. Such LocalSIDs exist,
for instance with the interface names `memif1` and ` MEMIF1 `. -/
theorem equivalent_with_different_dependencies (std : Stdlib) (InterfaceKey : String → String)
    (hinj : ∀ x y : String, InterfaceKey x = InterfaceKey y → x = y)
    (key sid nextHop o1 o2 : String) (fib : Int) (psp : Bool) (ip1 ip2 : net.IP)
    (hsid : ParseIPv6 std sid = Except.ok ip1) (hfib : 0 ≤ fib)
    (hhop : ParseIPv6 std nextHop = Except.ok ip2) (hdiff : o1 ≠ o2)
    (hnorm : std.TrimSpace (std.ToLower o1) = std.TrimSpace (std.ToLower o2)) :
    Validate std key ⟨sid, fib, some (EndFunction.EndFunction_X (some ⟨psp, nextHop, o1⟩))⟩ =
      some none ∧
    Validate std key ⟨sid, fib, some (EndFunction.EndFunction_X (some ⟨psp, nextHop, o2⟩))⟩ =
      some none ∧
    EquivalentLocalSIDs std key
        ⟨sid, fib, some (EndFunction.EndFunction_X (some ⟨psp, nextHop, o1⟩))⟩
        ⟨sid, fib, some (EndFunction.EndFunction_X (some ⟨psp, nextHop, o2⟩))⟩ = some true ∧
    Dependencies InterfaceKey key
        ⟨sid, fib, some (EndFunction.EndFunction_X (some ⟨psp, nextHop, o1⟩))⟩ ≠
      Dependencies InterfaceKey key
        ⟨sid, fib, some (EndFunction.EndFunction_X (some ⟨psp, nextHop, o2⟩))⟩ := by
  have hv := (Validate_populated std key sid fib ip1 hsid hfib).2.2.2.2.2.2.2.1
  refine ⟨?_, ?_, ?_, ?_⟩
  · rw [hv]; simp [hhop]
  · rw [hv]; simp [hhop]
  · simp [EquivalentLocalSIDs, equivalentSIDs, equivalentIPv6_self, equivalentEndFunctions,
      EndFunction.TypeOf, equivalentTrimmedLowered, hnorm]
  · intro h
    simp only [Dependencies, Option.map_some', Option.some.injEq, List.cons.injEq,
      scheduler.Dependency.mk.injEq, true_and, and_true] at h
    exact hdiff (hinj _ _ h)

theorem equivalent_with_different_dependencies_witness :
    Validate exampleStd "k"
        ⟨"a::1", 0, some (EndFunction.EndFunction_X (some ⟨true, "::1", "memif1"⟩))⟩ =
      some none ∧
    Validate exampleStd "k"
        ⟨"a::1", 0, some (EndFunction.EndFunction_X (some ⟨true, "::1", " MEMIF1 "⟩))⟩ =
      some none ∧
    EquivalentLocalSIDs exampleStd "k"
        ⟨"a::1", 0, some (EndFunction.EndFunction_X (some ⟨true, "::1", "memif1"⟩))⟩
        ⟨"a::1", 0, some (EndFunction.EndFunction_X (some ⟨true, "::1", " MEMIF1 "⟩))⟩ =
      some true ∧
    Dependencies exampleInterfaceKey "k"
        ⟨"a::1", 0, some (EndFunction.EndFunction_X (some ⟨true, "::1", "memif1"⟩))⟩ ≠
      Dependencies exampleInterfaceKey "k"
        ⟨"a::1", 0, some (EndFunction.EndFunction_X (some ⟨true, "::1", " MEMIF1 "⟩))⟩ :=
  equivalent_with_different_dependencies exampleStd exampleInterfaceKey
    (fun _ _ h => exampleInterfaceKey_injective h) "k" "a::1" "::1" "memif1" " MEMIF1 " 0 true
    addrA1 addrLoopback rfl (by decide) rfl (by decide) (by decide)

end descriptor
